import Mathlib

/-!
# BotW-BetterVR: the Vulkan framebuffer hooks (`src/hooking/framebuffer.cpp`)

A shallow embedding of the intercepted entry points `CreateImage`, `DestroyImage`,
`CmdClearColorImage`, `CmdClearDepthStencilImage` and `QueueSubmit`.

Conventions of the embedding.

* Vulkan handles and `SharedTexture*` pointers are natural numbers, `VK_NULL_HANDLE` is `0`.
* The process-wide globals (`imageResolutions`, `s_activeCopyOperations`, `s_curr3DColorImage`,
  `s_curr3DDepthImage`) and the renderer object reached through `GetRenderer()` form the
  `State`. Every call that leaves `framebuffer.cpp` (driver dispatch, `VulkanUtils`, layer objects,
  overlay, renderer notifications) is appended to `State.calls`, in program order.
  `Log::print` calls and mutex operations are not recorded.
* Answers of external collaborators during one call are the fields of `Collaborators`.
* `float` payloads are rationals: the exact value of a finite `float`. The window tests compare
  against the decimal literals of the source. `std::lroundf` is rounding half away from zero.
* A `(count, pointer)` pair of the Vulkan API is a list; its count is the length of the list.
* `checkAssert` failures, dereferences of pointers that the source itself treats as
  nullable (`GetRenderer()`, `m_layer3D`, `m_imguiOverlay`), and writes past the end of a
  `std::vector` are `Except.error`: the call does not return.
* The external mutators `On3DColorCopied`, `On3DDepthCopied`, `On2DCopied` and the frame-slot
  record are not in the source files; they follow the interface description of the design
  document and are marked as such.
-/

namespace BetterVR

/-! ## Handles and constants -/

abbrev VkImage := Nat
abbrev VkCommandBuffer := Nat
abbrev VkSemaphore := Nat
abbrev VkQueue := Nat
abbrev VkFence := Nat
abbrev VkImageLayout := Nat
abbrev VkFormat := Nat
abbrev VkResult := Int
abbrev VkImageSubresourceRange := Nat
abbrev SharedTexture := Nat

def VK_NULL_HANDLE : Nat := 0
def VK_SUCCESS : VkResult := 0
def VK_IMAGE_LAYOUT_TRANSFER_SRC_OPTIMAL : VkImageLayout := 6
def VK_IMAGE_LAYOUT_TRANSFER_DST_OPTIMAL : VkImageLayout := 7
def VK_FORMAT_A2B10G10R10_UNORM_PACK32 : VkFormat := 64
def VK_FORMAT_B10G11R11_UFLOAT_PACK32 : VkFormat := 122
def VK_FORMAT_D32_SFLOAT : VkFormat := 126
def VK_IMAGE_ASPECT_DEPTH_BIT : Nat := 2
def VK_PIPELINE_STAGE_ALL_COMMANDS_BIT : Nat := 0x10000

/-- The two eyes of `OpenXR::EyeSide`; the source's `(EyeSide)-1` is `none : Option EyeSide`. -/
inductive EyeSide
  | LEFT
  | RIGHT
  deriving DecidableEq, Repr

structure VkExtent2D where
  width : Nat
  height : Nat
  deriving DecidableEq, Repr

/-- The union member `float32[4]` of `VkClearColorValue`. -/
structure VkClearColorValue where
  float32_0 : ℚ
  float32_1 : ℚ
  float32_2 : ℚ
  float32_3 : ℚ
  deriving DecidableEq, Repr

structure VkClearDepthStencilValue where
  depth : ℚ
  stencil : Nat
  deriving DecidableEq, Repr

structure VkImageCreateInfo where
  extent : VkExtent2D
  format : VkFormat
  deriving DecidableEq, Repr

/-- One structure of a `pNext` chain. A structure whose `sType` is
`VK_STRUCTURE_TYPE_TIMELINE_SEMAPHORE_SUBMIT_INFO` is a `VkTimelineSemaphoreSubmitInfo`
with its two value arrays; any other structure is kept as its `sType` and an opaque body. -/
inductive VkBaseInStructure
  | timelineSemaphoreSubmitInfo (pWaitSemaphoreValues pSignalSemaphoreValues : List Nat)
  | other (sType : Nat) (body : Nat)
  deriving DecidableEq, Repr

/-- The `VkSubmitInfo` of one sub-batch; `pWaitDstStageMask` is the array of
`waitSemaphoreCount` stage masks. -/
structure VkSubmitInfo where
  pNext : List VkBaseInStructure
  pWaitSemaphores : List VkSemaphore
  pWaitDstStageMask : List Nat
  pCommandBuffers : List VkCommandBuffer
  pSignalSemaphores : List VkSemaphore
  deriving DecidableEq, Repr

/-- Which array `pDispatch->QueueSubmit` received: the caller's own `pSubmits`, or the
`shadowSubmits` vector built by the override. -/
inductive SubmitArray
  | caller (pSubmits : List VkSubmitInfo)
  | shadow (shadowSubmits : List VkSubmitInfo)
  deriving DecidableEq, Repr

/-- Calls that leave `framebuffer.cpp`, with their arguments (and, for the layer copies,
the `SharedTexture*` they returned). -/
inductive Event
  | VRManagerInit
  | DriverCreateImage (pCreateInfo : VkImageCreateInfo) (pImage : VkImage)
  | DriverDestroyImage (image : VkImage)
  | DriverCmdClearColorImage (commandBuffer : VkCommandBuffer) (image : VkImage)
      (imageLayout : VkImageLayout) (color : VkClearColorValue) (rangeCount : Nat)
      (pRanges : List VkImageSubresourceRange)
  | DriverCmdClearDepthStencilImage (commandBuffer : VkCommandBuffer) (image : VkImage)
      (imageLayout : VkImageLayout) (pDepthStencil : VkClearDepthStencilValue) (rangeCount : Nat)
      (pRanges : List VkImageSubresourceRange)
  | DriverQueueSubmit (queue : VkQueue) (pSubmits : SubmitArray) (fence : VkFence)
  | TransitionLayout (commandBuffer : VkCommandBuffer) (image : VkImage)
      (oldLayout newLayout : VkImageLayout) (aspect : Option Nat)
  | DebugPipelineBarrier (commandBuffer : VkCommandBuffer)
  | NewImGuiOverlay (commandBuffer : VkCommandBuffer) (width height : Nat) (format : VkFormat)
  | Layer3D_CopyColorToLayer (side : EyeSide) (commandBuffer : VkCommandBuffer) (image : VkImage)
      (frameIdx : Nat) (currentLayout : VkImageLayout) (texture : SharedTexture)
  | Layer3D_CopyDepthToLayer (side : EyeSide) (commandBuffer : VkCommandBuffer) (image : VkImage)
      (frameIdx : Nat) (currentLayout : VkImageLayout) (texture : SharedTexture)
  | Layer2D_CopyColorToLayer (commandBuffer : VkCommandBuffer) (image : VkImage)
      (frameIdx : Nat) (currentLayout : VkImageLayout) (texture : SharedTexture)
  | On3DColorCopied (side : EyeSide) (frameIdx : Nat)
  | On3DDepthCopied (side : EyeSide) (frameIdx : Nat)
  | On2DCopied (frameIdx : Nat)
  | Draw3DLayerAsBackground (commandBuffer : VkCommandBuffer) (image : VkImage)
      (aspectRatio : ℚ) (frameIdx : Nat) (currentLayout : VkImageLayout)
  | DrawHUDLayerAsBackground (commandBuffer : VkCommandBuffer) (image : VkImage)
      (frameIdx : Nat) (currentLayout : VkImageLayout)
  | BeginFrame (frameIdx : Nat) (isRightEye : Bool)
  | Update
  | Render
  | DrawAndCopyToImage (commandBuffer : VkCommandBuffer) (image : VkImage) (frameIdx : Nat)
  deriving DecidableEq, Repr

/-! ## Renderer object and global state -/

/-- Modelled from the spec: the `FrameSlot` record returned by `GetFrame(slot)`, whose
declaration is not in the source files. Its fields are the five flags of the Frame State
Tracker: `copiedColor[2]` and `copiedDepth[2]` (per eye) and `copied2D`. -/
structure Frame where
  copiedColorLeft : Bool
  copiedColorRight : Bool
  copiedDepthLeft : Bool
  copiedDepthRight : Bool
  copied2D : Bool
  deriving DecidableEq, Repr

def Frame.copiedColor (f : Frame) : EyeSide → Bool
  | .LEFT => f.copiedColorLeft
  | .RIGHT => f.copiedColorRight

def Frame.copiedDepth (f : Frame) : EyeSide → Bool
  | .LEFT => f.copiedDepthLeft
  | .RIGHT => f.copiedDepthRight

/-- Constructor arguments of the `ImGuiOverlay` held by `m_imguiOverlay`. -/
structure ImGuiOverlay where
  width : Nat
  height : Nat
  format : VkFormat
  deriving DecidableEq, Repr

/-- The members of `RND_Renderer` that the hooks read or write: the three `unique_ptr`s
(`none` is a null pointer; a layer is kept as the extent it was constructed with) and the
two frame slots. -/
structure RND_Renderer where
  m_layer3D : Option VkExtent2D
  m_layer2D : Option VkExtent2D
  m_imguiOverlay : Option ImGuiOverlay
  frame0 : Frame
  frame1 : Frame
  deriving DecidableEq, Repr

/-- Modelled from the spec: `GetFrame(slot) -> FrameSlot&` over the two frame slots
(slot `0`, and slot `1` for every other index the callers pass, which is only `1`). -/
def RND_Renderer.GetFrame (r : RND_Renderer) (frameIdx : Nat) : Frame :=
  if frameIdx = 0 then r.frame0 else r.frame1

def RND_Renderer.setFrame (r : RND_Renderer) (frameIdx : Nat) (f : Frame) : RND_Renderer :=
  if frameIdx = 0 then { r with frame0 := f } else { r with frame1 := f }

/-- Modelled from the spec: `On3DColorCopied(eye, slot)`, a mutator that flips the
`copiedColor[eye]` flag of the slot to true (the renderer's source is not in the files). -/
def RND_Renderer.On3DColorCopied (r : RND_Renderer) (side : EyeSide) (frameIdx : Nat) :
    RND_Renderer :=
  match side with
  | .LEFT => r.setFrame frameIdx { r.GetFrame frameIdx with copiedColorLeft := true }
  | .RIGHT => r.setFrame frameIdx { r.GetFrame frameIdx with copiedColorRight := true }

/-- Modelled from the spec: `On3DDepthCopied(eye, slot)`, a mutator that flips the
`copiedDepth[eye]` flag of the slot to true (the renderer's source is not in the files). -/
def RND_Renderer.On3DDepthCopied (r : RND_Renderer) (side : EyeSide) (frameIdx : Nat) :
    RND_Renderer :=
  match side with
  | .LEFT => r.setFrame frameIdx { r.GetFrame frameIdx with copiedDepthLeft := true }
  | .RIGHT => r.setFrame frameIdx { r.GetFrame frameIdx with copiedDepthRight := true }

/-- Modelled from the spec: `On2DCopied(slot)`, a mutator that flips the `copied2D` flag of
the slot to true (the renderer's source is not in the files). -/
def RND_Renderer.On2DCopied (r : RND_Renderer) (frameIdx : Nat) : RND_Renderer :=
  r.setFrame frameIdx { r.GetFrame frameIdx with copied2D := true }

/-- The globals of `framebuffer.cpp`, the objects reached through `VRManager::instance()`,
and the record of outgoing calls. `renderer = none` is `GetRenderer() == nullptr`. -/
structure State where
  imageResolutions : List (VkImage × (VkExtent2D × VkFormat))
  s_activeCopyOperations : List (VkCommandBuffer × SharedTexture)
  s_curr3DColorImage : VkImage
  s_curr3DDepthImage : VkImage
  VK : Bool
  renderer : Option RND_Renderer
  m_entityDebugger : Bool
  calls : List Event
  deriving DecidableEq, Repr

/-- What the external collaborators answer during one intercepted call. -/
structure Collaborators where
  UseBlackBarsDuringEvents : Bool
  ShowDebugOverlay : Bool
  IsInitialized : Bool
  IsRendering3D : Nat → Bool
  GetAspectRatio : EyeSide → ℚ
  Layer3D_CopyColorToLayer : EyeSide → VkCommandBuffer → VkImage → Nat → SharedTexture
  Layer3D_CopyDepthToLayer : EyeSide → VkCommandBuffer → VkImage → Nat → SharedTexture
  Layer2D_CopyColorToLayer : VkCommandBuffer → VkImage → Nat → SharedTexture
  GetVulkanWaitValue : SharedTexture → Nat
  GetVulkanSignalValue : SharedTexture → Nat
  GetSemaphoreForWait : SharedTexture → Nat → VkSemaphore
  GetSemaphoreForSignal : SharedTexture → Nat → VkSemaphore
  driverQueueSubmitResult : VkResult

def State.call (s : State) (e : Event) : State :=
  { s with calls := s.calls ++ [e] }

/-- The lookup `imageResolutions.find(image)`. -/
def State.findImage (s : State) (image : VkImage) : Option (VkExtent2D × VkFormat) :=
  s.imageResolutions.lookup image

/-! ## `CreateImage` and `DestroyImage` -/

/-- `VkDeviceOverrides::CreateImage`; `res` and `pImage` are what the driver returned. -/
def CreateImage (s : State) (pCreateInfo : VkImageCreateInfo) (res : VkResult)
    (pImage : VkImage) : Except String (State × VkResult) :=
  let s1 := s.call (.DriverCreateImage pCreateInfo pImage)
  if 1280 ≤ pCreateInfo.extent.width ∧ 720 ≤ pCreateInfo.extent.height then
    match s1.findImage pImage with
    | some _ => .error "Could not insert image resolution into map!"
    | none =>
      .ok ({ s1 with imageResolutions :=
              (pImage, (pCreateInfo.extent, pCreateInfo.format)) :: s1.imageResolutions }, res)
  else
    .ok (s1, res)

/-- `VkDeviceOverrides::DestroyImage`. -/
def DestroyImage (s : State) (image : VkImage) : State :=
  let s1 := { s with imageResolutions := s.imageResolutions.filter (fun e => e.1 ≠ image) }
  let s2 :=
    if s1.s_curr3DColorImage = image then { s1 with s_curr3DColorImage := VK_NULL_HANDLE }
    else if s1.s_curr3DDepthImage = image then { s1 with s_curr3DDepthImage := VK_NULL_HANDLE }
    else s1
  s2.call (.DriverDestroyImage image)

/-! ## `CmdClearColorImage` -/

/-- The eye test on the clear colour (lines 46-52): `float32[1]` and `float32[2]` in the
windows `[0.12, 0.13]` and `[0.97, 0.99]` give LEFT, the swapped windows give RIGHT. -/
def colorSide (pColor : VkClearColorValue) : Option EyeSide :=
  if 0.12 ≤ pColor.float32_1 ∧ pColor.float32_1 ≤ 0.13 ∧
      0.97 ≤ pColor.float32_2 ∧ pColor.float32_2 ≤ 0.99 then
    some .LEFT
  else if 0.12 ≤ pColor.float32_2 ∧ pColor.float32_2 ≤ 0.13 ∧
      0.97 ≤ pColor.float32_1 ∧ pColor.float32_1 ≤ 0.99 then
    some .RIGHT
  else
    none

/-- The function `std::lroundf`: the nearest integer, halfway cases away from zero. -/
def lroundf (x : ℚ) : Int :=
  if 0 ≤ x then ⌊x + 1 / 2⌋ else -⌊-x + 1 / 2⌋

/-- Line 97: `captureIdx = std::lroundf(pColor->float32[0] * 32.0f)`. -/
def captureIdx (pColor : VkClearColorValue) : Int :=
  lroundf (pColor.float32_0 * 32)

/-- Line 98: `frameIdx = pColor->float32[3] < 0.5f ? 0 : 1`. -/
def frameIdx (pColor : VkClearColorValue) : Nat :=
  if pColor.float32_3 < 0.5 then 0 else 1

def transparentClear : VkClearColorValue := ⟨0, 0, 0, 0⟩

def blackClear : VkClearColorValue := ⟨0, 0, 0, 1⟩

/-- Lines 54-57: initialise the `VRManager` when its `VK` member is still null. -/
def initVRManager (s : State) : State :=
  if s.VK then s else { s.call .VRManagerInit with VK := true }

/-- The working state of one `CmdClearColorImage` call once a renderer is at hand: the
globals, the renderer object, and the two layout-tracking locals of lines 62 and 76. -/
structure Locals where
  st : State
  renderer : RND_Renderer
  transitionedToSrc : Bool
  transitionedToDst : Bool
  deriving DecidableEq, Repr

def Locals.call (l : Locals) (e : Event) : Locals :=
  { l with st := l.st.call e }

/-- Leaving the function: the renderer object is the one `GetRenderer()` points at. -/
def Locals.done (l : Locals) : State :=
  { l.st with renderer := some l.renderer }

/-- The statement `s_activeCopyOperations.emplace_back(commandBuffer, texture)`. -/
def Locals.enqueue (l : Locals) (commandBuffer : VkCommandBuffer) (texture : SharedTexture) :
    Locals :=
  { l with st := { l.st with
      s_activeCopyOperations := l.st.s_activeCopyOperations ++ [(commandBuffer, texture)] } }

/-- The lambda `ensureSrcLayout` (lines 63-68). -/
def ensureSrcLayout (commandBuffer : VkCommandBuffer) (image : VkImage)
    (originalLayout : VkImageLayout) (l : Locals) : Locals :=
  if !l.transitionedToSrc then
    { l.call (.TransitionLayout commandBuffer image originalLayout
        VK_IMAGE_LAYOUT_TRANSFER_SRC_OPTIMAL none) with transitionedToSrc := true }
  else l

/-- The lambda `restoreLayout` (lines 69-74). -/
def restoreLayout (commandBuffer : VkCommandBuffer) (image : VkImage)
    (originalLayout : VkImageLayout) (l : Locals) : Locals :=
  if l.transitionedToSrc then
    { l.call (.TransitionLayout commandBuffer image VK_IMAGE_LAYOUT_TRANSFER_SRC_OPTIMAL
        originalLayout none) with transitionedToSrc := false }
  else l

/-- The lambda `ensureDstLayout` (lines 77-88). -/
def ensureDstLayout (commandBuffer : VkCommandBuffer) (image : VkImage)
    (originalLayout : VkImageLayout) (l : Locals) : Locals :=
  if l.transitionedToSrc then
    { l.call (.TransitionLayout commandBuffer image VK_IMAGE_LAYOUT_TRANSFER_SRC_OPTIMAL
        VK_IMAGE_LAYOUT_TRANSFER_DST_OPTIMAL none) with
      transitionedToSrc := false, transitionedToDst := true }
  else if !l.transitionedToDst then
    { l.call (.TransitionLayout commandBuffer image originalLayout
        VK_IMAGE_LAYOUT_TRANSFER_DST_OPTIMAL none) with transitionedToDst := true }
  else l

/-- The lambda `restoreFromDst` (lines 89-94). -/
def restoreFromDst (commandBuffer : VkCommandBuffer) (image : VkImage)
    (originalLayout : VkImageLayout) (l : Locals) : Locals :=
  if l.transitionedToDst then
    { l.call (.TransitionLayout commandBuffer image VK_IMAGE_LAYOUT_TRANSFER_DST_OPTIMAL
        originalLayout none) with transitionedToDst := false }
  else l

/-- Lines 113-131: construct the 3D layer, the 2D layer and the overlay together when
`layer2D` is still null, from the registered extent of the image. -/
def initLayers (env : Collaborators) (l : Locals) (captureIdx : Int)
    (commandBuffer : VkCommandBuffer) (image : VkImage) : Except String Locals :=
  if captureIdx = 0 ∨ captureIdx = 2 then
    match l.renderer.m_layer2D with
    | some _ => .ok l
    | none =>
      match l.st.findImage image with
      | some it =>
        let l1 : Locals := { l with renderer := { l.renderer with
          m_layer3D := some it.1
          m_layer2D := some it.1
          m_imguiOverlay := some ⟨it.1.width, it.1.height, VK_FORMAT_A2B10G10R10_UNORM_PACK32⟩ } }
        let l2 := l1.call (.NewImGuiOverlay commandBuffer it.1.width it.1.height
          VK_FORMAT_A2B10G10R10_UNORM_PACK32)
        .ok (if env.ShowDebugOverlay then
          { l2 with st := { l2.st with m_entityDebugger := true } } else l2)
      | none => .error "Could not find image resolution in map!"
  else .ok l

/-- Lines 142-150: resolve `s_curr3DColorImage` while it is still `VK_NULL_HANDLE`. -/
def resolve3DColorImage (l : Locals) (image : VkImage) : Locals :=
  if l.st.s_curr3DColorImage = VK_NULL_HANDLE then
    match l.st.findImage image with
    | some it =>
      if it.2 = VK_FORMAT_B10G11R11_UFLOAT_PACK32 then
        { l with st := { l.st with s_curr3DColorImage := image } }
      else l
    | none => l
  else l

/-- Lines 138-214: the branch `captureIdx == 0`, the colour texture of the 3D layer. -/
def clearColor3D (env : Collaborators) (l0 : Locals) (side : EyeSide) (frameIdx : Nat)
    (commandBuffer : VkCommandBuffer) (image : VkImage) (imageLayout : VkImageLayout)
    (rangeCount : Nat) (pRanges : List VkImageSubresourceRange) : Except String State :=
  let l := resolve3DColorImage l0 image
  if env.UseBlackBarsDuringEvents then .ok l.done
  else if image ≠ l.st.s_curr3DColorImage then
    let clearColor := if env.IsRendering3D frameIdx then transparentClear else blackClear
    .ok (l.call (.DriverCmdClearColorImage commandBuffer image imageLayout clearColor
      rangeCount pRanges)).done
  else if (l.renderer.GetFrame frameIdx).copiedColor side then
    .ok (l.call (.DriverCmdClearColorImage commandBuffer image imageLayout transparentClear
      rangeCount pRanges)).done
  else
    let l := ensureSrcLayout commandBuffer image imageLayout l
    let texture := env.Layer3D_CopyColorToLayer side commandBuffer image frameIdx
    let l := l.call (.Layer3D_CopyColorToLayer side commandBuffer image frameIdx
      VK_IMAGE_LAYOUT_TRANSFER_SRC_OPTIMAL texture)
    let l := { l.call (.On3DColorCopied side frameIdx) with
      renderer := l.renderer.On3DColorCopied side frameIdx }
    let l := l.enqueue commandBuffer texture
    let l := l.call (.DebugPipelineBarrier commandBuffer)
    let afterBackground : Except String Locals :=
      if side = .RIGHT then
        match l.renderer.m_imguiOverlay with
        | some _ =>
          .ok ((l.call (.Draw3DLayerAsBackground commandBuffer image (env.GetAspectRatio side)
            frameIdx VK_IMAGE_LAYOUT_TRANSFER_SRC_OPTIMAL)).call
              (.DebugPipelineBarrier commandBuffer))
        | none => .error "null imguiOverlay dereferenced"
      else .ok l
    match afterBackground with
    | .error e => .error e
    | .ok l =>
      let l := restoreLayout commandBuffer image imageLayout l
      let l := l.call (.DriverCmdClearColorImage commandBuffer image imageLayout
        transparentClear rangeCount pRanges)
      let l := l.call (.DebugPipelineBarrier commandBuffer)
      .ok l.done

/-- Lines 229-246: with an overlay at hand, feed the image as HUD background, render the
overlay and copy its output back into the image. -/
def renderHUDOverlay (l : Locals) (hudCopied : Bool) (frameIdx : Nat)
    (commandBuffer : VkCommandBuffer) (image : VkImage) (imageLayout : VkImageLayout) :
    Locals :=
  let l :=
    if l.renderer.m_imguiOverlay.isSome ∧ ¬ hudCopied then
      let l := ensureSrcLayout commandBuffer image imageLayout l
      let l := l.call (.DrawHUDLayerAsBackground commandBuffer image frameIdx
        VK_IMAGE_LAYOUT_TRANSFER_SRC_OPTIMAL)
      l.call (.DebugPipelineBarrier commandBuffer)
    else l
  if l.renderer.m_imguiOverlay.isSome ∧ ¬ hudCopied then
    let l := l.call (.BeginFrame frameIdx false)
    let l := l.call .Update
    let l := l.call .Render
    let l := ensureDstLayout commandBuffer image imageLayout l
    let l := l.call (.DrawAndCopyToImage commandBuffer image frameIdx)
    l.call (.DebugPipelineBarrier commandBuffer)
  else l

/-- Lines 215-291: the branch `captureIdx == 2`, the colour texture of the HUD layer. -/
def clearColor2D (env : Collaborators) (l : Locals) (side : EyeSide) (frameIdx : Nat)
    (commandBuffer : VkCommandBuffer) (image : VkImage) (imageLayout : VkImageLayout)
    (rangeCount : Nat) (pRanges : List VkImageSubresourceRange) : State :=
  let hudCopied := (l.renderer.GetFrame frameIdx).copied2D
  match side with
  | .LEFT =>
    if hudCopied then
      (l.call (.DriverCmdClearColorImage commandBuffer image imageLayout transparentClear
        rangeCount pRanges)).done
    else
      let l := renderHUDOverlay l hudCopied frameIdx commandBuffer image imageLayout
      let l :=
        if l.transitionedToDst then
          { l.call (.TransitionLayout commandBuffer image VK_IMAGE_LAYOUT_TRANSFER_DST_OPTIMAL
              VK_IMAGE_LAYOUT_TRANSFER_SRC_OPTIMAL none) with
            transitionedToDst := false, transitionedToSrc := true }
        else ensureSrcLayout commandBuffer image imageLayout l
      let texture := env.Layer2D_CopyColorToLayer commandBuffer image frameIdx
      let l := l.call (.Layer2D_CopyColorToLayer commandBuffer image frameIdx
        VK_IMAGE_LAYOUT_TRANSFER_SRC_OPTIMAL texture)
      let l := l.call (.DebugPipelineBarrier commandBuffer)
      let l := { l.call (.On2DCopied frameIdx) with renderer := l.renderer.On2DCopied frameIdx }
      let l := l.enqueue commandBuffer texture
      let l := restoreLayout commandBuffer image imageLayout l
      (restoreLayout commandBuffer image imageLayout l).done
  | .RIGHT =>
    if l.renderer.m_imguiOverlay.isSome then
      let l := l.call (.BeginFrame frameIdx true)
      let l := l.call .Update
      let l := l.call .Render
      let l := ensureDstLayout commandBuffer image imageLayout l
      let l := l.call (.DrawAndCopyToImage commandBuffer image frameIdx)
      let l := l.call (.DebugPipelineBarrier commandBuffer)
      (restoreFromDst commandBuffer image imageLayout l).done
    else if hudCopied then
      (l.call (.DriverCmdClearColorImage commandBuffer image imageLayout transparentClear
        rangeCount pRanges)).done
    else
      (restoreLayout commandBuffer image imageLayout l).done

/-- `VkDeviceOverrides::CmdClearColorImage` (lines 44-297). -/
def CmdClearColorImage (env : Collaborators) (s : State) (commandBuffer : VkCommandBuffer)
    (image : VkImage) (imageLayout : VkImageLayout) (pColor : VkClearColorValue)
    (rangeCount : Nat) (pRanges : List VkImageSubresourceRange) : Except String State :=
  let s1 := initVRManager s
  match colorSide pColor with
  | none =>
    .ok (s1.call (.DriverCmdClearColorImage commandBuffer image imageLayout pColor
      rangeCount pRanges))
  | some side =>
    if ¬ (captureIdx pColor = 0 ∨ captureIdx pColor = 2) then
      .error "Invalid capture index!"
    else
      match s1.renderer with
      | none =>
        .ok (s1.call (.DriverCmdClearColorImage commandBuffer image imageLayout pColor
          rangeCount pRanges))
      | some renderer =>
        match initLayers env ⟨s1, renderer, false, false⟩ (captureIdx pColor)
            commandBuffer image with
        | .error e => .error e
        | .ok l =>
          if !env.IsInitialized then .ok l.done
          else if ¬ (l.renderer.m_layer3D.isSome ∧ l.renderer.m_layer2D.isSome) then
            .error "Could not find 3D or 2D layer!"
          else if captureIdx pColor = 0 then
            clearColor3D env l side (frameIdx pColor) commandBuffer image imageLayout
              rangeCount pRanges
          else if captureIdx pColor = 2 then
            .ok (clearColor2D env l side (frameIdx pColor) commandBuffer image imageLayout
              rangeCount pRanges)
          else .ok l.done

/-! ## `CmdClearDepthStencilImage` -/

/-- The eye test on the clear depth (lines 302-308). -/
def depthSide (depth : ℚ) : Option EyeSide :=
  if 0.011456789 ≤ depth ∧ depth ≤ 0.013456789 then some .LEFT
  else if 0.153987654 ≤ depth ∧ depth ≤ 0.173987654 then some .RIGHT
  else none

/-- Lines 326-334: resolve `s_curr3DDepthImage` while it is still `VK_NULL_HANDLE`. -/
def resolve3DDepthImage (s : State) (image : VkImage) : State :=
  if s.s_curr3DDepthImage = VK_NULL_HANDLE then
    match s.findImage image with
    | some it =>
      if it.2 = VK_FORMAT_D32_SFLOAT then { s with s_curr3DDepthImage := image } else s
    | none => s
  else s

/-- Lines 311-367: the body run for a recognised depth clear. -/
def clearDepth3D (env : Collaborators) (s : State) (side : EyeSide)
    (commandBuffer : VkCommandBuffer) (image : VkImage) (imageLayout : VkImageLayout)
    (pDepthStencil : VkClearDepthStencilValue) : Except String State :=
  let frameCounter := pDepthStencil.stencil
  if ¬ (frameCounter = 0 ∨ frameCounter = 1) then
    .error "Invalid frame counter for depth clear!"
  else
    match s.renderer with
    | none => .error "null renderer dereferenced"
    | some renderer =>
      if !env.IsInitialized then .ok s
      else
        let s1 := resolve3DDepthImage s image
        if image ≠ s1.s_curr3DDepthImage then .ok s1
        else if (renderer.GetFrame frameCounter).copiedDepth side then .ok s1
        else
          let s2 := s1.call (.TransitionLayout commandBuffer image imageLayout
            VK_IMAGE_LAYOUT_TRANSFER_SRC_OPTIMAL (some VK_IMAGE_ASPECT_DEPTH_BIT))
          match renderer.m_layer3D with
          | none => .error "null layer3D dereferenced"
          | some _ =>
            let texture := env.Layer3D_CopyDepthToLayer side commandBuffer image frameCounter
            let s3 := s2.call (.Layer3D_CopyDepthToLayer side commandBuffer image frameCounter
              VK_IMAGE_LAYOUT_TRANSFER_SRC_OPTIMAL texture)
            let s4 := { s3.call (.On3DDepthCopied side frameCounter) with
              renderer := some (renderer.On3DDepthCopied side frameCounter) }
            let s5 := { s4 with
              s_activeCopyOperations := s4.s_activeCopyOperations ++ [(commandBuffer, texture)] }
            .ok (s5.call (.TransitionLayout commandBuffer image
              VK_IMAGE_LAYOUT_TRANSFER_SRC_OPTIMAL imageLayout (some VK_IMAGE_ASPECT_DEPTH_BIT)))

/-- `VkDeviceOverrides::CmdClearDepthStencilImage` (lines 299-372). -/
def CmdClearDepthStencilImage (env : Collaborators) (s : State)
    (commandBuffer : VkCommandBuffer) (image : VkImage) (imageLayout : VkImageLayout)
    (pDepthStencil : VkClearDepthStencilValue) (rangeCount : Nat)
    (pRanges : List VkImageSubresourceRange) : Except String State :=
  match decide (rangeCount = 1), depthSide pDepthStencil.depth with
  | true, some side =>
    clearDepth3D env s side commandBuffer image imageLayout pDepthStencil
  | _, _ =>
    .ok (s.call (.DriverCmdClearDepthStencilImage commandBuffer image imageLayout pDepthStencil
      rangeCount pRanges))

/-! ## `QueueSubmit` -/

/-- The five vectors of the local `ModifiedSubmitInfo_t` (lines 399-408). -/
structure ModifiedSubmitInfo_t where
  waitSemaphores : List VkSemaphore
  timelineWaitValues : List Nat
  waitDstStageMasks : List Nat
  signalSemaphores : List VkSemaphore
  timelineSignalValues : List Nat
  deriving DecidableEq, Repr

/-- Lines 448-455: the first `VkTimelineSemaphoreSubmitInfo` of the `pNext` chain. -/
def findTimelineInfo : List VkBaseInStructure → Option (List Nat × List Nat)
  | [] => none
  | .timelineSemaphoreSubmitInfo w g :: _ => some (w, g)
  | .other _ _ :: rest => findTimelineInfo rest

/-- The loops of lines 459-464: `dst[j] = src[j]` for `j = start, start + 1, ...` over the
values `src` still to copy; a write past the end of the vector `dst` has no defined
behaviour and is `none`. -/
def copyTimelineValues : List Nat → Nat → List Nat → Option (List Nat)
  | dst, _, [] => some dst
  | dst, j, v :: rest =>
    if j < dst.length then copyTimelineValues (dst.set j v) (j + 1) rest else none

/-- Lines 471-480: the five `emplace_back`s for one matching pending copy. -/
def appendCopy (env : Collaborators) (m : ModifiedSubmitInfo_t) (texture : SharedTexture) :
    ModifiedSubmitInfo_t :=
  let waitValue := env.GetVulkanWaitValue texture
  let signalValue := env.GetVulkanSignalValue texture
  { waitSemaphores := m.waitSemaphores ++ [env.GetSemaphoreForWait texture waitValue]
    waitDstStageMasks := m.waitDstStageMasks ++ [VK_PIPELINE_STAGE_ALL_COMMANDS_BIT]
    timelineWaitValues := m.timelineWaitValues ++ [waitValue]
    signalSemaphores := m.signalSemaphores ++ [env.GetSemaphoreForSignal texture signalValue]
    timelineSignalValues := m.timelineSignalValues ++ [signalValue] }

/-- The inner loop of lines 469-486 for one command buffer: walk `s_activeCopyOperations`,
erase every entry of that command buffer and append its semaphores. Returns the entries
that stay and the grown vectors. -/
def scanActiveCopies (env : Collaborators) (commandBuffer : VkCommandBuffer) :
    List (VkCommandBuffer × SharedTexture) → ModifiedSubmitInfo_t →
    List (VkCommandBuffer × SharedTexture) × ModifiedSubmitInfo_t
  | [], m => ([], m)
  | it :: rest, m =>
    if commandBuffer = it.1 then
      scanActiveCopies env commandBuffer rest (appendCopy env m it.2)
    else
      let r := scanActiveCopies env commandBuffer rest m
      (it :: r.1, r.2)

/-- The outer loop of lines 468-487 over `pCommandBuffers`. -/
def insertTimelineSemaphores (env : Collaborators) :
    List VkCommandBuffer → List (VkCommandBuffer × SharedTexture) → ModifiedSubmitInfo_t →
    List (VkCommandBuffer × SharedTexture) × ModifiedSubmitInfo_t
  | [], ops, m => (ops, m)
  | commandBuffer :: rest, ops, m =>
    let r := scanActiveCopies env commandBuffer ops m
    insertTimelineSemaphores env rest r.1 r.2

/-- Lines 437-465: the vectors before any pending copy is inserted; `none` when copying an
existing timeline value writes past the end of a vector. -/
def initialVectors (submitInfo : VkSubmitInfo) : Option ModifiedSubmitInfo_t :=
  let waitValues := List.replicate submitInfo.pWaitSemaphores.length 0
  let signalValues := List.replicate submitInfo.pSignalSemaphores.length 0
  match findTimelineInfo submitInfo.pNext with
  | none =>
    some { waitSemaphores := submitInfo.pWaitSemaphores
           timelineWaitValues := waitValues
           waitDstStageMasks := submitInfo.pWaitDstStageMask
           signalSemaphores := submitInfo.pSignalSemaphores
           timelineSignalValues := signalValues }
  | some existingTimelineInfo =>
    match copyTimelineValues waitValues 0 existingTimelineInfo.1 with
    | none => none
    | some w =>
      match copyTimelineValues signalValues 0 existingTimelineInfo.2 with
      | none => none
      | some g =>
        some { waitSemaphores := submitInfo.pWaitSemaphores
               timelineWaitValues := w
               waitDstStageMasks := submitInfo.pWaitDstStageMask
               signalSemaphores := submitInfo.pSignalSemaphores
               timelineSignalValues := g }

/-- Lines 489-506: the shadow `VkSubmitInfo`, whose chain is the rebuilt timeline structure
in front of the caller's chain. -/
def shadowSubmit (submitInfo : VkSubmitInfo) (m : ModifiedSubmitInfo_t) : VkSubmitInfo :=
  { pNext := .timelineSemaphoreSubmitInfo m.timelineWaitValues m.timelineSignalValues ::
      submitInfo.pNext
    pWaitSemaphores := m.waitSemaphores
    pWaitDstStageMask := m.waitDstStageMasks
    pCommandBuffers := submitInfo.pCommandBuffers
    pSignalSemaphores := m.signalSemaphores }

/-- One iteration of the loop of lines 430-507: the entries left in `s_activeCopyOperations`
and the shadow sub-batch. -/
def rewriteSubmit (env : Collaborators) (ops : List (VkCommandBuffer × SharedTexture))
    (submitInfo : VkSubmitInfo) :
    Except String (List (VkCommandBuffer × SharedTexture) × VkSubmitInfo) :=
  match initialVectors submitInfo with
  | none => .error "timeline value written out of range"
  | some m =>
    let r := insertTimelineSemaphores env submitInfo.pCommandBuffers ops m
    .ok (r.1, shadowSubmit submitInfo r.2)

/-- The loop of lines 430-507 over the sub-batches, in submission order. -/
def rewriteSubmits (env : Collaborators) :
    List (VkCommandBuffer × SharedTexture) → List VkSubmitInfo →
    Except String (List (VkCommandBuffer × SharedTexture) × List VkSubmitInfo)
  | ops, [] => .ok (ops, [])
  | ops, submitInfo :: rest =>
    match rewriteSubmit env ops submitInfo with
    | .error e => .error e
    | .ok r =>
      match rewriteSubmits env r.1 rest with
      | .error e => .error e
      | .ok r2 => .ok (r2.1, r.2 :: r2.2)

/-- `VkDeviceOverrides::QueueSubmit` (lines 394-516): the new state and the returned
`VkResult`. -/
def QueueSubmit (env : Collaborators) (s : State) (queue : VkQueue)
    (pSubmits : List VkSubmitInfo) (fence : VkFence) : Except String (State × VkResult) :=
  if s.s_activeCopyOperations.length = 0 then
    .ok (s.call (.DriverQueueSubmit queue (.caller pSubmits) fence),
      env.driverQueueSubmitResult)
  else
    match rewriteSubmits env s.s_activeCopyOperations pSubmits with
    | .error e => .error e
    | .ok r =>
      .ok (({ s with s_activeCopyOperations := r.1 }).call
        (.DriverQueueSubmit queue (.shadow r.2) fence), env.driverQueueSubmitResult)

/-! ## Recorded call sequences used in the statements -/

/-- The calls made by the lazy construction of lines 113-131. -/
def layerInitCalls (s : State) (r : RND_Renderer) (commandBuffer : VkCommandBuffer)
    (image : VkImage) : List Event :=
  match r.m_layer2D, s.findImage image with
  | none, some it =>
    [.NewImGuiOverlay commandBuffer it.1.width it.1.height VK_FORMAT_A2B10G10R10_UNORM_PACK32]
  | _, _ => []


/-- The calls recorded by the copy path of lines 178-213. -/
def copy3DCalls (env : Collaborators) (e : EyeSide) (slot : Nat)
    (commandBuffer : VkCommandBuffer) (image : VkImage) (imageLayout : VkImageLayout)
    (rangeCount : Nat) (pRanges : List VkImageSubresourceRange) : List Event :=
  [.TransitionLayout commandBuffer image imageLayout VK_IMAGE_LAYOUT_TRANSFER_SRC_OPTIMAL none,
    .Layer3D_CopyColorToLayer e commandBuffer image slot VK_IMAGE_LAYOUT_TRANSFER_SRC_OPTIMAL
      (env.Layer3D_CopyColorToLayer e commandBuffer image slot),
    .On3DColorCopied e slot,
    .DebugPipelineBarrier commandBuffer] ++
  (if e = .RIGHT then
    [.Draw3DLayerAsBackground commandBuffer image (env.GetAspectRatio e) slot
        VK_IMAGE_LAYOUT_TRANSFER_SRC_OPTIMAL,
      .DebugPipelineBarrier commandBuffer]
   else []) ++
  [.TransitionLayout commandBuffer image VK_IMAGE_LAYOUT_TRANSFER_SRC_OPTIMAL imageLayout none,
    .DriverCmdClearColorImage commandBuffer image imageLayout transparentClear
      rangeCount pRanges,
    .DebugPipelineBarrier commandBuffer]


/-- The layer copies: the calls that fill a shared texture. -/
def Event.isLayerCopy : Event → Bool
  | .Layer3D_CopyColorToLayer .. => true
  | .Layer3D_CopyDepthToLayer .. => true
  | .Layer2D_CopyColorToLayer .. => true
  | _ => false

/-- The calls that forward a depth/stencil clear to the driver. -/
def Event.isDepthClear : Event → Bool
  | .DriverCmdClearDepthStencilImage .. => true
  | _ => false

/-- The calls appended to the record between the state `s` and the later state `s'`. -/
def newCalls (s s' : State) : List Event :=
  s'.calls.drop s.calls.length

/-- The wait values of the timeline structure already present in the chain of a sub-batch
(lines 446-455); no value when the chain has none. -/
def existingWaitValues (submitInfo : VkSubmitInfo) : List Nat :=
  match findTimelineInfo submitInfo.pNext with
  | some existingTimelineInfo => existingTimelineInfo.1
  | none => []

/-- The signal values of the timeline structure already present in the chain of a sub-batch;
no value when the chain has none. -/
def existingSignalValues (submitInfo : VkSubmitInfo) : List Nat :=
  match findTimelineInfo submitInfo.pNext with
  | some existingTimelineInfo => existingTimelineInfo.2
  | none => []

/-- The textures that the loops of lines 468-487 take out of `ops` for the command buffers
`commandBuffers`, in the order in which their semaphores are appended: command buffer by
command buffer, and for each the matching entries in queue order. -/
def drainedTextures : List VkCommandBuffer → List (VkCommandBuffer × SharedTexture) →
    List SharedTexture
  | [], _ => []
  | commandBuffer :: rest, ops =>
    (ops.filter (fun it => decide (commandBuffer = it.1))).map Prod.snd ++
      drainedTextures rest (ops.filter (fun it => !decide (commandBuffer = it.1)))

/-- The wait semaphore that a pending copy of `texture` adds (lines 472-473). -/
def waitSemaphoreOf (env : Collaborators) (texture : SharedTexture) : VkSemaphore :=
  env.GetSemaphoreForWait texture (env.GetVulkanWaitValue texture)

/-- The signal semaphore that a pending copy of `texture` adds (lines 478-479). -/
def signalSemaphoreOf (env : Collaborators) (texture : SharedTexture) : VkSemaphore :=
  env.GetSemaphoreForSignal texture (env.GetVulkanSignalValue texture)

/-- The hand-off queue at the moment the sub-batch that follows the sub-batches `earlier` is
processed: the entries of `ops` whose command buffer occurs in none of `earlier`. -/
def queueAfter (earlier : List VkSubmitInfo) (ops : List (VkCommandBuffer × SharedTexture)) :
    List (VkCommandBuffer × SharedTexture) :=
  ops.filter (fun it => decide (∀ b ∈ earlier, it.1 ∉ b.pCommandBuffers))

/-- The shadow sub-batch that the loop body of lines 430-507 builds for `submitInfo` when
the pending copies it drains are those of `texs`, in this order. -/
def expectedShadow (env : Collaborators) (submitInfo : VkSubmitInfo)
    (texs : List SharedTexture) : VkSubmitInfo :=
  { pNext := .timelineSemaphoreSubmitInfo
      (existingWaitValues submitInfo ++
        List.replicate
          (submitInfo.pWaitSemaphores.length - (existingWaitValues submitInfo).length) 0 ++
        texs.map env.GetVulkanWaitValue)
      (existingSignalValues submitInfo ++
        List.replicate
          (submitInfo.pSignalSemaphores.length - (existingSignalValues submitInfo).length) 0 ++
        texs.map env.GetVulkanSignalValue) :: submitInfo.pNext
    pWaitSemaphores := submitInfo.pWaitSemaphores ++ texs.map (waitSemaphoreOf env)
    pWaitDstStageMask := submitInfo.pWaitDstStageMask ++
      List.replicate texs.length VK_PIPELINE_STAGE_ALL_COMMANDS_BIT
    pCommandBuffers := submitInfo.pCommandBuffers
    pSignalSemaphores := submitInfo.pSignalSemaphores ++ texs.map (signalSemaphoreOf env) }

/-- The shadow sub-batches for a whole submission, each built from the queue that the
sub-batches before it left. -/
def expectedShadows (env : Collaborators) :
    List (VkCommandBuffer × SharedTexture) → List VkSubmitInfo → List VkSubmitInfo
  | _, [] => []
  | ops, submitInfo :: rest =>
    expectedShadow env submitInfo (drainedTextures submitInfo.pCommandBuffers ops) ::
      expectedShadows env (queueAfter [submitInfo] ops) rest

/-- The existing timeline values of a sub-batch fit the vectors sized to its semaphore
counts: `waitSemaphoreValueCount <= waitSemaphoreCount` and
`signalSemaphoreValueCount <= signalSemaphoreCount`. -/
def TimelineValuesFit (submitInfo : VkSubmitInfo) : Prop :=
  (existingWaitValues submitInfo).length ≤ submitInfo.pWaitSemaphores.length ∧
  (existingSignalValues submitInfo).length ≤ submitInfo.pSignalSemaphores.length

instance (submitInfo : VkSubmitInfo) : Decidable (TimelineValuesFit submitInfo) :=
  inferInstanceAs (Decidable (_ ∧ _))

/-! ## Sequences of clear commands -/

/-- The three kinds of shared-texture copies: the 3D colour image of an eye, the 3D depth
image of an eye, and the 2D (HUD) image. -/
inductive CopyKind
  | color3D (side : EyeSide)
  | depth3D (side : EyeSide)
  | hud2D
  deriving DecidableEq, Repr

/-- A layer copy read off the record of calls: its kind, its frame slot, and the pending
copy (command buffer, texture) that the hooks enqueue for it. -/
structure LayerCopy where
  kind : CopyKind
  frameIdx : Nat
  commandBuffer : VkCommandBuffer
  texture : SharedTexture
  deriving DecidableEq, Repr

def Event.layerCopy : Event → Option LayerCopy
  | .Layer3D_CopyColorToLayer side commandBuffer _ frameIdx _ texture =>
    some ⟨.color3D side, frameIdx, commandBuffer, texture⟩
  | .Layer3D_CopyDepthToLayer side commandBuffer _ frameIdx _ texture =>
    some ⟨.depth3D side, frameIdx, commandBuffer, texture⟩
  | .Layer2D_CopyColorToLayer commandBuffer _ frameIdx _ texture =>
    some ⟨.hud2D, frameIdx, commandBuffer, texture⟩
  | _ => none

/-- The layer copies of kind `kind` for frame slot `slot` among the calls `calls`. -/
def copiesOf (kind : CopyKind) (slot : Nat) (calls : List Event) : List LayerCopy :=
  (calls.filterMap Event.layerCopy).filter (fun c => decide (c.kind = kind ∧ c.frameIdx = slot))

/-- The pending copies that belong to the layer copies among the calls `calls`. -/
def pendingCopiesOf (calls : List Event) : List (VkCommandBuffer × SharedTexture) :=
  (calls.filterMap Event.layerCopy).map (fun c => (c.commandBuffer, c.texture))

/-- The flag of the Frame State Tracker for a kind of copy. -/
def Frame.copied (f : Frame) : CopyKind → Bool
  | .color3D side => f.copiedColor side
  | .depth3D side => f.copiedDepth side
  | .hud2D => f.copied2D

/-- The flag of kind `kind` in frame slot `slot`; false while there is no renderer. -/
def State.copied (s : State) (kind : CopyKind) (slot : Nat) : Bool :=
  match s.renderer with
  | some r => (r.GetFrame slot).copied kind
  | none => false

/-- One intercepted clear command with the collaborators' answers during it. -/
inductive ClearCall
  | color (env : Collaborators) (commandBuffer : VkCommandBuffer) (image : VkImage)
      (imageLayout : VkImageLayout) (pColor : VkClearColorValue) (rangeCount : Nat)
      (pRanges : List VkImageSubresourceRange)
  | depthStencil (env : Collaborators) (commandBuffer : VkCommandBuffer) (image : VkImage)
      (imageLayout : VkImageLayout) (pDepthStencil : VkClearDepthStencilValue)
      (rangeCount : Nat) (pRanges : List VkImageSubresourceRange)

def runClear (s : State) : ClearCall → Except String State
  | .color env commandBuffer image imageLayout pColor rangeCount pRanges =>
    CmdClearColorImage env s commandBuffer image imageLayout pColor rangeCount pRanges
  | .depthStencil env commandBuffer image imageLayout pDepthStencil rangeCount pRanges =>
    CmdClearDepthStencilImage env s commandBuffer image imageLayout pDepthStencil rangeCount
      pRanges

/-- A sequence of clear commands, run until the first fatal assertion: the state reached
by the commands that returned. Between the commands nothing else touches the state, so the
frame-slot flags are not reset. -/
def runClears : State → List ClearCall → State
  | s, [] => s
  | s, c :: rest =>
    match runClear s c with
    | .ok s' => runClears s' rest
    | .error _ => s

/-- What a run from `s` to `s'` keeps: the calls of `s'` extend those of `s`; the hand-off
queue grew by exactly the pending copies of the new layer copies; no flag was reset; and for
each kind and slot there is at most one new layer copy, none if the flag was already set,
and the flag is set afterwards if there is one. -/
def Step (s s' : State) : Prop :=
  ∃ extra : List Event, s'.calls = s.calls ++ extra ∧
    s'.s_activeCopyOperations = s.s_activeCopyOperations ++ pendingCopiesOf extra ∧
    ∀ kind slot,
      (s.copied kind slot = true → s'.copied kind slot = true) ∧
      (s.copied kind slot = true → copiesOf kind slot extra = []) ∧
      (copiesOf kind slot extra).length ≤ 1 ∧
      (copiesOf kind slot extra ≠ [] → s'.copied kind slot = true)

/-- A stretch of `CmdClearColorImage` that records no layer copy and leaves the renderer
object alone. -/
def Quiet (l l' : Locals) : Prop :=
  Step l.done l'.done ∧ l'.renderer = l.renderer

/-! ## Concrete inputs -/

/-- Collaborators of a running session: initialised, not in flat-2D mode. -/
def demoEnv : Collaborators :=
  { UseBlackBarsDuringEvents := false
    ShowDebugOverlay := false
    IsInitialized := true
    IsRendering3D := fun _ => false
    GetAspectRatio := fun _ => 16 / 9
    Layer3D_CopyColorToLayer := fun side _ _ frameIdx =>
      match side with
      | .LEFT => 100 + frameIdx
      | .RIGHT => 110 + frameIdx
    Layer3D_CopyDepthToLayer := fun side _ _ frameIdx =>
      match side with
      | .LEFT => 200 + frameIdx
      | .RIGHT => 210 + frameIdx
    Layer2D_CopyColorToLayer := fun _ _ frameIdx => 300 + frameIdx
    GetVulkanWaitValue := fun texture => 2 * texture
    GetVulkanSignalValue := fun texture => 2 * texture + 1
    GetSemaphoreForWait := fun texture _ => 1000 + texture
    GetSemaphoreForSignal := fun texture _ => 2000 + texture
    driverQueueSubmitResult := VK_SUCCESS }

def freshFrame : Frame := ⟨false, false, false, false, false⟩

/-- A renderer whose layers have not been constructed yet. -/
def demoRenderer : RND_Renderer :=
  { m_layer3D := none, m_layer2D := none, m_imguiOverlay := none,
    frame0 := freshFrame, frame1 := freshFrame }

/-- The state after image `7` (colour, 1920x1080) and image `8` (depth, 1920x1080) were
created. -/
def demoState : State :=
  { imageResolutions :=
      [(8, (⟨1920, 1080⟩, VK_FORMAT_D32_SFLOAT)),
       (7, (⟨1920, 1080⟩, VK_FORMAT_B10G11R11_UFLOAT_PACK32))]
    s_activeCopyOperations := []
    s_curr3DColorImage := VK_NULL_HANDLE
    s_curr3DDepthImage := VK_NULL_HANDLE
    VK := true
    renderer := some demoRenderer
    m_entityDebugger := false
    calls := [] }

/-- A renderer with its layers and overlay constructed, whose slot 0 has already captured
the left colour image. -/
def capturedRenderer : RND_Renderer :=
  { m_layer3D := some ⟨1920, 1080⟩, m_layer2D := some ⟨1920, 1080⟩,
    m_imguiOverlay := some ⟨1920, 1080, VK_FORMAT_A2B10G10R10_UNORM_PACK32⟩,
    frame0 := { freshFrame with copiedColorLeft := true }, frame1 := freshFrame }

/-- The state in which image `7` is the cached 3D colour image and the left colour of slot 0
has been captured. -/
def capturedState : State :=
  { demoState with s_curr3DColorImage := 7, renderer := some capturedRenderer }

/-- The left-eye, capture-index-0, slot-0 payload `(0.0, 0.125, 0.98, 0.2)`. -/
def leftPayload : VkClearColorValue := ⟨0.0, 0.125, 0.98, 0.2⟩

/-- The state in which the layers exist and no depth image has been cached yet. -/
def depthReadyState : State :=
  { demoState with renderer := some capturedRenderer }

/-- A state whose hand-off queue holds two pending copies of command buffer `11` around one
of command buffer `12`. -/
def pendingState : State :=
  { depthReadyState with s_activeCopyOperations := [(11, 100), (12, 300), (11, 200)] }

/-- A sub-batch of command buffer `21` alone, with one wait and one signal semaphore and no
extension chain. -/
def plainSubmit : VkSubmitInfo :=
  { pNext := []
    pWaitSemaphores := [5]
    pWaitDstStageMask := [1]
    pCommandBuffers := [21]
    pSignalSemaphores := [6] }

/-- A sub-batch of command buffers `11` and `13`, whose chain already holds a timeline
structure behind another structure. -/
def timelineSubmit : VkSubmitInfo :=
  { pNext := [.other 1000059000 0, .timelineSemaphoreSubmitInfo [41] [42]]
    pWaitSemaphores := [7]
    pWaitDstStageMask := [1]
    pCommandBuffers := [11, 13]
    pSignalSemaphores := [8] }

/-- A state whose hand-off queue holds exactly one pending copy, of command buffer `11`. -/
def singlePendingState : State :=
  { depthReadyState with s_activeCopyOperations := [(11, 100)] }

/-! ## `CmdClearColorImage` with the state in which it ends -/

/-- How a call of a hook ends: `st` is the state in which it ends (the globals, the renderer
and the calls recorded until then), `fatal` the message of the `checkAssert` or of the null
dereference that ended it, `none` when the hook returned. -/
structure HookEnd where
  st : State
  fatal : Option String

/-- What the caller sees of an ended call: the state when the hook returned, the message
when it did not. -/
def HookEnd.toExcept (r : HookEnd) : Except String State :=
  match r.fatal with
  | none => .ok r.st
  | some e => .error e

/-- Lines 138-214 once more, the branch `captureIdx == 0`, now with the state in which the
branch ends also when it ends in the null dereference of `imguiOverlay` (line 198). -/
def clearColor3DTraced (env : Collaborators) (l0 : Locals) (side : EyeSide) (frameIdx : Nat)
    (commandBuffer : VkCommandBuffer) (image : VkImage) (imageLayout : VkImageLayout)
    (rangeCount : Nat) (pRanges : List VkImageSubresourceRange) : HookEnd :=
  let l := resolve3DColorImage l0 image
  if env.UseBlackBarsDuringEvents then ⟨l.done, none⟩
  else if image ≠ l.st.s_curr3DColorImage then
    let clearColor := if env.IsRendering3D frameIdx then transparentClear else blackClear
    ⟨(l.call (.DriverCmdClearColorImage commandBuffer image imageLayout clearColor
      rangeCount pRanges)).done, none⟩
  else if (l.renderer.GetFrame frameIdx).copiedColor side then
    ⟨(l.call (.DriverCmdClearColorImage commandBuffer image imageLayout transparentClear
      rangeCount pRanges)).done, none⟩
  else
    let l := ensureSrcLayout commandBuffer image imageLayout l
    let texture := env.Layer3D_CopyColorToLayer side commandBuffer image frameIdx
    let l := l.call (.Layer3D_CopyColorToLayer side commandBuffer image frameIdx
      VK_IMAGE_LAYOUT_TRANSFER_SRC_OPTIMAL texture)
    let l := { l.call (.On3DColorCopied side frameIdx) with
      renderer := l.renderer.On3DColorCopied side frameIdx }
    let l := l.enqueue commandBuffer texture
    let l := l.call (.DebugPipelineBarrier commandBuffer)
    let afterBackground : Except String Locals :=
      if side = .RIGHT then
        match l.renderer.m_imguiOverlay with
        | some _ =>
          .ok ((l.call (.Draw3DLayerAsBackground commandBuffer image (env.GetAspectRatio side)
            frameIdx VK_IMAGE_LAYOUT_TRANSFER_SRC_OPTIMAL)).call
              (.DebugPipelineBarrier commandBuffer))
        | none => .error "null imguiOverlay dereferenced"
      else .ok l
    match afterBackground with
    | .error e => ⟨l.done, some e⟩
    | .ok l =>
      let l := restoreLayout commandBuffer image imageLayout l
      let l := l.call (.DriverCmdClearColorImage commandBuffer image imageLayout
        transparentClear rangeCount pRanges)
      let l := l.call (.DebugPipelineBarrier commandBuffer)
      ⟨l.done, none⟩

/-- `VkDeviceOverrides::CmdClearColorImage` (lines 44-297) once more, now with the state in
which the call ends also when a `checkAssert` ends it: the assertion of line 99 fires in
the state left by lines 54-57, those of lines 127 and 137 before and after the lazy
construction of the layers. -/
def CmdClearColorImageTraced (env : Collaborators) (s : State)
    (commandBuffer : VkCommandBuffer) (image : VkImage) (imageLayout : VkImageLayout)
    (pColor : VkClearColorValue) (rangeCount : Nat) (pRanges : List VkImageSubresourceRange) :
    HookEnd :=
  let s1 := initVRManager s
  match colorSide pColor with
  | none =>
    ⟨s1.call (.DriverCmdClearColorImage commandBuffer image imageLayout pColor
      rangeCount pRanges), none⟩
  | some side =>
    if ¬ (captureIdx pColor = 0 ∨ captureIdx pColor = 2) then
      ⟨s1, some "Invalid capture index!"⟩
    else
      match s1.renderer with
      | none =>
        ⟨s1.call (.DriverCmdClearColorImage commandBuffer image imageLayout pColor
          rangeCount pRanges), none⟩
      | some renderer =>
        match initLayers env ⟨s1, renderer, false, false⟩ (captureIdx pColor)
            commandBuffer image with
        | .error e => ⟨s1, some e⟩
        | .ok l =>
          if !env.IsInitialized then ⟨l.done, none⟩
          else if ¬ (l.renderer.m_layer3D.isSome ∧ l.renderer.m_layer2D.isSome) then
            ⟨l.done, some "Could not find 3D or 2D layer!"⟩
          else if captureIdx pColor = 0 then
            clearColor3DTraced env l side (frameIdx pColor) commandBuffer image imageLayout
              rangeCount pRanges
          else if captureIdx pColor = 2 then
            ⟨clearColor2D env l side (frameIdx pColor) commandBuffer image imageLayout
              rangeCount pRanges, none⟩
          else ⟨l.done, none⟩

/-- A left-eye payload whose `float32[0]` is `0.5`: capture index 16. -/
def badCapturePayload : VkClearColorValue := ⟨0.5, 0.125, 0.98, 0.2⟩

/-! ## Further notions used in the statements -/

/-- The calls that record a clear, a layout transition or a copy. -/
def Event.isClearTransitionOrCopy : Event → Bool
  | .DriverCmdClearColorImage .. => true
  | .DriverCmdClearDepthStencilImage .. => true
  | .TransitionLayout .. => true
  | .Layer3D_CopyColorToLayer .. => true
  | .Layer3D_CopyDepthToLayer .. => true
  | .Layer2D_CopyColorToLayer .. => true
  | .Draw3DLayerAsBackground .. => true
  | .DrawHUDLayerAsBackground .. => true
  | .DrawAndCopyToImage .. => true
  | _ => false

/-- A state without a renderer: `GetRenderer()` is still null. -/
def noRendererState : State :=
  { demoState with renderer := none }

/-- Collaborators before the pipeline is initialised. -/
def earlyEnv : Collaborators :=
  { demoEnv with IsInitialized := false }


/-- The layout that the recorded calls `events` leave `image` in, when it is in layout
`current` before them: a `TransitionLayout` of the image moves it from its old to its new
layout. The result is `none` when a transition of the image does not start from the layout
the image is in, or when a colour clear of the image is sent to the driver while the image
is not in `originalLayout`. -/
def layoutAfter (image : VkImage) (originalLayout : VkImageLayout) :
    VkImageLayout → List Event → Option VkImageLayout
  | current, [] => some current
  | current, .TransitionLayout _ target oldLayout newLayout _ :: rest =>
    if target = image then
      if oldLayout = current then layoutAfter image originalLayout newLayout rest else none
    else layoutAfter image originalLayout current rest
  | current, .DriverCmdClearColorImage _ target _ _ _ _ :: rest =>
    if target = image ∧ current ≠ originalLayout then none
    else layoutAfter image originalLayout current rest
  | current, _ :: rest => layoutAfter image originalLayout current rest

/-- The calls that neither move an image to another layout nor clear a colour image. -/
def Event.keepsLayout : Event → Bool
  | .TransitionLayout _ _ _ _ _ => false
  | .DriverCmdClearColorImage _ _ _ _ _ _ => false
  | _ => true


/-! ## Sequences of intercepted calls -/

/-- The globals of `framebuffer.cpp` as they are initialised at load (lines 7-14): an empty
registry, an empty hand-off queue and both caches `VK_NULL_HANDLE`; the `VRManager` has
neither a Vulkan side nor a renderer yet, and nothing has been called. -/
def initialState : State :=
  { imageResolutions := []
    s_activeCopyOperations := []
    s_curr3DColorImage := VK_NULL_HANDLE
    s_curr3DDepthImage := VK_NULL_HANDLE
    VK := false
    renderer := none
    m_entityDebugger := false
    calls := [] }

/-- One intercepted `CreateImage` or `DestroyImage` call; for a creation, `res` is the
result of the driver and `pImage` the handle found in `*pImage` afterwards. -/
inductive ImageCall
  | create (pCreateInfo : VkImageCreateInfo) (res : VkResult) (pImage : VkImage)
  | destroy (image : VkImage)
  deriving DecidableEq, Repr

def runImageCall (s : State) : ImageCall → Except String State
  | .create pCreateInfo res pImage =>
    match CreateImage s pCreateInfo res pImage with
    | .ok r => .ok r.1
    | .error e => .error e
  | .destroy image => .ok (DestroyImage s image)

/-- A sequence of `CreateImage` and `DestroyImage` calls, in order; a fatal assertion ends
the run. -/
def runImageCalls : State → List ImageCall → Except String State
  | s, [] => .ok s
  | s, c :: rest =>
    match runImageCall s c with
    | .ok s' => runImageCalls s' rest
    | .error e => .error e

/-- The images alive on the side of the driver after a sequence of calls, each with its
creation request: a creation that the driver answered with `VK_SUCCESS` makes its handle
alive, a destruction ends the life of its handle. -/
def aliveImages : List (VkImage × VkImageCreateInfo) → List ImageCall →
    List (VkImage × VkImageCreateInfo)
  | alive, [] => alive
  | alive, .create pCreateInfo res pImage :: rest =>
    aliveImages (if res = VK_SUCCESS then (pImage, pCreateInfo) :: alive else alive) rest
  | alive, .destroy image :: rest =>
    aliveImages (alive.filter (fun e => e.1 ≠ image)) rest

/-- The record that the registry is to hold for an alive image: its extent and format at
creation when the extent was at least 1280x720, none below that. -/
def expectedRecord (pCreateInfo : VkImageCreateInfo) : Option (VkExtent2D × VkFormat) :=
  if 1280 ≤ pCreateInfo.extent.width ∧ 720 ≤ pCreateInfo.extent.height then
    some (pCreateInfo.extent, pCreateInfo.format)
  else none

/-- A run in which the driver never fails: every creation is answered with `VK_SUCCESS` and
a handle that is not alive at that moment. -/
def driverNeverFails : List (VkImage × VkImageCreateInfo) → List ImageCall → Bool
  | _, [] => true
  | alive, .create pCreateInfo res pImage :: rest =>
    decide (res = VK_SUCCESS) && (alive.lookup pImage).isNone &&
      driverNeverFails ((pImage, pCreateInfo) :: alive) rest
  | alive, .destroy image :: rest =>
    driverNeverFails (alive.filter (fun e => e.1 ≠ image)) rest

/-- A creation request of 1920x1080 in the colour format of the 3D pass. -/
def colorRequest : VkImageCreateInfo :=
  { extent := ⟨1920, 1080⟩, format := VK_FORMAT_B10G11R11_UFLOAT_PACK32 }

/-- The result `VK_ERROR_OUT_OF_DEVICE_MEMORY` of the driver. -/
def VK_ERROR_OUT_OF_DEVICE_MEMORY : VkResult := -2


/-- One intercepted operation of `framebuffer.cpp` together with the answers of the driver
and of the collaborators during it. -/
inductive HookCall
  | createImage (pCreateInfo : VkImageCreateInfo) (res : VkResult) (pImage : VkImage)
  | destroyImage (image : VkImage)
  | cmdClearColorImage (env : Collaborators) (commandBuffer : VkCommandBuffer)
      (image : VkImage) (imageLayout : VkImageLayout) (pColor : VkClearColorValue)
      (rangeCount : Nat) (pRanges : List VkImageSubresourceRange)
  | cmdClearDepthStencilImage (env : Collaborators) (commandBuffer : VkCommandBuffer)
      (image : VkImage) (imageLayout : VkImageLayout)
      (pDepthStencil : VkClearDepthStencilValue) (rangeCount : Nat)
      (pRanges : List VkImageSubresourceRange)
  | queueSubmit (env : Collaborators) (queue : VkQueue) (pSubmits : List VkSubmitInfo)
      (fence : VkFence)

/-- The state in which an intercepted operation returns; a fatal assertion has none. -/
def runHook (s : State) : HookCall → Except String State
  | .createImage pCreateInfo res pImage =>
    match CreateImage s pCreateInfo res pImage with
    | .ok r => .ok r.1
    | .error e => .error e
  | .destroyImage image => .ok (DestroyImage s image)
  | .cmdClearColorImage env commandBuffer image imageLayout pColor rangeCount pRanges =>
    CmdClearColorImage env s commandBuffer image imageLayout pColor rangeCount pRanges
  | .cmdClearDepthStencilImage env commandBuffer image imageLayout pDepthStencil rangeCount
      pRanges =>
    CmdClearDepthStencilImage env s commandBuffer image imageLayout pDepthStencil rangeCount
      pRanges
  | .queueSubmit env queue pSubmits fence =>
    match QueueSubmit env s queue pSubmits fence with
    | .ok r => .ok r.1
    | .error e => .error e

/-- The states reachable by the intercepted operations: from the globals at load, by any
intercepted operation that returns, and by the rest of the program replacing what
`framebuffer.cpp` does not own (the `VRManager` with its renderer and entity debugger). -/
inductive Reachable : State → Prop
  | initial : Reachable initialState
  | hook (s s' : State) (c : HookCall) : Reachable s → runHook s c = .ok s' → Reachable s'
  | external (s : State) (VK : Bool) (renderer : Option RND_Renderer)
      (m_entityDebugger : Bool) : Reachable s →
      Reachable { s with VK := VK, renderer := renderer, m_entityDebugger := m_entityDebugger }

/-- The invariant of the two caches: a non-null `s_curr3DColorImage` is a registered image of
format `B10G11R11_UFLOAT_PACK32` and a non-null `s_curr3DDepthImage` a registered image of
format `D32_SFLOAT`. -/
def CachesRegistered (s : State) : Prop :=
  (s.s_curr3DColorImage ≠ VK_NULL_HANDLE →
    ∃ extent, s.findImage s.s_curr3DColorImage =
      some (extent, VK_FORMAT_B10G11R11_UFLOAT_PACK32)) ∧
  (s.s_curr3DDepthImage ≠ VK_NULL_HANDLE →
    ∃ extent, s.findImage s.s_curr3DDepthImage = some (extent, VK_FORMAT_D32_SFLOAT))

/-- What the clear hooks and `QueueSubmit` do to the registry and the caches between `s` and
`s'`: the registry is the same, and each cache is either unchanged or, having been
`VK_NULL_HANDLE`, now a registered image of the format of its pass. -/
def CachesResolved (s s' : State) : Prop :=
  s'.imageResolutions = s.imageResolutions ∧
  (s'.s_curr3DColorImage = s.s_curr3DColorImage ∨
    ∃ extent, s.findImage s'.s_curr3DColorImage =
      some (extent, VK_FORMAT_B10G11R11_UFLOAT_PACK32)) ∧
  (s'.s_curr3DDepthImage = s.s_curr3DDepthImage ∨
    ∃ extent, s.findImage s'.s_curr3DDepthImage = some (extent, VK_FORMAT_D32_SFLOAT))

/-- The registry and the two caches: the part of the state that `CreateImage`,
`DestroyImage` and the lazy resolution of the caches work on. -/
def State.images (s : State) :
    List (VkImage × (VkExtent2D × VkFormat)) × VkImage × VkImage :=
  (s.imageResolutions, s.s_curr3DColorImage, s.s_curr3DDepthImage)

/-- The state after the first intercepted call, the creation of the colour image `7` at
1920x1080. -/
def createdState : State :=
  { initialState with
    imageResolutions := [(7, (⟨1920, 1080⟩, VK_FORMAT_B10G11R11_UFLOAT_PACK32))]
    calls := [.DriverCreateImage colorRequest 7] }

/-- The state once the rest of the program has set up the `VRManager` and a renderer. -/
def readyState : State :=
  { createdState with VK := true, renderer := some demoRenderer }

/-! ## Facts about the helpers -/

@[simp]
theorem initVRManager_renderer (s : State) : (initVRManager s).renderer = s.renderer := by
  unfold initVRManager; split <;> rfl

@[simp]
theorem initVRManager_findImage (s : State) (image : VkImage) :
    (initVRManager s).findImage image = s.findImage image := by
  unfold initVRManager; split <;> rfl

@[simp]
theorem initVRManager_imageResolutions (s : State) :
    (initVRManager s).imageResolutions = s.imageResolutions := by
  unfold initVRManager; split <;> rfl

@[simp]
theorem initVRManager_color (s : State) :
    (initVRManager s).s_curr3DColorImage = s.s_curr3DColorImage := by
  unfold initVRManager; split <;> rfl

@[simp]
theorem initVRManager_depth (s : State) :
    (initVRManager s).s_curr3DDepthImage = s.s_curr3DDepthImage := by
  unfold initVRManager; split <;> rfl

@[simp]
theorem initVRManager_ops (s : State) :
    (initVRManager s).s_activeCopyOperations = s.s_activeCopyOperations := by
  unfold initVRManager; split <;> rfl

theorem initVRManager_calls (s : State) :
    (initVRManager s).calls = s.calls ++ (if s.VK then [] else [Event.VRManagerInit]) := by
  unfold initVRManager; split <;> simp [State.call]

theorem GetFrame_On3DColorCopied (r : RND_Renderer) (e : EyeSide) (slot : Nat) :
    ((r.On3DColorCopied e slot).GetFrame slot).copiedColor e = true := by
  cases e <;> by_cases h : slot = 0 <;>
    simp [RND_Renderer.On3DColorCopied, RND_Renderer.setFrame, RND_Renderer.GetFrame,
      Frame.copiedColor, h]

theorem initLayers_ok (env : Collaborators) (l : Locals) (k : Int)
    (commandBuffer : VkCommandBuffer) (image : VkImage) (hk : k = 0 ∨ k = 2)
    (hlayers : (l.renderer.m_layer3D.isSome ∧ l.renderer.m_layer2D.isSome) ∨
      (l.renderer.m_layer2D = none ∧ (l.st.findImage image).isSome)) :
    ∃ l', initLayers env l k commandBuffer image = .ok l' ∧
      l'.renderer.m_layer3D.isSome ∧ l'.renderer.m_layer2D.isSome ∧
      (l.renderer.m_imguiOverlay.isSome ∨ l.renderer.m_layer2D = none →
        l'.renderer.m_imguiOverlay.isSome) := by
  rcases hlayers with ⟨h3, h2⟩ | ⟨h2, hf⟩
  · obtain ⟨x, hx⟩ := Option.isSome_iff_exists.mp h2
    refine ⟨l, ?_, h3, h2, ?_⟩
    · simp [initLayers, hk, hx]
    · rintro (h | h)
      · exact h
      · rw [h] at hx; cases hx
  · obtain ⟨it, hit⟩ := Option.isSome_iff_exists.mp hf
    refine ⟨_, by simp only [initLayers, hk, h2, hit, if_true]; rfl, ?_⟩
    split_ifs <;> simp [Locals.call]

theorem resolve3DColorImage_rest (l : Locals) (image : VkImage) :
    (resolve3DColorImage l image).renderer = l.renderer ∧
    (resolve3DColorImage l image).st.calls = l.st.calls ∧
    (resolve3DColorImage l image).st.s_activeCopyOperations = l.st.s_activeCopyOperations ∧
    (resolve3DColorImage l image).st.imageResolutions = l.st.imageResolutions ∧
    (resolve3DColorImage l image).st.s_curr3DDepthImage = l.st.s_curr3DDepthImage ∧
    (resolve3DColorImage l image).transitionedToSrc = l.transitionedToSrc ∧
    (resolve3DColorImage l image).transitionedToDst = l.transitionedToDst := by
  unfold resolve3DColorImage
  repeat' split
  all_goals simp

theorem clearColor3D_copy (env : Collaborators) (l : Locals) (e : EyeSide)
    (slot : Nat) (commandBuffer : VkCommandBuffer) (image : VkImage)
    (imageLayout : VkImageLayout) (rangeCount : Nat)
    (pRanges : List VkImageSubresourceRange)
    (hov : e = .RIGHT → l.renderer.m_imguiOverlay.isSome)
    (hflat : env.UseBlackBarsDuringEvents = false)
    (himg : l.st.s_curr3DColorImage = image ∨
      (l.st.s_curr3DColorImage = VK_NULL_HANDLE ∧
        ∃ ext, l.st.findImage image = some (ext, VK_FORMAT_B10G11R11_UFLOAT_PACK32)))
    (hflag : (l.renderer.GetFrame slot).copiedColor e = false)
    (hsrc : l.transitionedToSrc = false) :
    clearColor3D env l e slot commandBuffer image imageLayout rangeCount pRanges
      = .ok { l.st with
          s_curr3DColorImage := image
          renderer := some (l.renderer.On3DColorCopied e slot)
          s_activeCopyOperations := l.st.s_activeCopyOperations ++
            [(commandBuffer, env.Layer3D_CopyColorToLayer e commandBuffer image slot)]
          calls := l.st.calls ++
            copy3DCalls env e slot commandBuffer image imageLayout rangeCount pRanges } := by
  have h1 : resolve3DColorImage l image =
      { l with st := { l.st with s_curr3DColorImage := image } } := by
    rcases himg with h | ⟨h0, ext, hf⟩
    · subst h
      unfold resolve3DColorImage
      repeat' split
      all_goals rfl
    · simp [resolve3DColorImage, h0, hf]
  cases e with
  | LEFT =>
    simp [clearColor3D, h1, hflat, hflag, ensureSrcLayout, hsrc, restoreLayout, Locals.call,
      Locals.enqueue, Locals.done, State.call, copy3DCalls]
  | RIGHT =>
    obtain ⟨ov, hov⟩ := Option.isSome_iff_exists.mp (hov rfl)
    have hov2 : (l.renderer.On3DColorCopied .RIGHT slot).m_imguiOverlay = some ov := by
      by_cases h : slot = 0 <;>
        simp [RND_Renderer.On3DColorCopied, RND_Renderer.setFrame, h, hov]
    simp [clearColor3D, h1, hflat, hflag, ensureSrcLayout, hsrc, restoreLayout, Locals.call,
      Locals.enqueue, Locals.done, State.call, copy3DCalls, hov2]

theorem initLayers_inv (env : Collaborators) (l l' : Locals) (k : Int)
    (commandBuffer : VkCommandBuffer) (image : VkImage) (hk : k = 0 ∨ k = 2)
    (h : initLayers env l k commandBuffer image = .ok l') :
    l'.renderer.frame0 = l.renderer.frame0 ∧ l'.renderer.frame1 = l.renderer.frame1 ∧
    l'.st.calls = l.st.calls ++ layerInitCalls l.st l.renderer commandBuffer image ∧
    l'.st.imageResolutions = l.st.imageResolutions ∧
    l'.st.s_curr3DColorImage = l.st.s_curr3DColorImage ∧
    l'.st.s_curr3DDepthImage = l.st.s_curr3DDepthImage ∧
    l'.st.s_activeCopyOperations = l.st.s_activeCopyOperations ∧
    l'.transitionedToSrc = l.transitionedToSrc ∧
    l'.transitionedToDst = l.transitionedToDst := by
  unfold initLayers at h
  rw [if_pos hk] at h
  split at h
  · cases h
    rename_i x hx
    exact ⟨rfl, rfl, by simp [layerInitCalls, hx], rfl, rfl, rfl, rfl, rfl, rfl⟩
  · rename_i h2
    split at h
    · rename_i it hit
      cases h
      split_ifs <;>
        exact ⟨rfl, rfl, by simp [Locals.call, State.call, layerInitCalls, h2, hit],
          rfl, rfl, rfl, rfl, rfl, rfl⟩
    · cases h

theorem layerInitCalls_mem (s : State) (r : RND_Renderer) (commandBuffer : VkCommandBuffer)
    (image : VkImage) (ev : Event) (h : ev ∈ layerInitCalls s r commandBuffer image) :
    ∃ w h f, ev = Event.NewImGuiOverlay commandBuffer w h f := by
  unfold layerInitCalls at h
  split at h
  · simp only [List.mem_singleton] at h
    exact ⟨_, _, _, h⟩
  · simp at h

theorem GetFrame_congr (r r' : RND_Renderer) (h0 : r'.frame0 = r.frame0)
    (h1 : r'.frame1 = r.frame1) (slot : Nat) : r'.GetFrame slot = r.GetFrame slot := by
  simp only [RND_Renderer.GetFrame, h0, h1]

theorem clearColor3D_captured (env : Collaborators) (l : Locals) (e : EyeSide)
    (slot : Nat) (commandBuffer : VkCommandBuffer) (image : VkImage)
    (imageLayout : VkImageLayout) (rangeCount : Nat) (pRanges : List VkImageSubresourceRange)
    (hflag : (l.renderer.GetFrame slot).copiedColor e = true) :
    ∃ s' extra, clearColor3D env l e slot commandBuffer image imageLayout rangeCount pRanges
        = .ok s' ∧
      s'.s_activeCopyOperations = l.st.s_activeCopyOperations ∧
      s'.renderer = some l.renderer ∧
      s'.calls = l.st.calls ++ extra ∧
      (extra = [] ∨ ∃ c, extra =
        [.DriverCmdClearColorImage commandBuffer image imageLayout c rangeCount pRanges]) := by
  obtain ⟨h1, h2, h3, -⟩ := resolve3DColorImage_rest l image
  by_cases hb : env.UseBlackBarsDuringEvents = true
  · refine ⟨(resolve3DColorImage l image).done, [], ?_, ?_, ?_, ?_, Or.inl rfl⟩
    · simp only [clearColor3D, hb, if_true]
    · simp [Locals.done, h3]
    · simp [Locals.done, h1]
    · simp [Locals.done, h2]
  · by_cases hi : image ≠ (resolve3DColorImage l image).st.s_curr3DColorImage
    · refine ⟨((resolve3DColorImage l image).call (.DriverCmdClearColorImage commandBuffer
        image imageLayout (if env.IsRendering3D slot then transparentClear else blackClear)
        rangeCount pRanges)).done, [.DriverCmdClearColorImage commandBuffer
        image imageLayout (if env.IsRendering3D slot then transparentClear else blackClear)
        rangeCount pRanges], ?_, ?_, ?_, ?_, Or.inr ⟨_, rfl⟩⟩
      · unfold clearColor3D
        simp only []
        rw [if_neg hb, if_pos hi]
      · simp [Locals.done, Locals.call, State.call, h3]
      · simp [Locals.done, Locals.call, h1]
      · simp only [Locals.done, Locals.call, State.call, h2]
    · refine ⟨((resolve3DColorImage l image).call (.DriverCmdClearColorImage commandBuffer
        image imageLayout transparentClear rangeCount pRanges)).done,
        [.DriverCmdClearColorImage commandBuffer image imageLayout transparentClear rangeCount
          pRanges], ?_, ?_, ?_, ?_, Or.inr ⟨_, rfl⟩⟩
      · unfold clearColor3D
        simp only []
        rw [if_neg hb, if_neg hi, h1, if_pos hflag]
      · simp [Locals.done, Locals.call, State.call, h3]
      · simp [Locals.done, Locals.call, h1]
      · simp only [Locals.done, Locals.call, State.call, h2]

theorem newCalls_append (s s' : State) (extra : List Event)
    (h : s'.calls = s.calls ++ extra) : newCalls s s' = extra := by
  simp [newCalls, h]

theorem clearColor3D_duplicate (env : Collaborators) (l : Locals) (e : EyeSide)
    (slot : Nat) (commandBuffer : VkCommandBuffer) (image : VkImage)
    (imageLayout : VkImageLayout) (rangeCount : Nat)
    (pRanges : List VkImageSubresourceRange)
    (hflat : env.UseBlackBarsDuringEvents = false)
    (himg : l.st.s_curr3DColorImage = image ∨
      (l.st.s_curr3DColorImage = VK_NULL_HANDLE ∧
        ∃ ext, l.st.findImage image = some (ext, VK_FORMAT_B10G11R11_UFLOAT_PACK32)))
    (hflag : (l.renderer.GetFrame slot).copiedColor e = true) :
    clearColor3D env l e slot commandBuffer image imageLayout rangeCount pRanges
      = .ok { l.st with
          s_curr3DColorImage := image
          renderer := some l.renderer
          calls := l.st.calls ++
            [.DriverCmdClearColorImage commandBuffer image imageLayout transparentClear
              rangeCount pRanges] } := by
  have h1 : resolve3DColorImage l image =
      { l with st := { l.st with s_curr3DColorImage := image } } := by
    rcases himg with h | ⟨h0, ext, hf⟩
    · subst h
      unfold resolve3DColorImage
      repeat' split
      all_goals rfl
    · simp [resolve3DColorImage, h0, hf]
  simp [clearColor3D, h1, hflat, hflag, Locals.call, Locals.done, State.call]

theorem captured_clear_eval :
    CmdClearColorImage demoEnv capturedState 11 9 1 leftPayload 1 [0] =
      .ok (capturedState.call (.DriverCmdClearColorImage 11 9 1 blackClear 1 [0])) := by
  have hside : colorSide leftPayload = some .LEFT := by norm_num [colorSide, leftPayload]
  have hcap : captureIdx leftPayload = 0 := by norm_num [captureIdx, lroundf, leftPayload]
  have hslot : frameIdx leftPayload = 0 := by norm_num [frameIdx, leftPayload]
  simp only [CmdClearColorImage, hside, hcap, hslot]
  rfl

theorem GetFrame_On3DDepthCopied (r : RND_Renderer) (e : EyeSide) (slot : Nat) :
    ((r.On3DDepthCopied e slot).GetFrame slot).copiedDepth e = true := by
  cases e <;> by_cases h : slot = 0 <;>
    simp [RND_Renderer.On3DDepthCopied, RND_Renderer.setFrame, RND_Renderer.GetFrame,
      Frame.copiedDepth, h]

theorem resolve3DDepthImage_rest (s : State) (image : VkImage) :
    (resolve3DDepthImage s image).renderer = s.renderer ∧
    (resolve3DDepthImage s image).calls = s.calls ∧
    (resolve3DDepthImage s image).s_activeCopyOperations = s.s_activeCopyOperations ∧
    (resolve3DDepthImage s image).imageResolutions = s.imageResolutions ∧
    (resolve3DDepthImage s image).s_curr3DColorImage = s.s_curr3DColorImage := by
  unfold resolve3DDepthImage
  repeat' split
  all_goals simp

theorem resolve3DDepthImage_miss (s : State) (image : VkImage)
    (hres : ¬ (s.s_curr3DDepthImage = VK_NULL_HANDLE ∧
        ∃ ext, s.findImage image = some (ext, VK_FORMAT_D32_SFLOAT))) :
    resolve3DDepthImage s image = s := by
  unfold resolve3DDepthImage
  split
  · rename_i h0
    split
    · rename_i it hit
      split
      · rename_i hfmt
        exact absurd ⟨h0, it.1, by rw [hit, ← hfmt]⟩ hres
      · rfl
    · rfl
  · rfl

theorem clearDepth3D_calls (env : Collaborators) (s s' : State) (side : EyeSide)
    (commandBuffer : VkCommandBuffer) (image : VkImage) (imageLayout : VkImageLayout)
    (pDepthStencil : VkClearDepthStencilValue)
    (h : clearDepth3D env s side commandBuffer image imageLayout pDepthStencil = .ok s') :
    ∀ ev ∈ newCalls s s', ev.isDepthClear = false := by
  obtain ⟨-, hc, -⟩ := resolve3DDepthImage_rest s image
  unfold clearDepth3D at h
  cases hr : s.renderer with
  | none =>
    simp only [hr] at h
    split_ifs at h
  | some renderer =>
    cases hl : renderer.m_layer3D <;> simp only [hr, hl] at h <;> split_ifs at h <;>
      cases h <;> simp [newCalls, State.call, hc, Event.isDepthClear]

theorem depthSide_eq_none (depth : ℚ) :
    depthSide depth = none ↔
      ¬ (0.011456789 ≤ depth ∧ depth ≤ 0.013456789) ∧
      ¬ (0.153987654 ≤ depth ∧ depth ≤ 0.173987654) := by
  by_cases h1 : 0.011456789 ≤ depth ∧ depth ≤ 0.013456789 <;>
    by_cases h2 : 0.153987654 ≤ depth ∧ depth ≤ 0.173987654 <;>
    simp only [depthSide, h1, h2, if_true, if_false, not_true_eq_false, not_false_eq_true,
      and_self, and_false, false_and, reduceCtorEq]

theorem CmdClearDepthStencilImage_recognised (env : Collaborators) (s : State)
    (commandBuffer : VkCommandBuffer) (image : VkImage) (imageLayout : VkImageLayout)
    (pDepthStencil : VkClearDepthStencilValue) (rangeCount : Nat)
    (pRanges : List VkImageSubresourceRange) (e : EyeSide)
    (hrc : rangeCount = 1) (hside : depthSide pDepthStencil.depth = some e) :
    CmdClearDepthStencilImage env s commandBuffer image imageLayout pDepthStencil rangeCount
      pRanges = clearDepth3D env s e commandBuffer image imageLayout pDepthStencil := by
  simp [CmdClearDepthStencilImage, hrc, hside]

theorem CmdClearDepthStencilImage_forward (env : Collaborators) (s : State)
    (commandBuffer : VkCommandBuffer) (image : VkImage) (imageLayout : VkImageLayout)
    (pDepthStencil : VkClearDepthStencilValue) (rangeCount : Nat)
    (pRanges : List VkImageSubresourceRange)
    (h : rangeCount ≠ 1 ∨ depthSide pDepthStencil.depth = none) :
    CmdClearDepthStencilImage env s commandBuffer image imageLayout pDepthStencil rangeCount
      pRanges = .ok (s.call (.DriverCmdClearDepthStencilImage commandBuffer image imageLayout
        pDepthStencil rangeCount pRanges)) := by
  unfold CmdClearDepthStencilImage
  rcases h with h | h
  · simp [h]
  · rw [h]
    cases decide (rangeCount = 1) <;> rfl

/-! ### The submission loops -/

theorem copyTimelineValues_eq (src : List Nat) :
    ∀ (dst : List Nat) (j : Nat), j + src.length ≤ dst.length →
      copyTimelineValues dst j src = some (dst.take j ++ src ++ dst.drop (j + src.length)) := by
  induction src with
  | nil =>
    intro dst j _
    simp [copyTimelineValues]
  | cons v rest ih =>
    intro dst j h
    simp only [List.length_cons] at h
    have hj : j < dst.length := by omega
    rw [copyTimelineValues, if_pos hj, ih (dst.set j v) (j + 1) (by simp; omega)]
    congr 1
    have h2 : ((dst.set j v)[j]?) = some v := by simp [hj]
    have h3 : (dst.set j v).take j = dst.take j := by
      rw [List.set_take]
      exact List.set_eq_of_length_le (by simp)
    have h4 : (dst.set j v).drop (j + 1 + rest.length) = dst.drop (j + (rest.length + 1)) := by
      rw [List.drop_set_of_lt v dst (by omega)]
      congr 1
      omega
    rw [List.take_succ, h2, h3, h4]
    simp

theorem copyTimelineValues_replicate (n : Nat) (src : List Nat) (h : src.length ≤ n) :
    copyTimelineValues (List.replicate n 0) 0 src =
      some (src ++ List.replicate (n - src.length) 0) := by
  rw [copyTimelineValues_eq src _ 0 (by simpa using h)]
  simp

theorem initialVectors_eq (b : VkSubmitInfo)
    (hw : (existingWaitValues b).length ≤ b.pWaitSemaphores.length)
    (hg : (existingSignalValues b).length ≤ b.pSignalSemaphores.length) :
    initialVectors b = some
      { waitSemaphores := b.pWaitSemaphores
        timelineWaitValues := existingWaitValues b ++
          List.replicate (b.pWaitSemaphores.length - (existingWaitValues b).length) 0
        waitDstStageMasks := b.pWaitDstStageMask
        signalSemaphores := b.pSignalSemaphores
        timelineSignalValues := existingSignalValues b ++
          List.replicate (b.pSignalSemaphores.length - (existingSignalValues b).length) 0 } := by
  unfold initialVectors existingWaitValues existingSignalValues at *
  cases hf : findTimelineInfo b.pNext with
  | none => simp
  | some e =>
    rw [hf] at hw hg
    simp only [] at hw hg
    simp only []
    rw [copyTimelineValues_replicate _ _ hw, copyTimelineValues_replicate _ _ hg]

theorem foldl_appendCopy (env : Collaborators) (texs : List SharedTexture) :
    ∀ m : ModifiedSubmitInfo_t, texs.foldl (appendCopy env) m =
      { waitSemaphores := m.waitSemaphores ++ texs.map (waitSemaphoreOf env)
        timelineWaitValues := m.timelineWaitValues ++ texs.map env.GetVulkanWaitValue
        waitDstStageMasks := m.waitDstStageMasks ++
          List.replicate texs.length VK_PIPELINE_STAGE_ALL_COMMANDS_BIT
        signalSemaphores := m.signalSemaphores ++ texs.map (signalSemaphoreOf env)
        timelineSignalValues := m.timelineSignalValues ++ texs.map env.GetVulkanSignalValue } := by
  induction texs with
  | nil => intro m; simp
  | cons t rest ih =>
    intro m
    rw [List.foldl_cons, ih]
    simp [appendCopy, waitSemaphoreOf, signalSemaphoreOf, List.replicate_succ]

theorem scanActiveCopies_eq (env : Collaborators) (commandBuffer : VkCommandBuffer)
    (ops : List (VkCommandBuffer × SharedTexture)) :
    ∀ m : ModifiedSubmitInfo_t, scanActiveCopies env commandBuffer ops m =
      (ops.filter (fun it => !decide (commandBuffer = it.1)),
        ((ops.filter (fun it => decide (commandBuffer = it.1))).map Prod.snd).foldl
          (appendCopy env) m) := by
  induction ops with
  | nil => intro m; rfl
  | cons it rest ih =>
    intro m
    by_cases h : commandBuffer = it.1
    · rw [scanActiveCopies, if_pos h, ih]
      simp [List.filter_cons, h]
    · rw [scanActiveCopies, if_neg h, ih]
      simp [List.filter_cons, h]

theorem insertTimelineSemaphores_eq (env : Collaborators) (commandBuffers : List VkCommandBuffer) :
    ∀ (ops : List (VkCommandBuffer × SharedTexture)) (m : ModifiedSubmitInfo_t),
      insertTimelineSemaphores env commandBuffers ops m =
        (ops.filter (fun it => decide (it.1 ∉ commandBuffers)),
          (drainedTextures commandBuffers ops).foldl (appendCopy env) m) := by
  induction commandBuffers with
  | nil => intro ops m; simp [insertTimelineSemaphores, drainedTextures]
  | cons cb rest ih =>
    intro ops m
    rw [insertTimelineSemaphores, scanActiveCopies_eq, ih]
    simp only [drainedTextures, List.foldl_append, List.filter_filter]
    congr 1
    apply List.filter_congr
    intro it _
    by_cases h : cb = it.1
    · simp [h]
    · have h' : ¬ it.1 = cb := fun e => h e.symm
      simp [h, h']

theorem drainedTextures_perm (commandBuffers : List VkCommandBuffer) :
    ∀ ops : List (VkCommandBuffer × SharedTexture),
      (drainedTextures commandBuffers ops).Perm
        ((ops.filter (fun it => decide (it.1 ∈ commandBuffers))).map Prod.snd) := by
  induction commandBuffers with
  | nil => intro ops; simp [drainedTextures]
  | cons cb rest ih =>
    intro ops
    simp only [drainedTextures]
    have hsplit := List.filter_append_perm (fun it : VkCommandBuffer × SharedTexture =>
      decide (cb = it.1)) (ops.filter (fun it => decide (it.1 ∈ cb :: rest)))
    refine List.Perm.trans ?_ (hsplit.map Prod.snd)
    rw [List.map_append]
    refine List.Perm.append ?_ ?_
    · apply List.Perm.of_eq
      congr 1
      rw [List.filter_filter]
      apply List.filter_congr
      intro it _
      by_cases h : cb = it.1
      · simp [h]
      · simp [h]
    · refine (ih _).trans (List.Perm.of_eq ?_)
      congr 1
      rw [List.filter_filter, List.filter_filter]
      apply List.filter_congr
      intro it _
      by_cases h : cb = it.1
      · simp [h]
      · have h' : ¬ it.1 = cb := fun e => h e.symm
        simp [h, h']

theorem queueAfter_nil (ops : List (VkCommandBuffer × SharedTexture)) :
    queueAfter [] ops = ops := by
  simp [queueAfter]

theorem queueAfter_cons (b : VkSubmitInfo) (rest : List VkSubmitInfo)
    (ops : List (VkCommandBuffer × SharedTexture)) :
    queueAfter (b :: rest) ops = queueAfter rest (queueAfter [b] ops) := by
  simp only [queueAfter, List.filter_filter]
  apply List.filter_congr
  intro it _
  simp only [List.mem_cons, forall_eq_or_imp, List.mem_singleton, forall_eq,
    Bool.decide_and, List.not_mem_nil, false_imp_iff, implies_true, and_true, Bool.and_comm]

theorem queueAfter_single (b : VkSubmitInfo) (ops : List (VkCommandBuffer × SharedTexture)) :
    queueAfter [b] ops = ops.filter (fun it => decide (it.1 ∉ b.pCommandBuffers)) := by
  simp [queueAfter]

theorem rewriteSubmit_eq (env : Collaborators) (ops : List (VkCommandBuffer × SharedTexture))
    (b : VkSubmitInfo) (hfit : TimelineValuesFit b) :
    rewriteSubmit env ops b =
      .ok (queueAfter [b] ops,
        expectedShadow env b (drainedTextures b.pCommandBuffers ops)) := by
  unfold rewriteSubmit
  rw [initialVectors_eq b hfit.1 hfit.2]
  simp only [insertTimelineSemaphores_eq, foldl_appendCopy, queueAfter_single]
  rfl

theorem rewriteSubmits_eq (env : Collaborators) (pSubmits : List VkSubmitInfo) :
    ∀ ops : List (VkCommandBuffer × SharedTexture),
      (∀ b ∈ pSubmits, TimelineValuesFit b) →
      rewriteSubmits env ops pSubmits =
        .ok (queueAfter pSubmits ops, expectedShadows env ops pSubmits) := by
  induction pSubmits with
  | nil => intro ops _; simp [rewriteSubmits, queueAfter_nil, expectedShadows]
  | cons b rest ih =>
    intro ops hfit
    rw [rewriteSubmits, rewriteSubmit_eq env ops b (hfit b (List.mem_cons_self _ _))]
    simp only []
    rw [ih _ (fun b' hb' => hfit b' (List.mem_cons_of_mem _ hb'))]
    simp only [expectedShadows]
    rw [← queueAfter_cons]

theorem expectedShadows_length (env : Collaborators) (pSubmits : List VkSubmitInfo) :
    ∀ ops, (expectedShadows env ops pSubmits).length = pSubmits.length := by
  induction pSubmits with
  | nil => intro ops; rfl
  | cons b rest ih => intro ops; simp [expectedShadows, ih]

theorem expectedShadows_getElem (env : Collaborators) (earlier : List VkSubmitInfo)
    (b : VkSubmitInfo) (later : List VkSubmitInfo) :
    ∀ ops, (expectedShadows env ops (earlier ++ b :: later))[earlier.length]? =
      some (expectedShadow env b
        (drainedTextures b.pCommandBuffers (queueAfter earlier ops))) := by
  induction earlier with
  | nil => intro ops; simp [expectedShadows, queueAfter_nil]
  | cons p rest ih =>
    intro ops
    rw [queueAfter_cons, ← ih (queueAfter [p] ops)]
    simp [expectedShadows]

theorem QueueSubmit_rewrite (env : Collaborators) (s : State) (queue : VkQueue)
    (pSubmits : List VkSubmitInfo) (fence : VkFence)
    (hne : s.s_activeCopyOperations ≠ [])
    (hfit : ∀ b ∈ pSubmits, TimelineValuesFit b) :
    QueueSubmit env s queue pSubmits fence =
      .ok ({ s with
          s_activeCopyOperations := queueAfter pSubmits s.s_activeCopyOperations
          calls := s.calls ++ [.DriverQueueSubmit queue
            (.shadow (expectedShadows env s.s_activeCopyOperations pSubmits)) fence] },
        env.driverQueueSubmitResult) := by
  unfold QueueSubmit
  rw [if_neg (by simpa using hne), rewriteSubmits_eq env pSubmits _ hfit]
  rfl

theorem drainedTextures_nil (commandBuffers : List VkCommandBuffer) :
    drainedTextures commandBuffers [] = [] := by
  induction commandBuffers with
  | nil => rfl
  | cons cb rest ih => simp [drainedTextures, ih]

theorem drainedTextures_single (commandBuffers : List VkCommandBuffer)
    (commandBuffer : VkCommandBuffer) (texture : SharedTexture) :
    drainedTextures commandBuffers [(commandBuffer, texture)] =
      if commandBuffer ∈ commandBuffers then [texture] else [] := by
  induction commandBuffers with
  | nil => rfl
  | cons cb rest ih =>
    by_cases h : cb = commandBuffer
    · subst h
      simp [drainedTextures, drainedTextures_nil]
    · have h' : ¬ commandBuffer = cb := fun e => h e.symm
      simp [drainedTextures, h, h', ih]

theorem expectedShadow_values (env : Collaborators) (b : VkSubmitInfo)
    (texs : List SharedTexture) (hfit : TimelineValuesFit b) :
    ∃ waitValues signalValues,
      (expectedShadow env b texs).pNext =
        .timelineSemaphoreSubmitInfo waitValues signalValues :: b.pNext ∧
      waitValues.length = b.pWaitSemaphores.length + texs.length ∧
      waitValues.drop b.pWaitSemaphores.length = texs.map env.GetVulkanWaitValue ∧
      (∀ j < b.pWaitSemaphores.length,
        waitValues.getD j 0 = (existingWaitValues b).getD j 0) ∧
      signalValues.length = b.pSignalSemaphores.length + texs.length ∧
      signalValues.drop b.pSignalSemaphores.length = texs.map env.GetVulkanSignalValue ∧
      (∀ j < b.pSignalSemaphores.length,
        signalValues.getD j 0 = (existingSignalValues b).getD j 0) := by
  obtain ⟨hw, hg⟩ := hfit
  have key : ∀ (n : Nat) (ex app : List Nat), ex.length ≤ n →
      (ex ++ List.replicate (n - ex.length) 0 ++ app).length = n + app.length ∧
      (ex ++ List.replicate (n - ex.length) 0 ++ app).drop n = app ∧
      ∀ j < n, (ex ++ List.replicate (n - ex.length) 0 ++ app).getD j 0 = ex.getD j 0 := by
    intro n ex app hle
    have hlen : (ex ++ List.replicate (n - ex.length) 0).length = n := by simp; omega
    refine ⟨by rw [List.length_append, hlen], ?_, ?_⟩
    · rw [List.drop_append_eq_append_drop, hlen]
      simp [List.drop_eq_nil_of_le (Nat.le_of_eq hlen)]
    · intro j hj
      simp only [List.getD_eq_getElem?_getD]
      rw [List.getElem?_append_left (by rw [hlen]; exact hj)]
      by_cases hjl : j < ex.length
      · rw [List.getElem?_append_left hjl]
      · rw [List.getElem?_append_right (by omega), List.getElem?_replicate,
          List.getElem?_eq_none (by omega)]
        split <;> rfl
  obtain ⟨a1, a2, a3⟩ := key b.pWaitSemaphores.length (existingWaitValues b)
    (texs.map env.GetVulkanWaitValue) hw
  obtain ⟨b1, b2, b3⟩ := key b.pSignalSemaphores.length (existingSignalValues b)
    (texs.map env.GetVulkanSignalValue) hg
  exact ⟨_, _, rfl, by simpa using a1, a2, a3, by simpa using b1, b2, b3⟩

theorem single_pending_submit_eval :
    QueueSubmit demoEnv singlePendingState 3 [plainSubmit, timelineSubmit] 4 =
      .ok ({ singlePendingState with
          s_activeCopyOperations := []
          calls := [.DriverQueueSubmit 3 (.shadow
            [{ plainSubmit with pNext := [.timelineSemaphoreSubmitInfo [0] [0]] },
             { pNext := .timelineSemaphoreSubmitInfo [41, 200] [42, 201] ::
                 timelineSubmit.pNext
               pWaitSemaphores := [7, 1100]
               pWaitDstStageMask := [1, VK_PIPELINE_STAGE_ALL_COMMANDS_BIT]
               pCommandBuffers := [11, 13]
               pSignalSemaphores := [8, 2100] }]) 4] }, VK_SUCCESS) := by
  rfl

/-! ### Steps of a run -/

theorem copiesOf_append (kind : CopyKind) (slot : Nat) (a b : List Event) :
    copiesOf kind slot (a ++ b) = copiesOf kind slot a ++ copiesOf kind slot b := by
  simp [copiesOf, List.filterMap_append]

theorem pendingCopiesOf_append (a b : List Event) :
    pendingCopiesOf (a ++ b) = pendingCopiesOf a ++ pendingCopiesOf b := by
  simp [pendingCopiesOf, List.filterMap_append]

theorem Step.same (s : State) : Step s s :=
  ⟨[], by simp, by simp [pendingCopiesOf], fun _ _ =>
    ⟨id, fun _ => by simp [copiesOf], by simp [copiesOf], fun h => by simp [copiesOf] at h⟩⟩

theorem Step.andThen {s s1 s2 : State} (h1 : Step s s1) (h2 : Step s1 s2) : Step s s2 := by
  obtain ⟨e1, hc1, ho1, hk1⟩ := h1
  obtain ⟨e2, hc2, ho2, hk2⟩ := h2
  refine ⟨e1 ++ e2, by rw [hc2, hc1, List.append_assoc],
    by rw [ho2, ho1, pendingCopiesOf_append, List.append_assoc], ?_⟩
  intro kind slot
  obtain ⟨a1, b1, c1, d1⟩ := hk1 kind slot
  obtain ⟨a2, b2, c2, d2⟩ := hk2 kind slot
  rw [copiesOf_append]
  refine ⟨fun h => a2 (a1 h), fun h => by rw [b1 h, b2 (a1 h)]; rfl, ?_, ?_⟩
  · by_cases hne : copiesOf kind slot e1 = []
    · rw [hne]; simpa using c2
    · rw [b2 (d1 hne)]; simpa using c1
  · intro hne
    by_cases hne2 : copiesOf kind slot e2 = []
    · rw [hne2, List.append_nil] at hne
      exact a2 (d1 hne)
    · exact d2 hne2

theorem Step.of_quiet {s s' : State} (extra : List Event)
    (hc : s'.calls = s.calls ++ extra)
    (hq : extra.filterMap Event.layerCopy = [])
    (ho : s'.s_activeCopyOperations = s.s_activeCopyOperations)
    (hf : ∀ kind slot, s.copied kind slot = true → s'.copied kind slot = true) :
    Step s s' :=
  ⟨extra, hc, by simp [pendingCopiesOf, hq, ho], fun kind slot =>
    ⟨hf kind slot, fun _ => by simp [copiesOf, hq], by simp [copiesOf, hq],
      fun h => by simp [copiesOf, hq] at h⟩⟩

theorem Step.of_copy {s s' : State} (c : LayerCopy) (extra : List Event)
    (hc : s'.calls = s.calls ++ extra)
    (hq : extra.filterMap Event.layerCopy = [c])
    (ho : s'.s_activeCopyOperations =
      s.s_activeCopyOperations ++ [(c.commandBuffer, c.texture)])
    (hf : ∀ kind slot, s.copied kind slot = true → s'.copied kind slot = true)
    (hbefore : s.copied c.kind c.frameIdx = false)
    (hafter : s'.copied c.kind c.frameIdx = true) :
    Step s s' := by
  refine ⟨extra, hc, by simp [pendingCopiesOf, hq, ho], fun kind slot => ⟨hf kind slot, ?_, ?_, ?_⟩⟩
  · intro h
    by_cases hk : c.kind = kind ∧ c.frameIdx = slot
    · rw [← hk.1, ← hk.2, hbefore] at h
      cases h
    · simp [copiesOf, hq, hk]
  · simp only [copiesOf, hq]
    exact (List.length_filter_le _ _).trans (by simp)
  · intro h
    by_cases hk : c.kind = kind ∧ c.frameIdx = slot
    · rw [← hk.1, ← hk.2]
      exact hafter
    · simp [copiesOf, hq, hk] at h

theorem copied_On3DColorCopied (r : RND_Renderer) (e : EyeSide) (f : Nat) (kind : CopyKind)
    (k : Nat) (h : (r.GetFrame k).copied kind = true) :
    ((r.On3DColorCopied e f).GetFrame k).copied kind = true := by
  cases e <;> cases kind <;> by_cases hk : k = 0 <;> by_cases hf : f = 0 <;>
    simp_all [RND_Renderer.On3DColorCopied, RND_Renderer.setFrame, RND_Renderer.GetFrame,
      Frame.copied, Frame.copiedColor, Frame.copiedDepth] <;>
    (rename_i side; cases side <;> simp_all)

theorem copied_On3DDepthCopied (r : RND_Renderer) (e : EyeSide) (f : Nat) (kind : CopyKind)
    (k : Nat) (h : (r.GetFrame k).copied kind = true) :
    ((r.On3DDepthCopied e f).GetFrame k).copied kind = true := by
  cases e <;> cases kind <;> by_cases hk : k = 0 <;> by_cases hf : f = 0 <;>
    simp_all [RND_Renderer.On3DDepthCopied, RND_Renderer.setFrame, RND_Renderer.GetFrame,
      Frame.copied, Frame.copiedColor, Frame.copiedDepth] <;>
    (rename_i side; cases side <;> simp_all)

theorem copied_On2DCopied (r : RND_Renderer) (f : Nat) (kind : CopyKind)
    (k : Nat) (h : (r.GetFrame k).copied kind = true) :
    ((r.On2DCopied f).GetFrame k).copied kind = true := by
  cases kind <;> by_cases hk : k = 0 <;> by_cases hf : f = 0 <;>
    simp_all [RND_Renderer.On2DCopied, RND_Renderer.setFrame, RND_Renderer.GetFrame,
      Frame.copied, Frame.copiedColor, Frame.copiedDepth]

theorem GetFrame_On2DCopied (r : RND_Renderer) (f : Nat) :
    ((r.On2DCopied f).GetFrame f).copied2D = true := by
  by_cases hf : f = 0 <;>
    simp [RND_Renderer.On2DCopied, RND_Renderer.setFrame, RND_Renderer.GetFrame, hf]

@[simp]
theorem done_copied (l : Locals) (kind : CopyKind) (k : Nat) :
    l.done.copied kind k = (l.renderer.GetFrame k).copied kind := rfl

theorem step_quiet_locals (l l' : Locals) (extra : List Event)
    (hc : l'.st.calls = l.st.calls ++ extra)
    (hq : extra.filterMap Event.layerCopy = [])
    (ho : l'.st.s_activeCopyOperations = l.st.s_activeCopyOperations)
    (hr : l'.renderer = l.renderer) : Step l.done l'.done :=
  Step.of_quiet extra hc hq ho (fun kind slot h => by
    rw [done_copied] at *
    rw [hr]
    exact h)

theorem Quiet.stay (l : Locals) : Quiet l l := ⟨Step.same _, rfl⟩

theorem Quiet.followedBy {l l1 l2 : Locals} (h1 : Quiet l l1) (h2 : Quiet l1 l2) : Quiet l l2 :=
  ⟨h1.1.andThen h2.1, h2.2.trans h1.2⟩

theorem quiet_call (l : Locals) (e : Event) (he : e.layerCopy = none) : Quiet l (l.call e) :=
  ⟨step_quiet_locals l _ [e] rfl (by simp [he]) rfl rfl, rfl⟩

theorem quiet_ensureSrcLayout (commandBuffer : VkCommandBuffer) (image : VkImage)
    (originalLayout : VkImageLayout) (l : Locals) :
    Quiet l (ensureSrcLayout commandBuffer image originalLayout l) := by
  unfold ensureSrcLayout
  split
  · exact ⟨step_quiet_locals l _ [_] rfl (by simp [Event.layerCopy]) rfl rfl, rfl⟩
  · exact Quiet.stay _

theorem quiet_restoreLayout (commandBuffer : VkCommandBuffer) (image : VkImage)
    (originalLayout : VkImageLayout) (l : Locals) :
    Quiet l (restoreLayout commandBuffer image originalLayout l) := by
  unfold restoreLayout
  split
  · exact ⟨step_quiet_locals l _ [_] rfl (by simp [Event.layerCopy]) rfl rfl, rfl⟩
  · exact Quiet.stay _

theorem quiet_ensureDstLayout (commandBuffer : VkCommandBuffer) (image : VkImage)
    (originalLayout : VkImageLayout) (l : Locals) :
    Quiet l (ensureDstLayout commandBuffer image originalLayout l) := by
  unfold ensureDstLayout
  split
  · exact ⟨step_quiet_locals l _ [_] rfl (by simp [Event.layerCopy]) rfl rfl, rfl⟩
  · split
    · exact ⟨step_quiet_locals l _ [_] rfl (by simp [Event.layerCopy]) rfl rfl, rfl⟩
    · exact Quiet.stay _

theorem quiet_restoreFromDst (commandBuffer : VkCommandBuffer) (image : VkImage)
    (originalLayout : VkImageLayout) (l : Locals) :
    Quiet l (restoreFromDst commandBuffer image originalLayout l) := by
  unfold restoreFromDst
  split
  · exact ⟨step_quiet_locals l _ [_] rfl (by simp [Event.layerCopy]) rfl rfl, rfl⟩
  · exact Quiet.stay _

theorem quiet_resolve3DColorImage (l : Locals) (image : VkImage) :
    Quiet l (resolve3DColorImage l image) := by
  obtain ⟨h1, h2, h3, -⟩ := resolve3DColorImage_rest l image
  exact ⟨step_quiet_locals l _ [] (by simp [h2]) rfl h3 h1, h1⟩

theorem Quiet.thenCall {l l1 : Locals} (h : Quiet l l1) (e : Event) (he : e.layerCopy = none) :
    Quiet l (l1.call e) :=
  h.followedBy (quiet_call l1 e he)

theorem quiet_renderHUDOverlay (l : Locals) (hudCopied : Bool) (frameIdx : Nat)
    (commandBuffer : VkCommandBuffer) (image : VkImage) (imageLayout : VkImageLayout) :
    Quiet l (renderHUDOverlay l hudCopied frameIdx commandBuffer image imageLayout) := by
  unfold renderHUDOverlay
  simp only []
  have h1 : Quiet l (if l.renderer.m_imguiOverlay.isSome ∧ ¬ hudCopied then
      ((ensureSrcLayout commandBuffer image imageLayout l).call
        (.DrawHUDLayerAsBackground commandBuffer image frameIdx
          VK_IMAGE_LAYOUT_TRANSFER_SRC_OPTIMAL)).call (.DebugPipelineBarrier commandBuffer)
      else l) := by
    split
    · refine Quiet.thenCall (Quiet.thenCall (quiet_ensureSrcLayout _ _ _ l) _ ?_) _ ?_ <;> rfl
    · exact Quiet.stay _
  have h2 : ∀ l1 : Locals, Quiet l1 (if l1.renderer.m_imguiOverlay.isSome ∧ ¬ hudCopied then
      ((ensureDstLayout commandBuffer image imageLayout
        (((l1.call (.BeginFrame frameIdx false)).call .Update).call .Render)).call
          (.DrawAndCopyToImage commandBuffer image frameIdx)).call
            (.DebugPipelineBarrier commandBuffer)
      else l1) := by
    intro l1
    split
    · refine Quiet.thenCall (Quiet.thenCall (Quiet.followedBy (Quiet.thenCall (Quiet.thenCall (Quiet.thenCall
        (Quiet.stay _) _ ?_) _ ?_) _ ?_) (quiet_ensureDstLayout _ _ _ _)) _ ?_) _ ?_ <;> rfl
    · exact Quiet.stay _
  exact h1.followedBy (h2 _)
theorem clearColor3D_step (env : Collaborators) (l : Locals) (e : EyeSide)
    (slot : Nat) (commandBuffer : VkCommandBuffer) (image : VkImage)
    (imageLayout : VkImageLayout) (rangeCount : Nat) (pRanges : List VkImageSubresourceRange)
    (s' : State)
    (h : clearColor3D env l e slot commandBuffer image imageLayout rangeCount pRanges
      = .ok s') : Step l.done s' := by
  have hres := quiet_resolve3DColorImage l image
  unfold clearColor3D at h
  simp only [] at h
  by_cases hb : env.UseBlackBarsDuringEvents = true
  · rw [if_pos hb] at h
    cases h
    exact hres.1
  rw [if_neg hb] at h
  by_cases hi : image ≠ (resolve3DColorImage l image).st.s_curr3DColorImage
  · rw [if_pos hi] at h
    cases h
    exact (hres.thenCall _ (by rfl)).1
  rw [if_neg hi] at h
  by_cases hflag : ((resolve3DColorImage l image).renderer.GetFrame slot).copiedColor e = true
  · rw [if_pos hflag] at h
    cases h
    exact (hres.thenCall _ (by rfl)).1
  rw [if_neg hflag] at h
  have hflag' : ((resolve3DColorImage l image).renderer.GetFrame slot).copiedColor e = false := by
    simpa using hflag
  have h1 := hres.followedBy (quiet_ensureSrcLayout commandBuffer image imageLayout
    (resolve3DColorImage l image))
  generalize ensureSrcLayout commandBuffer image imageLayout (resolve3DColorImage l image)
    = l1 at h h1
  have hcopy : Step l1.done ((({ (l1.call (.Layer3D_CopyColorToLayer e commandBuffer image slot
        VK_IMAGE_LAYOUT_TRANSFER_SRC_OPTIMAL
        (env.Layer3D_CopyColorToLayer e commandBuffer image slot))).call
          (.On3DColorCopied e slot) with
        renderer := l1.renderer.On3DColorCopied e slot } : Locals).enqueue commandBuffer
          (env.Layer3D_CopyColorToLayer e commandBuffer image slot))).done := by
    refine Step.of_copy ⟨.color3D e, slot, commandBuffer,
      env.Layer3D_CopyColorToLayer e commandBuffer image slot⟩
      [.Layer3D_CopyColorToLayer e commandBuffer image slot
        VK_IMAGE_LAYOUT_TRANSFER_SRC_OPTIMAL
        (env.Layer3D_CopyColorToLayer e commandBuffer image slot),
        .On3DColorCopied e slot] ?_ ?_ ?_ ?_ ?_ ?_
    · simp [Locals.done, Locals.enqueue, Locals.call, State.call]
    · simp [Event.layerCopy]
    · simp [Locals.done, Locals.enqueue, Locals.call, State.call]
    · intro kind k hk
      exact copied_On3DColorCopied _ _ _ _ _ hk
    · show (l1.renderer.GetFrame slot).copied (.color3D e) = false
      rw [h1.2, ← hres.2]
      exact hflag'
    · exact GetFrame_On3DColorCopied _ _ _
  have h2 := h1.1.andThen hcopy
  have hfin : ∀ l2 l3 : Locals, Step l.done l2.done → Quiet l2 l3 → Step l.done
      (((restoreLayout commandBuffer image imageLayout l3).call
        (.DriverCmdClearColorImage commandBuffer image imageLayout transparentClear
          rangeCount pRanges)).call (.DebugPipelineBarrier commandBuffer)).done := by
    intro l2 l3 hs hq
    exact hs.andThen (Quiet.thenCall (Quiet.thenCall (hq.followedBy (quiet_restoreLayout _ _ _ _)) _
      (by rfl)) _ (by rfl)).1
  by_cases hs : e = .RIGHT
  · rw [if_pos hs] at h
    split at h
    · cases h
    · rename_i l3 heq
      split at heq
      · cases heq
        cases h
        exact hfin _ _ h2 (Quiet.thenCall (Quiet.thenCall (Quiet.thenCall (Quiet.stay _) _ (by rfl)) _
          (by rfl)) _ (by rfl))
      · cases heq
  · rw [if_neg hs] at h
    cases h
    exact hfin _ _ h2 (Quiet.thenCall (Quiet.stay _) _ (by rfl))
theorem clearColor2D_step (env : Collaborators) (l : Locals) (e : EyeSide)
    (slot : Nat) (commandBuffer : VkCommandBuffer) (image : VkImage)
    (imageLayout : VkImageLayout) (rangeCount : Nat) (pRanges : List VkImageSubresourceRange) :
    Step l.done
      (clearColor2D env l e slot commandBuffer image imageLayout rangeCount pRanges) := by
  unfold clearColor2D
  simp only []
  cases e with
  | RIGHT =>
    simp only []
    split
    · exact (Quiet.followedBy (Quiet.thenCall (Quiet.thenCall (Quiet.followedBy (Quiet.thenCall (Quiet.thenCall
        (Quiet.thenCall (Quiet.stay _) _ (by rfl)) _ (by rfl)) _ (by rfl))
        (quiet_ensureDstLayout _ _ _ _)) _ (by rfl)) _ (by rfl))
        (quiet_restoreFromDst _ _ _ _)).1
    · split
      · exact (quiet_call _ _ (by rfl)).1
      · exact (quiet_restoreLayout _ _ _ _).1
  | LEFT =>
    simp only []
    by_cases hc : (l.renderer.GetFrame slot).copied2D = true
    · rw [if_pos hc]
      exact (quiet_call _ _ (by rfl)).1
    rw [if_neg hc]
    have hc' : (l.renderer.GetFrame slot).copied2D = false := by simpa using hc
    have h1 := quiet_renderHUDOverlay l (l.renderer.GetFrame slot).copied2D slot commandBuffer
      image imageLayout
    generalize renderHUDOverlay l (l.renderer.GetFrame slot).copied2D slot commandBuffer
      image imageLayout = l1 at h1
    have h2 : Quiet l1 (if l1.transitionedToDst then
          { l1.call (.TransitionLayout commandBuffer image VK_IMAGE_LAYOUT_TRANSFER_DST_OPTIMAL
              VK_IMAGE_LAYOUT_TRANSFER_SRC_OPTIMAL none) with
            transitionedToDst := false, transitionedToSrc := true }
        else ensureSrcLayout commandBuffer image imageLayout l1) := by
      split
      · exact ⟨step_quiet_locals l1 _ [_] rfl (by simp [Event.layerCopy]) rfl rfl, rfl⟩
      · exact quiet_ensureSrcLayout _ _ _ _
    have h3 := h1.followedBy h2
    generalize (if l1.transitionedToDst then
          ({ l1.call (.TransitionLayout commandBuffer image VK_IMAGE_LAYOUT_TRANSFER_DST_OPTIMAL
              VK_IMAGE_LAYOUT_TRANSFER_SRC_OPTIMAL none) with
            transitionedToDst := false, transitionedToSrc := true } : Locals)
        else ensureSrcLayout commandBuffer image imageLayout l1) = l2 at h3
    have hcopy : Step l2.done (({ ((l2.call (.Layer2D_CopyColorToLayer commandBuffer image slot
        VK_IMAGE_LAYOUT_TRANSFER_SRC_OPTIMAL
        (env.Layer2D_CopyColorToLayer commandBuffer image slot))).call
          (.DebugPipelineBarrier commandBuffer)).call (.On2DCopied slot) with
        renderer := l2.renderer.On2DCopied slot } : Locals).enqueue commandBuffer
          (env.Layer2D_CopyColorToLayer commandBuffer image slot)).done := by
      refine Step.of_copy ⟨.hud2D, slot, commandBuffer,
        env.Layer2D_CopyColorToLayer commandBuffer image slot⟩
        [.Layer2D_CopyColorToLayer commandBuffer image slot
          VK_IMAGE_LAYOUT_TRANSFER_SRC_OPTIMAL
          (env.Layer2D_CopyColorToLayer commandBuffer image slot),
          .DebugPipelineBarrier commandBuffer, .On2DCopied slot] ?_ ?_ ?_ ?_ ?_ ?_
      · simp [Locals.done, Locals.enqueue, Locals.call, State.call]
      · simp [Event.layerCopy]
      · simp [Locals.done, Locals.enqueue, Locals.call, State.call]
      · intro kind k hk
        exact copied_On2DCopied _ _ _ _ hk
      · show (l2.renderer.GetFrame slot).copied .hud2D = false
        rw [h3.2]
        exact hc'
      · exact GetFrame_On2DCopied _ _
    exact (h3.1.andThen hcopy).andThen
      ((quiet_restoreLayout _ _ _ _).followedBy (quiet_restoreLayout _ _ _ _)).1
theorem step_initVRManager (s : State) : Step s (initVRManager s) := by
  refine Step.of_quiet (if s.VK then [] else [Event.VRManagerInit]) (initVRManager_calls s) ?_
    (initVRManager_ops s) ?_
  · split <;> simp [Event.layerCopy]
  · intro kind slot h
    simpa [State.copied] using h

theorem step_initLayers (env : Collaborators) (l l' : Locals) (k : Int)
    (commandBuffer : VkCommandBuffer) (image : VkImage) (hk : k = 0 ∨ k = 2)
    (h : initLayers env l k commandBuffer image = .ok l') : Step l.done l'.done := by
  obtain ⟨hf0, hf1, hcalls, -, -, -, hops, -, -⟩ := initLayers_inv env l l' k commandBuffer
    image hk h
  refine Step.of_quiet _ hcalls ?_ hops ?_
  · unfold layerInitCalls
    split <;> simp [Event.layerCopy]
  · intro kind slot hc
    rw [done_copied] at *
    rw [GetFrame_congr l.renderer l'.renderer hf0 hf1]
    exact hc

theorem CmdClearColorImage_step (env : Collaborators) (s s' : State)
    (commandBuffer : VkCommandBuffer) (image : VkImage) (imageLayout : VkImageLayout)
    (pColor : VkClearColorValue) (rangeCount : Nat) (pRanges : List VkImageSubresourceRange)
    (h : CmdClearColorImage env s commandBuffer image imageLayout pColor rangeCount pRanges
      = .ok s') : Step s s' := by
  have h0 := step_initVRManager s
  have hfwd : Step s ((initVRManager s).call (.DriverCmdClearColorImage commandBuffer image
      imageLayout pColor rangeCount pRanges)) :=
    h0.andThen (Step.of_quiet [_] rfl (by simp [Event.layerCopy]) rfl (fun _ _ hc => hc))
  unfold CmdClearColorImage at h
  simp only [] at h
  split at h
  · cases h
    exact hfwd
  · rename_i side hside
    split at h
    · cases h
    · rename_i hk
      have hk' : captureIdx pColor = 0 ∨ captureIdx pColor = 2 := by
        by_contra hn
        exact hk hn
      split at h
      · cases h
        exact hfwd
      · rename_i renderer hr
        have hr' : (initVRManager s).renderer = some renderer := hr
        have hdone : (⟨initVRManager s, renderer, false, false⟩ : Locals).done
            = initVRManager s := by
          simp only [Locals.done]
          rw [← hr']
        split at h
        · cases h
        · rename_i l hl
          have h1 : Step s l.done := by
            have := step_initLayers env _ l _ commandBuffer image hk' hl
            rw [hdone] at this
            exact h0.andThen this
          split at h
          · cases h
            exact h1
          · split at h
            · cases h
            · split at h
              · exact h1.andThen (clearColor3D_step env l side _ _ _ _ _ _ s' h)
              · split at h
                · cases h
                  exact h1.andThen (clearColor2D_step env l side _ _ _ _ _ _)
                · cases h
                  exact h1

theorem clearDepth3D_step (env : Collaborators) (s s' : State) (side : EyeSide)
    (commandBuffer : VkCommandBuffer) (image : VkImage) (imageLayout : VkImageLayout)
    (pDepthStencil : VkClearDepthStencilValue)
    (h : clearDepth3D env s side commandBuffer image imageLayout pDepthStencil = .ok s') :
    Step s s' := by
  obtain ⟨hr, hc, ho, -⟩ := resolve3DDepthImage_rest s image
  have hres : Step s (resolve3DDepthImage s image) :=
    Step.of_quiet [] (by simp [hc]) rfl ho (fun kind slot h => by
      simpa [State.copied, hr] using h)
  unfold clearDepth3D at h
  simp only [] at h
  split at h
  · cases h
  · split at h
    · cases h
    · rename_i renderer hren
      split at h
      · cases h
        exact Step.same _
      · split at h
        · cases h
          exact hres
        · rename_i hflag
          split at h
          · cases h
            exact hres
          · rename_i hflag
            have hflag' : (renderer.GetFrame pDepthStencil.stencil).copiedDepth side = false := by
              simpa using hflag
            split at h
            · cases h
            · cases h
              refine hres.andThen (Step.of_copy ⟨.depth3D side, pDepthStencil.stencil,
                commandBuffer, env.Layer3D_CopyDepthToLayer side commandBuffer image
                  pDepthStencil.stencil⟩
                [.TransitionLayout commandBuffer image imageLayout
                  VK_IMAGE_LAYOUT_TRANSFER_SRC_OPTIMAL (some VK_IMAGE_ASPECT_DEPTH_BIT),
                 .Layer3D_CopyDepthToLayer side commandBuffer image pDepthStencil.stencil
                  VK_IMAGE_LAYOUT_TRANSFER_SRC_OPTIMAL
                  (env.Layer3D_CopyDepthToLayer side commandBuffer image pDepthStencil.stencil),
                 .On3DDepthCopied side pDepthStencil.stencil,
                 .TransitionLayout commandBuffer image VK_IMAGE_LAYOUT_TRANSFER_SRC_OPTIMAL
                  imageLayout (some VK_IMAGE_ASPECT_DEPTH_BIT)] ?_ ?_ ?_ ?_ ?_ ?_)
              · simp [State.call]
              · simp [Event.layerCopy]
              · simp [State.call]
              · intro kind k hk
                simp only [State.copied, State.call, hr, hren] at hk ⊢
                exact copied_On3DDepthCopied _ _ _ _ _ hk
              · simp only [State.copied, hr, hren]
                exact hflag'
              · simp only [State.copied, State.call]
                exact GetFrame_On3DDepthCopied _ _ _

theorem CmdClearDepthStencilImage_step (env : Collaborators) (s s' : State)
    (commandBuffer : VkCommandBuffer) (image : VkImage) (imageLayout : VkImageLayout)
    (pDepthStencil : VkClearDepthStencilValue) (rangeCount : Nat)
    (pRanges : List VkImageSubresourceRange)
    (h : CmdClearDepthStencilImage env s commandBuffer image imageLayout pDepthStencil
      rangeCount pRanges = .ok s') : Step s s' := by
  unfold CmdClearDepthStencilImage at h
  split at h
  · exact clearDepth3D_step env s s' _ _ _ _ _ h
  · cases h
    exact Step.of_quiet [_] rfl (by simp [Event.layerCopy]) rfl (fun _ _ hc => hc)

theorem runClears_step (calls : List ClearCall) : ∀ s : State, Step s (runClears s calls) := by
  induction calls with
  | nil => intro s; exact Step.same s
  | cons c rest ih =>
    intro s
    unfold runClears
    cases hc : runClear s c with
    | error e => exact Step.same s
    | ok s1 =>
      simp only []
      refine Step.andThen ?_ (ih s1)
      cases c with
      | color env commandBuffer image imageLayout pColor rangeCount pRanges =>
        exact CmdClearColorImage_step env s s1 _ _ _ _ _ _ hc
      | depthStencil env commandBuffer image imageLayout pDepthStencil rangeCount pRanges =>
        exact CmdClearDepthStencilImage_step env s s1 _ _ _ _ _ _ hc

theorem initLayers_error (env : Collaborators) (l : Locals) (k : Int)
    (commandBuffer : VkCommandBuffer) (image : VkImage) (e : String)
    (h : initLayers env l k commandBuffer image = .error e) :
    e = "Could not find image resolution in map!" := by
  unfold initLayers at h
  split at h
  · split at h
    · cases h
    · split at h
      · cases h
      · injection h with h
        exact h.symm
  · cases h

theorem clearColor3D_error (env : Collaborators) (l : Locals) (side : EyeSide)
    (slot : Nat) (commandBuffer : VkCommandBuffer) (image : VkImage)
    (imageLayout : VkImageLayout) (rangeCount : Nat) (pRanges : List VkImageSubresourceRange)
    (e : String)
    (h : clearColor3D env l side slot commandBuffer image imageLayout rangeCount pRanges
      = .error e) : e = "null imguiOverlay dereferenced" := by
  unfold clearColor3D at h
  simp only [] at h
  by_cases hb : env.UseBlackBarsDuringEvents = true
  · rw [if_pos hb] at h
    cases h
  rw [if_neg hb] at h
  by_cases hi : image ≠ (resolve3DColorImage l image).st.s_curr3DColorImage
  · rw [if_pos hi] at h
    cases h
  rw [if_neg hi] at h
  by_cases hflag : ((resolve3DColorImage l image).renderer.GetFrame slot).copiedColor side = true
  · rw [if_pos hflag] at h
    cases h
  rw [if_neg hflag] at h
  by_cases hs : side = .RIGHT
  · rw [if_pos hs] at h
    split at h
    · rename_i e' heq
      split at heq
      · cases heq
      · injection heq with heq
        injection h with h
        rw [← h, ← heq]
    · cases h
  · rw [if_neg hs] at h
    cases h

theorem CmdClearColorImage_error_iff (env : Collaborators) (s : State)
    (commandBuffer : VkCommandBuffer) (image : VkImage) (imageLayout : VkImageLayout)
    (pColor : VkClearColorValue) (rangeCount : Nat) (pRanges : List VkImageSubresourceRange) :
    CmdClearColorImage env s commandBuffer image imageLayout pColor rangeCount pRanges
        = .error "Invalid capture index!" ↔
      colorSide pColor ≠ none ∧ ¬ (captureIdx pColor = 0 ∨ captureIdx pColor = 2) := by
  unfold CmdClearColorImage
  simp only []
  cases hside : colorSide pColor with
  | none => simp
  | some side =>
    simp only []
    by_cases hk : captureIdx pColor = 0 ∨ captureIdx pColor = 2
    · rw [if_neg (not_not.mpr hk)]
      simp only [ne_eq, reduceCtorEq, not_false_eq_true, true_and, hk, not_true_eq_false,
        iff_false]
      intro h
      split at h
      · cases h
      · split at h
        · rename_i e hl
          have := initLayers_error env _ _ _ _ _ hl
          injection h with h
          rw [this] at h
          exact absurd h (by decide)
        · by_cases hi : (!env.IsInitialized) = true
          · rw [if_pos hi] at h
            cases h
          rw [if_neg hi] at h
          split at h
          · exact absurd (Except.error.inj h) (by decide)
          · split at h
            · have := clearColor3D_error env _ _ _ _ _ _ _ _ _ h
              exact absurd this (by decide)
            · split at h <;> cases h
    · rw [if_pos hk]
      simp [hk]

theorem colorSide_ne_none_iff (pColor : VkClearColorValue) :
    colorSide pColor ≠ none ↔
      ((0.12 ≤ pColor.float32_1 ∧ pColor.float32_1 ≤ 0.13 ∧
        0.97 ≤ pColor.float32_2 ∧ pColor.float32_2 ≤ 0.99) ∨
       (0.12 ≤ pColor.float32_2 ∧ pColor.float32_2 ≤ 0.13 ∧
        0.97 ≤ pColor.float32_1 ∧ pColor.float32_1 ≤ 0.99)) := by
  unfold colorSide
  by_cases hl : 0.12 ≤ pColor.float32_1 ∧ pColor.float32_1 ≤ 0.13 ∧
      0.97 ≤ pColor.float32_2 ∧ pColor.float32_2 ≤ 0.99
  · rw [if_pos hl]
    simp [hl]
  · rw [if_neg hl]
    by_cases hr : 0.12 ≤ pColor.float32_2 ∧ pColor.float32_2 ≤ 0.13 ∧
        0.97 ≤ pColor.float32_1 ∧ pColor.float32_1 ≤ 0.99
    · rw [if_pos hr]
      simp [hr]
    · rw [if_neg hr]
      simp [hl, hr]


theorem clearColor3D_traced (env : Collaborators) (l : Locals) (side : EyeSide) (slot : Nat)
    (commandBuffer : VkCommandBuffer) (image : VkImage) (imageLayout : VkImageLayout)
    (rangeCount : Nat) (pRanges : List VkImageSubresourceRange) :
    clearColor3D env l side slot commandBuffer image imageLayout rangeCount pRanges =
      (clearColor3DTraced env l side slot commandBuffer image imageLayout rangeCount
        pRanges).toExcept := by
  unfold clearColor3D clearColor3DTraced
  simp only
  by_cases h1 : env.UseBlackBarsDuringEvents = true
  · rw [if_pos h1, if_pos h1]
    rfl
  rw [if_neg h1, if_neg h1]
  by_cases h2 : image ≠ (resolve3DColorImage l image).st.s_curr3DColorImage
  · rw [if_pos h2, if_pos h2]
    rfl
  rw [if_neg h2, if_neg h2]
  by_cases h3 : ((resolve3DColorImage l image).renderer.GetFrame slot).copiedColor side = true
  · rw [if_pos h3, if_pos h3]
    rfl
  rw [if_neg h3, if_neg h3]
  by_cases hs : side = .RIGHT
  · simp only [if_pos hs]
    split <;> rfl
  · simp only [if_neg hs]
    rfl

theorem CmdClearColorImage_traced (env : Collaborators) (s : State)
    (commandBuffer : VkCommandBuffer) (image : VkImage) (imageLayout : VkImageLayout)
    (pColor : VkClearColorValue) (rangeCount : Nat) (pRanges : List VkImageSubresourceRange) :
    CmdClearColorImage env s commandBuffer image imageLayout pColor rangeCount pRanges =
      (CmdClearColorImageTraced env s commandBuffer image imageLayout pColor rangeCount
        pRanges).toExcept := by
  unfold CmdClearColorImage CmdClearColorImageTraced
  simp only
  cases hside : colorSide pColor with
  | none => rfl
  | some side =>
    simp only
    by_cases hk : captureIdx pColor = 0 ∨ captureIdx pColor = 2
    · rw [if_neg (not_not.mpr hk), if_neg (not_not.mpr hk)]
      cases hr : (initVRManager s).renderer with
      | none => rfl
      | some r =>
        simp only
        cases hl : initLayers env ⟨initVRManager s, r, false, false⟩ (captureIdx pColor)
            commandBuffer image with
        | error e => rfl
        | ok l =>
          simp only
          cases hi : env.IsInitialized with
          | false => rfl
          | true =>
            simp only [Bool.not_true, Bool.false_eq_true, if_false]
            by_cases h2 : ¬ (l.renderer.m_layer3D.isSome ∧ l.renderer.m_layer2D.isSome)
            · rw [if_pos h2, if_pos h2]
              rfl
            rw [if_neg h2, if_neg h2]
            by_cases h3 : captureIdx pColor = 0
            · rw [if_pos h3, if_pos h3]
              exact clearColor3D_traced env l side _ commandBuffer image imageLayout rangeCount
                pRanges
            rw [if_neg h3, if_neg h3]
            by_cases h4 : captureIdx pColor = 2
            · rw [if_pos h4, if_pos h4]
              rfl
            · rw [if_neg h4, if_neg h4]
              rfl
    · rw [if_pos hk, if_pos hk]
      rfl

theorem CmdClearColorImageTraced_invalid (env : Collaborators) (s : State)
    (commandBuffer : VkCommandBuffer) (image : VkImage) (imageLayout : VkImageLayout)
    (pColor : VkClearColorValue) (rangeCount : Nat) (pRanges : List VkImageSubresourceRange)
    (h : CmdClearColorImage env s commandBuffer image imageLayout pColor rangeCount pRanges
      = .error "Invalid capture index!") :
    CmdClearColorImageTraced env s commandBuffer image imageLayout pColor rangeCount pRanges =
      ⟨initVRManager s, some "Invalid capture index!"⟩ := by
  obtain ⟨hside, hk⟩ := (CmdClearColorImage_error_iff env s commandBuffer image imageLayout
    pColor rangeCount pRanges).mp h
  obtain ⟨side, hside⟩ := Option.ne_none_iff_exists'.mp hside
  unfold CmdClearColorImageTraced
  simp only [hside]
  rw [if_pos hk]

theorem resolve3DColorImage_miss (l : Locals) (image : VkImage)
    (hres : ¬ (l.st.s_curr3DColorImage = VK_NULL_HANDLE ∧
        ∃ ext, l.st.findImage image = some (ext, VK_FORMAT_B10G11R11_UFLOAT_PACK32))) :
    resolve3DColorImage l image = l := by
  unfold resolve3DColorImage
  split
  · rename_i h0
    split
    · rename_i it hit
      split
      · rename_i hfmt
        exact absurd ⟨h0, it.1, by rw [hit, ← hfmt]⟩ hres
      · rfl
    · rfl
  · rfl


theorem lookup_filter_ne {β : Type} (k image : Nat) (xs : List (Nat × β)) :
    (xs.filter (fun e => e.1 ≠ image)).lookup k = if k = image then none else xs.lookup k := by
  induction xs with
  | nil => simp
  | cons x rest ih =>
    obtain ⟨a, b⟩ := x
    by_cases ha : a = image
    · subst ha
      simp only [ne_eq, not_true_eq_false, decide_False, Bool.false_eq_true,
        not_false_eq_true, List.filter_cons_of_neg]
      rw [ih]
      by_cases hk : k = a
      · simp [hk]
      · have : (k == a) = false := by simpa using hk
        simp [hk, List.lookup_cons, this]
    · rw [List.filter_cons_of_pos (by simpa using ha)]
      simp only [List.lookup_cons]
      by_cases hk : k = a
      · subst hk
        simp [ha]
      · have : (k == a) = false := by simpa using hk
        simp only [this]
        exact ih

theorem runImageCalls_registry (calls : List ImageCall) :
    ∀ (s : State) (alive : List (VkImage × VkImageCreateInfo)),
      (∀ h, s.findImage h = (alive.lookup h).bind expectedRecord) →
      driverNeverFails alive calls = true →
      ∃ s', runImageCalls s calls = .ok s' ∧
        ∀ h, s'.findImage h = ((aliveImages alive calls).lookup h).bind expectedRecord := by
  induction calls with
  | nil =>
    intro s alive hinv _
    exact ⟨s, rfl, hinv⟩
  | cons c rest ih =>
    intro s alive hinv hd
    cases c with
    | create pCreateInfo res pImage =>
      simp only [driverNeverFails, Bool.and_eq_true, decide_eq_true_eq,
        Option.isNone_iff_eq_none] at hd
      obtain ⟨⟨hres, hfresh⟩, hrest⟩ := hd
      have hnone : s.findImage pImage = none := by rw [hinv, hfresh]; rfl
      by_cases hbig : 1280 ≤ pCreateInfo.extent.width ∧ 720 ≤ pCreateInfo.extent.height
      · have hrun : runImageCall s (.create pCreateInfo res pImage) =
            .ok { s.call (.DriverCreateImage pCreateInfo pImage) with
              imageResolutions := (pImage, (pCreateInfo.extent, pCreateInfo.format)) ::
                s.imageResolutions } := by
          have h1 : (s.call (.DriverCreateImage pCreateInfo pImage)).findImage pImage = none :=
            hnone
          simp only [runImageCall, CreateImage, if_pos hbig, h1]
          rfl
        simp only [runImageCalls, hrun, aliveImages, if_pos hres]
        refine ih _ _ ?_ hrest
        intro h
        simp only [State.findImage, List.lookup_cons]
        by_cases hh : h = pImage
        · subst hh
          simp [expectedRecord, hbig]
        · have : (h == pImage) = false := by simpa using hh
          simp only [this]
          exact hinv h
      · have hrun : runImageCall s (.create pCreateInfo res pImage) =
            .ok (s.call (.DriverCreateImage pCreateInfo pImage)) := by
          simp only [runImageCall, CreateImage, if_neg hbig]
        simp only [runImageCalls, hrun, aliveImages, if_pos hres]
        refine ih _ _ ?_ hrest
        intro h
        simp only [List.lookup_cons]
        by_cases hh : h = pImage
        · subst hh
          have : (s.call (.DriverCreateImage pCreateInfo h)).findImage h = none := hnone
          simp [this, expectedRecord, hbig]
        · have : (h == pImage) = false := by simpa using hh
          simp only [this]
          exact hinv h
    | destroy image =>
      simp only [driverNeverFails] at hd
      simp only [runImageCalls, runImageCall, aliveImages]
      refine ih _ _ ?_ hd
      intro h
      have hfind : (DestroyImage s image).findImage h =
          (s.imageResolutions.filter (fun e => e.1 ≠ image)).lookup h := by
        unfold DestroyImage
        simp only [State.findImage, State.call]
        split_ifs <;> rfl
      rw [hfind, lookup_filter_ne, lookup_filter_ne]
      by_cases hh : h = image
      · simp [hh]
      · simp only [if_neg hh]
        exact hinv h

/-- The registry follows the alive images while the driver never fails: after any sequence
of `CreateImage` and `DestroyImage` calls from the initial state in which every creation
succeeded with a handle not alive at that moment, a handle has a record if and only if its
image is alive and was created with at least 1280x720, and the record is the extent and
format of the creation request. -/
theorem registry_follows_alive_images (calls : List ImageCall)
    (h : driverNeverFails [] calls = true) :
    ∃ s', runImageCalls initialState calls = .ok s' ∧
      ∀ image, s'.findImage image = ((aliveImages [] calls).lookup image).bind expectedRecord :=
  runImageCalls_registry calls initialState [] (fun _ => rfl) h


theorem CachesResolved.unchanged (s : State) : CachesResolved s s :=
  ⟨rfl, Or.inl rfl, Or.inl rfl⟩

theorem CachesResolved.of_eq (s s' : State) (h1 : s'.imageResolutions = s.imageResolutions)
    (h2 : s'.s_curr3DColorImage = s.s_curr3DColorImage)
    (h3 : s'.s_curr3DDepthImage = s.s_curr3DDepthImage) : CachesResolved s s' :=
  ⟨h1, Or.inl h2, Or.inl h3⟩

theorem CachesRegistered.resolved (s s' : State) (h : CachesRegistered s)
    (hr : CachesResolved s s') : CachesRegistered s' := by
  obtain ⟨hreg, hc, hd⟩ := hr
  have hfind : ∀ k, s'.findImage k = s.findImage k := fun k => by
    simp only [State.findImage, hreg]
  refine ⟨fun hne => ?_, fun hne => ?_⟩
  · rw [hfind]
    rcases hc with hc | hc
    · rw [hc] at hne ⊢
      exact h.1 hne
    · exact hc
  · rw [hfind]
    rcases hd with hd | hd
    · rw [hd] at hne ⊢
      exact h.2 hne
    · exact hd

theorem CachesResolved.of_images (s s' : State) (h : s'.images = s.images) :
    CachesResolved s s' := by
  simp only [State.images, Prod.mk.injEq] at h
  exact ⟨h.1, Or.inl h.2.1, Or.inl h.2.2⟩

theorem images_call (s : State) (e : Event) : (s.call e).images = s.images := rfl

theorem images_locals_call (l : Locals) (e : Event) : (l.call e).st.images = l.st.images :=
  rfl

theorem images_enqueue (l : Locals) (commandBuffer : VkCommandBuffer)
    (texture : SharedTexture) : (l.enqueue commandBuffer texture).st.images = l.st.images :=
  rfl

theorem images_done (l : Locals) : l.done.images = l.st.images := rfl

theorem images_ensureSrcLayout (commandBuffer : VkCommandBuffer) (image : VkImage)
    (originalLayout : VkImageLayout) (l : Locals) :
    (ensureSrcLayout commandBuffer image originalLayout l).st.images = l.st.images := by
  unfold ensureSrcLayout
  split_ifs <;> rfl

theorem images_restoreLayout (commandBuffer : VkCommandBuffer) (image : VkImage)
    (originalLayout : VkImageLayout) (l : Locals) :
    (restoreLayout commandBuffer image originalLayout l).st.images = l.st.images := by
  unfold restoreLayout
  split_ifs <;> rfl

theorem images_ensureDstLayout (commandBuffer : VkCommandBuffer) (image : VkImage)
    (originalLayout : VkImageLayout) (l : Locals) :
    (ensureDstLayout commandBuffer image originalLayout l).st.images = l.st.images := by
  unfold ensureDstLayout
  split_ifs <;> rfl

theorem images_restoreFromDst (commandBuffer : VkCommandBuffer) (image : VkImage)
    (originalLayout : VkImageLayout) (l : Locals) :
    (restoreFromDst commandBuffer image originalLayout l).st.images = l.st.images := by
  unfold restoreFromDst
  split_ifs <;> rfl

theorem images_renderHUDOverlay (l : Locals) (hudCopied : Bool) (frameIdx : Nat)
    (commandBuffer : VkCommandBuffer) (image : VkImage) (imageLayout : VkImageLayout) :
    (renderHUDOverlay l hudCopied frameIdx commandBuffer image imageLayout).st.images =
      l.st.images := by
  unfold renderHUDOverlay
  simp only
  split_ifs <;>
    simp only [images_locals_call, images_ensureDstLayout, images_ensureSrcLayout]

theorem clearColor2D_images (env : Collaborators) (l : Locals) (side : EyeSide) (slot : Nat)
    (commandBuffer : VkCommandBuffer) (image : VkImage) (imageLayout : VkImageLayout)
    (rangeCount : Nat) (pRanges : List VkImageSubresourceRange) :
    (clearColor2D env l side slot commandBuffer image imageLayout rangeCount pRanges).images =
      l.st.images := by
  unfold clearColor2D
  cases side <;> simp only <;> split_ifs <;>
    simp only [images_done, images_locals_call, images_ensureDstLayout,
      images_ensureSrcLayout, images_restoreLayout, images_restoreFromDst, images_enqueue,
      images_renderHUDOverlay]

theorem resolve3DColorImage_resolved (l : Locals) (image : VkImage) :
    CachesResolved l.st (resolve3DColorImage l image).st := by
  unfold resolve3DColorImage
  split_ifs with h
  · split
    · rename_i it hit
      split_ifs with hf
      · exact ⟨rfl, Or.inr ⟨it.1, by rw [← hf]; exact hit⟩, Or.inl rfl⟩
      · exact CachesResolved.unchanged _
    · exact CachesResolved.unchanged _
  · exact CachesResolved.unchanged _

theorem CachesResolved.thenImages (s s1 s2 : State) (h : CachesResolved s s1)
    (h2 : s2.images = s1.images) : CachesResolved s s2 := by
  simp only [State.images, Prod.mk.injEq] at h2
  obtain ⟨h2a, h2b, h2c⟩ := h2
  obtain ⟨ha, hb, hc⟩ := h
  exact ⟨h2a.trans ha, by rw [h2b]; exact hb, by rw [h2c]; exact hc⟩

theorem CachesResolved.afterImages (s s1 s2 : State) (h1 : s1.images = s.images)
    (h : CachesResolved s1 s2) : CachesResolved s s2 := by
  simp only [State.images, Prod.mk.injEq] at h1
  obtain ⟨h1a, h1b, h1c⟩ := h1
  obtain ⟨ha, hb, hc⟩ := h
  have hfind : ∀ k, s1.findImage k = s.findImage k := fun k => by
    simp only [State.findImage, h1a]
  exact ⟨ha.trans h1a, by rw [← h1b, ← hfind]; exact hb, by rw [← h1c, ← hfind]; exact hc⟩

theorem clearColor3D_resolved (env : Collaborators) (l : Locals) (side : EyeSide) (slot : Nat)
    (commandBuffer : VkCommandBuffer) (image : VkImage) (imageLayout : VkImageLayout)
    (rangeCount : Nat) (pRanges : List VkImageSubresourceRange) (s' : State)
    (h : clearColor3D env l side slot commandBuffer image imageLayout rangeCount pRanges
      = .ok s') :
    CachesResolved l.st s' := by
  refine CachesResolved.thenImages _ _ _ (resolve3DColorImage_resolved l image) ?_
  unfold clearColor3D at h
  simp only at h
  generalize resolve3DColorImage l image = l1 at h ⊢
  by_cases h1 : env.UseBlackBarsDuringEvents = true
  · rw [if_pos h1] at h
    cases h
    rfl
  rw [if_neg h1] at h
  by_cases h2 : image ≠ l1.st.s_curr3DColorImage
  · rw [if_pos h2] at h
    cases h
    rfl
  rw [if_neg h2] at h
  by_cases h3 : (l1.renderer.GetFrame slot).copiedColor side = true
  · rw [if_pos h3] at h
    cases h
    rfl
  rw [if_neg h3] at h
  split at h
  · cases h
  · rename_i l2 hl2
    cases h
    simp only [images_done, images_locals_call, images_restoreLayout]
    split_ifs at hl2
    · split at hl2
      · cases hl2
        simp only [images_locals_call, images_enqueue, images_ensureSrcLayout]
      · cases hl2
    · cases hl2
      simp only [images_locals_call, images_enqueue, images_ensureSrcLayout]

theorem CmdClearColorImage_resolved (env : Collaborators) (s s' : State)
    (commandBuffer : VkCommandBuffer) (image : VkImage) (imageLayout : VkImageLayout)
    (pColor : VkClearColorValue) (rangeCount : Nat) (pRanges : List VkImageSubresourceRange)
    (h : CmdClearColorImage env s commandBuffer image imageLayout pColor rangeCount pRanges
      = .ok s') :
    CachesResolved s s' := by
  have hinit : (initVRManager s).images = s.images := by
    unfold initVRManager
    split_ifs <;> rfl
  unfold CmdClearColorImage at h
  simp only at h
  cases hside : colorSide pColor with
  | none =>
    simp only [hside] at h
    cases h
    exact CachesResolved.of_images _ _ hinit
  | some side =>
    simp only [hside] at h
    by_cases hk : captureIdx pColor = 0 ∨ captureIdx pColor = 2
    · rw [if_neg (not_not.mpr hk)] at h
      cases hr : s.renderer with
      | none =>
        simp only [initVRManager_renderer, hr] at h
        cases h
        exact CachesResolved.of_images _ _ hinit
      | some r =>
        simp only [initVRManager_renderer, hr] at h
        cases hl : initLayers env ⟨initVRManager s, r, false, false⟩ (captureIdx pColor)
            commandBuffer image with
        | error e => rw [hl] at h; cases h
        | ok l =>
          rw [hl] at h
          simp only at h
          obtain ⟨-, -, -, hreg, hcol, hdep, -, -, -⟩ :=
            initLayers_inv env _ l _ commandBuffer image hk hl
          have hl_images : l.st.images = s.images := by
            rw [← hinit]
            simp only [State.images, hreg, hcol, hdep]
          cases hi : env.IsInitialized with
          | false =>
            simp only [hi, Bool.not_false, if_true] at h
            cases h
            exact CachesResolved.of_images _ _ hl_images
          | true =>
            simp only [hi, Bool.not_true, Bool.false_eq_true, if_false] at h
            by_cases h2 : ¬ (l.renderer.m_layer3D.isSome ∧ l.renderer.m_layer2D.isSome)
            · rw [if_pos h2] at h
              cases h
            rw [if_neg h2] at h
            by_cases h3 : captureIdx pColor = 0
            · rw [if_pos h3] at h
              exact CachesResolved.afterImages _ _ _ hl_images
                (clearColor3D_resolved env l side _ commandBuffer image imageLayout rangeCount
                  pRanges s' h)
            rw [if_neg h3] at h
            by_cases h4 : captureIdx pColor = 2
            · rw [if_pos h4] at h
              cases h
              exact CachesResolved.of_images _ _
                ((clearColor2D_images env l side _ commandBuffer image imageLayout rangeCount
                  pRanges).trans hl_images)
            · rw [if_neg h4] at h
              cases h
              exact CachesResolved.of_images _ _ hl_images
    · rw [if_pos hk] at h
      cases h

theorem resolve3DDepthImage_resolved (s : State) (image : VkImage) :
    CachesResolved s (resolve3DDepthImage s image) := by
  unfold resolve3DDepthImage
  split_ifs with h
  · split
    · rename_i it hit
      split_ifs with hf
      · exact ⟨rfl, Or.inl rfl, Or.inr ⟨it.1, by rw [← hf]; exact hit⟩⟩
      · exact CachesResolved.unchanged _
    · exact CachesResolved.unchanged _
  · exact CachesResolved.unchanged _

theorem clearDepth3D_resolved (env : Collaborators) (s s' : State) (side : EyeSide)
    (commandBuffer : VkCommandBuffer) (image : VkImage) (imageLayout : VkImageLayout)
    (pDepthStencil : VkClearDepthStencilValue)
    (h : clearDepth3D env s side commandBuffer image imageLayout pDepthStencil = .ok s') :
    CachesResolved s s' := by
  unfold clearDepth3D at h
  simp only at h
  by_cases h0 : ¬ (pDepthStencil.stencil = 0 ∨ pDepthStencil.stencil = 1)
  · rw [if_pos h0] at h
    cases h
  rw [if_neg h0] at h
  cases hr : s.renderer with
  | none =>
    simp only [hr] at h
    cases h
  | some renderer =>
    simp only [hr] at h
    cases hi : env.IsInitialized with
    | false =>
      simp only [hi, Bool.not_false, if_true] at h
      cases h
      exact CachesResolved.unchanged _
    | true =>
      simp only [hi, Bool.not_true, Bool.false_eq_true, if_false] at h
      by_cases h2 : image ≠ (resolve3DDepthImage s image).s_curr3DDepthImage
      · rw [if_pos h2] at h
        cases h
        exact resolve3DDepthImage_resolved s image
      rw [if_neg h2] at h
      by_cases h3 : (renderer.GetFrame pDepthStencil.stencil).copiedDepth side = true
      · rw [if_pos h3] at h
        cases h
        exact resolve3DDepthImage_resolved s image
      rw [if_neg h3] at h
      cases h4 : renderer.m_layer3D with
      | none =>
        simp only [h4] at h
        cases h
      | some x =>
        simp only [h4] at h
        cases h
        exact CachesResolved.thenImages _ _ _ (resolve3DDepthImage_resolved s image) rfl

theorem CmdClearDepthStencilImage_resolved (env : Collaborators) (s s' : State)
    (commandBuffer : VkCommandBuffer) (image : VkImage) (imageLayout : VkImageLayout)
    (pDepthStencil : VkClearDepthStencilValue) (rangeCount : Nat)
    (pRanges : List VkImageSubresourceRange)
    (h : CmdClearDepthStencilImage env s commandBuffer image imageLayout pDepthStencil
      rangeCount pRanges = .ok s') :
    CachesResolved s s' := by
  unfold CmdClearDepthStencilImage at h
  split at h
  · exact clearDepth3D_resolved env s s' _ commandBuffer image imageLayout pDepthStencil h
  · cases h
    exact CachesResolved.unchanged _

theorem QueueSubmit_images (env : Collaborators) (s : State) (queue : VkQueue)
    (pSubmits : List VkSubmitInfo) (fence : VkFence) (r : State × VkResult)
    (h : QueueSubmit env s queue pSubmits fence = .ok r) : r.1.images = s.images := by
  unfold QueueSubmit at h
  split_ifs at h
  · cases h
    rfl
  · split at h
    · cases h
    · cases h
      rfl

theorem CreateImage_registered (s : State) (pCreateInfo : VkImageCreateInfo) (res : VkResult)
    (pImage : VkImage) (r : State × VkResult) (hinv : CachesRegistered s)
    (h : CreateImage s pCreateInfo res pImage = .ok r) : CachesRegistered r.1 := by
  unfold CreateImage at h
  simp only at h
  split_ifs at h with hbig
  · split at h
    · cases h
    · rename_i hnone
      cases h
      have hfind : ∀ k ext, s.findImage k = some ext →
          State.findImage { s.call (.DriverCreateImage pCreateInfo pImage) with
            imageResolutions := (pImage, (pCreateInfo.extent, pCreateInfo.format)) ::
              (s.call (.DriverCreateImage pCreateInfo pImage)).imageResolutions } k =
            some ext := by
        intro k ext hk
        have hne : k ≠ pImage := by
          intro he
          subst he
          have : s.findImage k = none := hnone
          rw [this] at hk
          cases hk
        have : (k == pImage) = false := by simpa using hne
        simp only [State.findImage, List.lookup_cons, this]
        exact hk
      refine ⟨fun hne => ?_, fun hne => ?_⟩
      · obtain ⟨ext, hext⟩ := hinv.1 hne
        exact ⟨ext, hfind _ _ hext⟩
      · obtain ⟨ext, hext⟩ := hinv.2 hne
        exact ⟨ext, hfind _ _ hext⟩
  · cases h
    exact hinv

theorem DestroyImage_findImage (s : State) (image k : VkImage) :
    (DestroyImage s image).findImage k = if k = image then none else s.findImage k := by
  have hfind : (DestroyImage s image).findImage k =
      (s.imageResolutions.filter (fun e => e.1 ≠ image)).lookup k := by
    unfold DestroyImage
    simp only [State.findImage, State.call]
    split_ifs <;> rfl
  rw [hfind, lookup_filter_ne]
  rfl

theorem DestroyImage_color (s : State) (image : VkImage) :
    (DestroyImage s image).s_curr3DColorImage =
      if s.s_curr3DColorImage = image then VK_NULL_HANDLE else s.s_curr3DColorImage := by
  unfold DestroyImage
  simp only [State.call]
  split_ifs <;> rfl

theorem DestroyImage_depth (s : State) (image : VkImage) :
    (DestroyImage s image).s_curr3DDepthImage =
      if s.s_curr3DColorImage = image then s.s_curr3DDepthImage
      else if s.s_curr3DDepthImage = image then VK_NULL_HANDLE else s.s_curr3DDepthImage := by
  unfold DestroyImage
  simp only [State.call]
  split_ifs <;> rfl

theorem caches_differ (s : State) (hinv : CachesRegistered s)
    (hne : s.s_curr3DColorImage ≠ VK_NULL_HANDLE) :
    s.s_curr3DDepthImage ≠ s.s_curr3DColorImage := by
  intro heq
  obtain ⟨e1, h1⟩ := hinv.1 hne
  obtain ⟨e2, h2⟩ := hinv.2 (by rw [heq]; exact hne)
  rw [heq, h1] at h2
  simp only [Option.some.injEq, Prod.mk.injEq] at h2
  exact absurd h2.2 (by decide)

theorem DestroyImage_registered (s : State) (image : VkImage) (hinv : CachesRegistered s) :
    CachesRegistered (DestroyImage s image) := by
  refine ⟨fun hne => ?_, fun hne => ?_⟩
  · rw [DestroyImage_color] at hne ⊢
    by_cases hc : s.s_curr3DColorImage = image
    · rw [if_pos hc] at hne
      exact absurd rfl hne
    · rw [if_neg hc] at hne ⊢
      rw [DestroyImage_findImage, if_neg hc]
      exact hinv.1 hne
  · rw [DestroyImage_depth] at hne ⊢
    by_cases hc : s.s_curr3DColorImage = image
    · rw [if_pos hc] at hne ⊢
      have hd : s.s_curr3DDepthImage ≠ image := by
        by_cases h0 : s.s_curr3DColorImage = VK_NULL_HANDLE
        · rw [← hc, h0]
          exact hne
        · rw [← hc]
          exact caches_differ s hinv h0
      rw [DestroyImage_findImage, if_neg hd]
      exact hinv.2 hne
    · rw [if_neg hc] at hne ⊢
      by_cases hd : s.s_curr3DDepthImage = image
      · rw [if_pos hd] at hne
        exact absurd rfl hne
      · rw [if_neg hd] at hne ⊢
        rw [DestroyImage_findImage, if_neg hd]
        exact hinv.2 hne

theorem reachable_cachesRegistered (s : State) (h : Reachable s) : CachesRegistered s := by
  induction h with
  | initial => exact ⟨fun h => absurd rfl h, fun h => absurd rfl h⟩
  | hook s s' c _ hrun ih =>
    cases c with
    | createImage pCreateInfo res pImage =>
      simp only [runHook] at hrun
      split at hrun
      · rename_i r hr
        cases hrun
        exact CreateImage_registered s pCreateInfo res pImage r ih hr
      · cases hrun
    | destroyImage image =>
      simp only [runHook] at hrun
      cases hrun
      exact DestroyImage_registered s image ih
    | cmdClearColorImage env commandBuffer image imageLayout pColor rangeCount pRanges =>
      exact CachesRegistered.resolved s s' ih
        (CmdClearColorImage_resolved env s s' _ _ _ _ _ _ hrun)
    | cmdClearDepthStencilImage env commandBuffer image imageLayout pDepthStencil rangeCount
        pRanges =>
      exact CachesRegistered.resolved s s' ih
        (CmdClearDepthStencilImage_resolved env s s' _ _ _ _ _ _ hrun)
    | queueSubmit env queue pSubmits fence =>
      simp only [runHook] at hrun
      split at hrun
      · rename_i r hr
        cases hrun
        exact CachesRegistered.resolved s r.1 ih
          (CachesResolved.of_images _ _ (QueueSubmit_images env s queue pSubmits fence r hr))
      · cases hrun
  | external s VK renderer dbg _ ih => exact ih

theorem reachable_cached_color :
    ∃ s, Reachable s ∧ s.s_curr3DColorImage = 7 ∧ s.findImage 7 ≠ none := by
  have h1 : Reachable createdState :=
    Reachable.hook initialState createdState (.createImage colorRequest VK_SUCCESS 7)
      Reachable.initial rfl
  have h2 : Reachable readyState := Reachable.external createdState true (some demoRenderer)
    false h1
  have hside : colorSide leftPayload = some .LEFT := by norm_num [colorSide, leftPayload]
  have hcap : captureIdx leftPayload = 0 := by norm_num [captureIdx, lroundf, leftPayload]
  have hslot : frameIdx leftPayload = 0 := by norm_num [frameIdx, leftPayload]
  have h3 : ∃ s3, runHook readyState (.cmdClearColorImage demoEnv 11 7 1 leftPayload 1 [0]) = .ok s3 ∧
      s3.s_curr3DColorImage = 7 ∧ s3.findImage 7 ≠ none := by
    simp only [runHook, CmdClearColorImage, hside, hcap, hslot]
    exact ⟨_, rfl, rfl, by decide⟩
  obtain ⟨s3, hrun, hc, hf⟩ := h3
  exact ⟨s3, Reachable.hook _ s3 _ h2 hrun, hc, hf⟩


theorem no_renderer_clear_eval :
    CmdClearColorImage demoEnv noRendererState 11 7 1 leftPayload 1 [0] =
      .ok (noRendererState.call (.DriverCmdClearColorImage 11 7 1 leftPayload 1 [0])) := by
  have hside : colorSide leftPayload = some .LEFT := by norm_num [colorSide, leftPayload]
  have hcap : captureIdx leftPayload = 0 := by norm_num [captureIdx, lroundf, leftPayload]
  simp only [CmdClearColorImage, hside, hcap]
  rfl


theorem lroundf_eq_zero_iff (x : ℚ) : lroundf x = 0 ↔ -(1 / 2) < x ∧ x < 1 / 2 := by
  unfold lroundf
  split_ifs with h
  · rw [Int.floor_eq_iff]
    constructor
    · rintro ⟨h1, h2⟩
      constructor <;> push_cast at * <;> linarith
    · rintro ⟨h1, h2⟩
      constructor <;> push_cast <;> linarith
  · rw [neg_eq_zero, Int.floor_eq_iff]
    push_neg at h
    constructor
    · rintro ⟨h1, h2⟩
      constructor <;> push_cast at * <;> linarith
    · rintro ⟨h1, h2⟩
      constructor <;> push_cast <;> linarith

theorem lroundf_eq_two_iff (x : ℚ) : lroundf x = 2 ↔ 3 / 2 ≤ x ∧ x < 5 / 2 := by
  unfold lroundf
  split_ifs with h
  · rw [Int.floor_eq_iff]
    constructor
    · rintro ⟨h1, h2⟩
      constructor <;> push_cast at * <;> linarith
    · rintro ⟨h1, h2⟩
      constructor <;> push_cast <;> linarith
  · push_neg at h
    constructor
    · intro h2
      have h3 : ⌊-x + 1 / 2⌋ = -2 := by omega
      rw [Int.floor_eq_iff] at h3
      push_cast at h3
      linarith [h3.1, h3.2]
    · rintro ⟨h1, h2⟩
      linarith


theorem layoutAfter_append (image : VkImage) (orig : VkImageLayout) (a b : List Event) :
    ∀ cur, layoutAfter image orig cur (a ++ b) =
      (layoutAfter image orig cur a).bind (fun mid => layoutAfter image orig mid b) := by
  induction a with
  | nil => intro cur; simp [layoutAfter]
  | cons e rest ih =>
    intro cur
    cases e <;> simp only [List.cons_append, layoutAfter] <;>
      first
        | exact ih cur
        | (split_ifs <;> first | exact ih _ | rfl)

theorem layoutAfter_keeps (image : VkImage) (orig : VkImageLayout) (a : List Event)
    (h : ∀ e ∈ a, e.keepsLayout = true) :
    ∀ cur, layoutAfter image orig cur a = some cur := by
  induction a with
  | nil => intro cur; simp [layoutAfter]
  | cons e rest ih =>
    intro cur
    have he := h e (List.mem_cons_self _ _)
    have hrest := ih (fun x hx => h x (List.mem_cons_of_mem _ hx)) cur
    cases e <;>
      first
        | (simp only [layoutAfter]; exact hrest)
        | exact absurd he (by simp [Event.keepsLayout])

theorem clearColor3D_layout (env : Collaborators) (l : Locals) (side : EyeSide) (slot : Nat)
    (commandBuffer : VkCommandBuffer) (image : VkImage) (imageLayout : VkImageLayout)
    (rangeCount : Nat) (pRanges : List VkImageSubresourceRange) (s' : State)
    (hsrc : l.transitionedToSrc = false) (hdst : l.transitionedToDst = false)
    (h : clearColor3D env l side slot commandBuffer image imageLayout rangeCount pRanges
      = .ok s') :
    ∃ evs, s'.calls = l.st.calls ++ evs ∧
      layoutAfter image imageLayout imageLayout evs = some imageLayout := by
  obtain ⟨-, hc, -, -, -, hs1, hd1⟩ := resolve3DColorImage_rest l image
  rw [hsrc] at hs1
  rw [hdst] at hd1
  rw [← hc]
  unfold clearColor3D at h
  simp only at h
  generalize resolve3DColorImage l image = l1 at h hs1 hd1 ⊢
  obtain ⟨st, r, src, dst⟩ := l1
  simp only at hs1 hd1
  subst hs1 hd1
  have hov : ∀ e, (r.On3DColorCopied e slot).m_imguiOverlay = r.m_imguiOverlay := by
    intro e
    cases e <;> simp only [RND_Renderer.On3DColorCopied, RND_Renderer.setFrame] <;>
      split_ifs <;> rfl
  by_cases h1 : env.UseBlackBarsDuringEvents = true
  · rw [if_pos h1] at h
    cases h
    exact ⟨[], by simp [Locals.done], rfl⟩
  rw [if_neg h1] at h
  by_cases h2 : image ≠ st.s_curr3DColorImage
  · rw [if_pos h2] at h
    cases h
    exact ⟨[_], rfl, by simp [layoutAfter]⟩
  rw [if_neg h2] at h
  by_cases h3 : (r.GetFrame slot).copiedColor side = true
  · rw [if_pos h3] at h
    cases h
    exact ⟨[_], rfl, by simp [layoutAfter]⟩
  rw [if_neg h3] at h
  cases side with
  | LEFT =>
    simp [ensureSrcLayout, restoreLayout, Locals.call, Locals.done, Locals.enqueue,
      State.call] at h
    subst h
    exact ⟨_, rfl, by simp [layoutAfter]⟩
  | RIGHT =>
    cases ho : r.m_imguiOverlay with
    | none =>
      simp [ensureSrcLayout, restoreLayout, Locals.call, Locals.done, Locals.enqueue,
        State.call, ho, hov] at h
    | some o =>
      simp [ensureSrcLayout, restoreLayout, Locals.call, Locals.done, Locals.enqueue,
        State.call, ho, hov] at h
      subst h
      exact ⟨_, rfl, by simp [layoutAfter]⟩

theorem clearColor2D_layout (env : Collaborators) (l : Locals) (side : EyeSide) (slot : Nat)
    (commandBuffer : VkCommandBuffer) (image : VkImage) (imageLayout : VkImageLayout)
    (rangeCount : Nat) (pRanges : List VkImageSubresourceRange)
    (hsrc : l.transitionedToSrc = false) (hdst : l.transitionedToDst = false) :
    ∃ evs, (clearColor2D env l side slot commandBuffer image imageLayout rangeCount
        pRanges).calls = l.st.calls ++ evs ∧
      layoutAfter image imageLayout imageLayout evs = some imageLayout := by
  obtain ⟨st, r, src, dst⟩ := l
  simp only at hsrc hdst
  subst hsrc hdst
  cases side with
  | LEFT =>
    by_cases hc : (r.GetFrame slot).copied2D = true
    · exact ⟨[.DriverCmdClearColorImage commandBuffer image imageLayout transparentClear
          rangeCount pRanges],
        by simp [clearColor2D, hc, Locals.call, Locals.done, State.call],
        by simp [layoutAfter]⟩
    · cases ho : r.m_imguiOverlay with
      | none =>
        simp [clearColor2D, renderHUDOverlay, hc, ho, ensureSrcLayout, restoreLayout,
          Locals.call, Locals.done, Locals.enqueue, State.call, layoutAfter]
      | some o =>
        simp [clearColor2D, renderHUDOverlay, hc, ho, ensureSrcLayout, restoreLayout,
          ensureDstLayout, Locals.call, Locals.done, Locals.enqueue, State.call, layoutAfter]
  | RIGHT =>
    cases ho : r.m_imguiOverlay with
    | some o =>
      simp [clearColor2D, ho, ensureDstLayout, restoreFromDst, Locals.call, Locals.done,
        State.call, layoutAfter]
    | none =>
      by_cases hc : (r.GetFrame slot).copied2D = true
      · exact ⟨[.DriverCmdClearColorImage commandBuffer image imageLayout transparentClear
            rangeCount pRanges],
          by simp [clearColor2D, hc, ho, Locals.call, Locals.done, State.call],
          by simp [layoutAfter]⟩
      · exact ⟨[], by simp [clearColor2D, hc, ho, restoreLayout, Locals.done], rfl⟩

theorem demo_left_clear_ok :
    ∃ s', CmdClearColorImage demoEnv demoState 11 7 1 leftPayload 1 [0] = .ok s' := by
  have hside : colorSide leftPayload = some .LEFT := by norm_num [colorSide, leftPayload]
  have hcap : captureIdx leftPayload = 0 := by norm_num [captureIdx, lroundf, leftPayload]
  have hslot : frameIdx leftPayload = 0 := by norm_num [frameIdx, leftPayload]
  simp only [CmdClearColorImage, hside, hcap, hslot]
  exact ⟨_, rfl⟩


theorem copyTimelineValues_none (src : List Nat) :
    ∀ (dst : List Nat) (j : Nat), j ≤ dst.length → dst.length < j + src.length →
      copyTimelineValues dst j src = none := by
  induction src with
  | nil =>
    intro dst j hle h
    simp at h
    omega
  | cons v rest ih =>
    intro dst j hle h
    simp only [List.length_cons] at h
    rw [copyTimelineValues]
    by_cases hj : j < dst.length
    · rw [if_pos hj]
      exact ih _ _ (by simp; omega) (by simp; omega)
    · rw [if_neg hj]

theorem initialVectors_isSome_iff (b : VkSubmitInfo) :
    (initialVectors b).isSome ↔ TimelineValuesFit b := by
  constructor
  · intro h
    by_contra hfit
    unfold TimelineValuesFit at hfit
    have hnone : initialVectors b = none := by
      unfold initialVectors
      unfold existingWaitValues existingSignalValues at hfit
      cases hf : findTimelineInfo b.pNext with
      | none => simp [hf] at hfit
      | some e =>
        simp only [hf] at hfit ⊢
        by_cases hw : e.1.length ≤ b.pWaitSemaphores.length
        · have hg : ¬ e.2.length ≤ b.pSignalSemaphores.length := fun hg => hfit ⟨hw, hg⟩
          rw [copyTimelineValues_replicate _ _ hw,
            copyTimelineValues_none e.2 _ 0 (by simp) (by simp; omega)]
        · rw [copyTimelineValues_none e.1 _ 0 (by simp) (by simp; omega)]
    rw [hnone] at h
    cases h
  · intro h
    rw [initialVectors_eq b h.1 h.2]
    rfl


/-! ## The claims -/

/-- C1: a colour clear recognised as eye `e` with capture index 0 and frame slot `slot`,
arriving while the renderer is initialised (`IsInitialized()` holds and its layers exist, with
the overlay for the right eye, or they are constructed by this call from the registered extent
of the image), flat-2D mode is off, the target image is
(or is resolved to be) the cached 3D colour image and `copiedColor[slot][e]` is false: the
call returns, it appends exactly the pending copy (this command buffer, the texture returned
by `CopyColorToLayer(e, cmdBuf, image, slot)`) to the end of the hand-off queue, the flag is
set by the single `On3DColorCopied(e, slot)` call, and the calls it records are exactly the
listed ones, whose only driver clear is the transparent clear of the same image, layout and
ranges, after the copy. -/
theorem C1_color_copy (env : Collaborators) (s : State) (r : RND_Renderer) (e : EyeSide)
    (slot : Nat) (commandBuffer : VkCommandBuffer) (image : VkImage)
    (imageLayout : VkImageLayout) (pColor : VkClearColorValue) (rangeCount : Nat)
    (pRanges : List VkImageSubresourceRange)
    (hside : colorSide pColor = some e)
    (hcap : captureIdx pColor = 0)
    (hslot : frameIdx pColor = slot)
    (hr : s.renderer = some r)
    (hlayers : (r.m_layer3D.isSome ∧ r.m_layer2D.isSome ∧
        (e = .RIGHT → r.m_imguiOverlay.isSome)) ∨
      (r.m_layer2D = none ∧ (s.findImage image).isSome))
    (hinit : env.IsInitialized = true)
    (hflat : env.UseBlackBarsDuringEvents = false)
    (himg : s.s_curr3DColorImage = image ∨
      (s.s_curr3DColorImage = VK_NULL_HANDLE ∧
        ∃ ext, s.findImage image = some (ext, VK_FORMAT_B10G11R11_UFLOAT_PACK32)))
    (hflag : (r.GetFrame slot).copiedColor e = false) :
    ∃ s' r', CmdClearColorImage env s commandBuffer image imageLayout pColor rangeCount pRanges
        = .ok s' ∧
      s'.s_activeCopyOperations = s.s_activeCopyOperations ++
        [(commandBuffer, env.Layer3D_CopyColorToLayer e commandBuffer image slot)] ∧
      s'.renderer = some r' ∧ (r'.GetFrame slot).copiedColor e = true ∧
      s'.calls = s.calls ++ (if s.VK then [] else [Event.VRManagerInit]) ++
        layerInitCalls s r commandBuffer image ++
        [.TransitionLayout commandBuffer image imageLayout
            VK_IMAGE_LAYOUT_TRANSFER_SRC_OPTIMAL none,
          .Layer3D_CopyColorToLayer e commandBuffer image slot
            VK_IMAGE_LAYOUT_TRANSFER_SRC_OPTIMAL
            (env.Layer3D_CopyColorToLayer e commandBuffer image slot),
          .On3DColorCopied e slot,
          .DebugPipelineBarrier commandBuffer] ++
        (if e = .RIGHT then
          [.Draw3DLayerAsBackground commandBuffer image (env.GetAspectRatio e) slot
              VK_IMAGE_LAYOUT_TRANSFER_SRC_OPTIMAL,
            .DebugPipelineBarrier commandBuffer]
         else []) ++
        [.TransitionLayout commandBuffer image VK_IMAGE_LAYOUT_TRANSFER_SRC_OPTIMAL
            imageLayout none,
          .DriverCmdClearColorImage commandBuffer image imageLayout transparentClear
            rangeCount pRanges,
          .DebugPipelineBarrier commandBuffer] := by
  subst hslot
  obtain ⟨l, hl, h3, h2, ho⟩ :=
    initLayers_ok env ⟨initVRManager s, r, false, false⟩ (captureIdx pColor) commandBuffer image
      (Or.inl hcap) (by
        rcases hlayers with ⟨a, b, -⟩ | ⟨a, b⟩
        · exact Or.inl ⟨a, b⟩
        · exact Or.inr ⟨a, by simpa using b⟩)
  replace ho : e = .RIGHT → l.renderer.m_imguiOverlay.isSome := fun he => ho (by
    rcases hlayers with ⟨-, -, c⟩ | ⟨a, -⟩
    · exact Or.inl (c he)
    · exact Or.inr a)
  obtain ⟨hf0, hf1, hcalls, himgs, hcol, -, hops, hsrc, -⟩ :=
    initLayers_inv env _ l _ commandBuffer image (Or.inl hcap) hl
  simp only [initVRManager_color, initVRManager_ops, initVRManager_imageResolutions,
    initVRManager_findImage] at hf0 hf1 hcalls himgs hcol hops hsrc
  have hfr : l.renderer.GetFrame (frameIdx pColor) = r.GetFrame (frameIdx pColor) := by
    simp only [RND_Renderer.GetFrame, hf0, hf1]
  have hcopy := clearColor3D_copy env l e (frameIdx pColor) commandBuffer image imageLayout
    rangeCount pRanges ho hflat
    (by
      rcases himg with h | ⟨h, ext, hx⟩
      · exact Or.inl (by rw [hcol]; exact h)
      · refine Or.inr ⟨by rw [hcol]; exact h, ext, ?_⟩
        simpa [State.findImage, himgs] using hx)
    (by rw [hfr]; exact hflag) hsrc
  have hmain : CmdClearColorImage env s commandBuffer image imageLayout pColor rangeCount
      pRanges = clearColor3D env l e (frameIdx pColor) commandBuffer image imageLayout
        rangeCount pRanges := by
    rw [hcap] at hl
    simp only [CmdClearColorImage, hside, hcap, initVRManager_renderer, hr, hl, hinit]
    have h2' : l.renderer.m_layer2D ≠ none := by
      intro h; rw [h] at h2; exact absurd h2 (by simp)
    simp [h3, h2']
  rw [hcopy] at hmain
  refine ⟨_, l.renderer.On3DColorCopied e (frameIdx pColor), hmain, ?_, rfl,
    GetFrame_On3DColorCopied _ _ _, ?_⟩
  · simp [hops]
  · simp [hcalls, initVRManager_calls, copy3DCalls, layerInitCalls]

/-- C1 at the spec's scenario: an image registered at 1920x1080 and the payload
`(0.0, 0.125, 0.98, 0.2)`, decoded as LEFT, capture index 0, slot 0. -/
theorem C1_color_copy_witness :
    ∃ s' r', CmdClearColorImage demoEnv demoState 11 7 1 ⟨0.0, 0.125, 0.98, 0.2⟩ 1 [0]
        = .ok s' ∧
      s'.s_activeCopyOperations = demoState.s_activeCopyOperations ++
        [(11, demoEnv.Layer3D_CopyColorToLayer .LEFT 11 7 0)] ∧
      s'.renderer = some r' ∧ (r'.GetFrame 0).copiedColor .LEFT = true ∧
      s'.calls = demoState.calls ++ (if demoState.VK then [] else [Event.VRManagerInit]) ++
        layerInitCalls demoState demoRenderer 11 7 ++
        [.TransitionLayout 11 7 1 VK_IMAGE_LAYOUT_TRANSFER_SRC_OPTIMAL none,
          .Layer3D_CopyColorToLayer .LEFT 11 7 0 VK_IMAGE_LAYOUT_TRANSFER_SRC_OPTIMAL
            (demoEnv.Layer3D_CopyColorToLayer .LEFT 11 7 0),
          .On3DColorCopied .LEFT 0,
          .DebugPipelineBarrier 11] ++
        (if EyeSide.LEFT = .RIGHT then
          [.Draw3DLayerAsBackground 11 7 (demoEnv.GetAspectRatio .LEFT) 0
              VK_IMAGE_LAYOUT_TRANSFER_SRC_OPTIMAL,
            .DebugPipelineBarrier 11]
         else []) ++
        [.TransitionLayout 11 7 VK_IMAGE_LAYOUT_TRANSFER_SRC_OPTIMAL 1 none,
          .DriverCmdClearColorImage 11 7 1 transparentClear 1 [0],
          .DebugPipelineBarrier 11] :=
  C1_color_copy demoEnv demoState demoRenderer .LEFT 0 11 7 1 ⟨0.0, 0.125, 0.98, 0.2⟩ 1 [0]
    (by norm_num [colorSide]) (by norm_num [captureIdx, lroundf]) (by norm_num [frameIdx])
    rfl (Or.inr ⟨rfl, by decide⟩) rfl rfl (Or.inr ⟨rfl, ⟨1920, 1080⟩, by decide⟩) rfl

/-- C2: over every sequence of `CmdClearColorImage` and `CmdClearDepthStencilImage` calls,
run from any state with nothing else touching the frame-slot flags in between (the sequence
ends at the first fatal assertion, if any), the hand-off queue grows by exactly the pending
copies of the layer copies recorded during the sequence, one each and in order; among those
there is at most one 3D-colour copy and at most one depth copy for each (frame slot, eye),
and at most one 2D copy for each frame slot; and for a kind and slot whose flag was already
set at the start, no copy is recorded at all. -/
theorem C2_at_most_one_copy_per_slot (s : State) (calls : List ClearCall) :
    (runClears s calls).s_activeCopyOperations =
      s.s_activeCopyOperations ++ pendingCopiesOf (newCalls s (runClears s calls)) ∧
    (∀ eye slot,
      (copiesOf (.color3D eye) slot (newCalls s (runClears s calls))).length ≤ 1) ∧
    (∀ eye slot,
      (copiesOf (.depth3D eye) slot (newCalls s (runClears s calls))).length ≤ 1) ∧
    (∀ slot, (copiesOf .hud2D slot (newCalls s (runClears s calls))).length ≤ 1) ∧
    (∀ kind slot, s.copied kind slot = true →
      copiesOf kind slot (newCalls s (runClears s calls)) = []) := by
  obtain ⟨extra, hc, ho, hk⟩ := runClears_step calls s
  rw [newCalls_append s _ extra hc]
  exact ⟨ho, fun eye slot => (hk _ slot).2.2.1, fun eye slot => (hk _ slot).2.2.1,
    fun slot => (hk _ slot).2.2.1, fun kind slot h => (hk kind slot).2.1 h⟩

/-- C3 (as amended): in a state where `copiedColor[slot][LEFT]` is already true, a colour
clear recognised as LEFT with capture index 0 in that slot never appends a pending copy and
never records a layer copy; and when the renderer is initialised (its layers exist, or are
constructed by this call), flat-2D mode is off and the target image is (or is resolved to be)
the cached 3D colour image, the call returns, leaves the hand-off queue and the renderer
flags as they were, and the one call it records after the lazy initialisations is the
transparent clear of the same image, layout and ranges. -/
theorem C3_duplicate_left_clear (env : Collaborators) (s : State) (r : RND_Renderer)
    (slot : Nat) (commandBuffer : VkCommandBuffer) (image : VkImage)
    (imageLayout : VkImageLayout) (pColor : VkClearColorValue) (rangeCount : Nat)
    (pRanges : List VkImageSubresourceRange)
    (hr : s.renderer = some r)
    (hflag : (r.GetFrame slot).copiedColor .LEFT = true)
    (hside : colorSide pColor = some .LEFT)
    (hcap : captureIdx pColor = 0)
    (hslot : frameIdx pColor = slot) :
    (∀ s', CmdClearColorImage env s commandBuffer image imageLayout pColor rangeCount pRanges
        = .ok s' →
      s'.s_activeCopyOperations = s.s_activeCopyOperations ∧
      ∀ ev ∈ newCalls s s', ev.isLayerCopy = false) ∧
    (env.IsInitialized = true → env.UseBlackBarsDuringEvents = false →
      ((r.m_layer3D.isSome ∧ r.m_layer2D.isSome) ∨
        (r.m_layer2D = none ∧ (s.findImage image).isSome)) →
      (s.s_curr3DColorImage = image ∨
        (s.s_curr3DColorImage = VK_NULL_HANDLE ∧
          ∃ ext, s.findImage image = some (ext, VK_FORMAT_B10G11R11_UFLOAT_PACK32))) →
      ∃ s' r', CmdClearColorImage env s commandBuffer image imageLayout pColor rangeCount pRanges
          = .ok s' ∧
        s'.s_activeCopyOperations = s.s_activeCopyOperations ∧
        s'.renderer = some r' ∧ r'.frame0 = r.frame0 ∧ r'.frame1 = r.frame1 ∧
        s'.calls = s.calls ++ (if s.VK then [] else [Event.VRManagerInit]) ++
          layerInitCalls s r commandBuffer image ++
          [.DriverCmdClearColorImage commandBuffer image imageLayout transparentClear
            rangeCount pRanges]) := by
  subst hslot
  have hk : captureIdx pColor = 0 ∨ captureIdx pColor = 2 := Or.inl hcap
  have hrun : CmdClearColorImage env s commandBuffer image imageLayout pColor rangeCount
      pRanges =
      match initLayers env ⟨initVRManager s, r, false, false⟩ (captureIdx pColor)
          commandBuffer image with
      | .error e => .error e
      | .ok l =>
        if !env.IsInitialized then .ok l.done
        else if ¬ (l.renderer.m_layer3D.isSome ∧ l.renderer.m_layer2D.isSome) then
          .error "Could not find 3D or 2D layer!"
        else clearColor3D env l .LEFT (frameIdx pColor) commandBuffer image imageLayout
          rangeCount pRanges := by
    simp only [CmdClearColorImage, hside, initVRManager_renderer, hr]
    simp [hcap]
  constructor
  · intro s' hs'
    rw [hrun] at hs'
    cases hl : initLayers env ⟨initVRManager s, r, false, false⟩ (captureIdx pColor)
        commandBuffer image with
    | error e => rw [hl] at hs'; cases hs'
    | ok l =>
      rw [hl] at hs'
      obtain ⟨hf0, hf1, hcalls, -, -, -, hops, -, -⟩ :=
        initLayers_inv env _ l _ commandBuffer image hk hl
      simp only [initVRManager_ops] at hf0 hf1 hcalls hops
      have hpre : ∀ ev ∈ (if s.VK then [] else [Event.VRManagerInit]) ++
          layerInitCalls (initVRManager s) r commandBuffer image, ev.isLayerCopy = false := by
        intro ev hev
        rcases List.mem_append.mp hev with h | h
        · split_ifs at h
          · simp at h
          · simp only [List.mem_singleton] at h
            subst h
            rfl
        · obtain ⟨w, h', f, rfl⟩ := layerInitCalls_mem _ _ _ _ _ h
          rfl
      by_cases hi : env.IsInitialized = true
      · by_cases hlay : l.renderer.m_layer3D.isSome ∧ l.renderer.m_layer2D.isSome
        · simp only [hi, hlay, Bool.not_true, Bool.false_eq_true, if_false, and_self,
            not_true_eq_false] at hs'
          obtain ⟨s2, extra, he, hops2, -, hc2, hex⟩ := clearColor3D_captured env l .LEFT
            (frameIdx pColor) commandBuffer image imageLayout rangeCount pRanges
            (by rw [GetFrame_congr r l.renderer hf0 hf1]; exact hflag)
          rw [he] at hs'
          cases hs'
          refine ⟨by rw [hops2, hops], ?_⟩
          intro ev hev
          rw [newCalls_append s s' ((if s.VK then [] else [Event.VRManagerInit]) ++
            layerInitCalls (initVRManager s) r commandBuffer image ++ extra)
            (by simp [hc2, hcalls, initVRManager_calls])] at hev
          rcases List.mem_append.mp hev with h | h
          · exact hpre ev h
          · rcases hex with rfl | ⟨c, rfl⟩
            · simp at h
            · simp only [List.mem_singleton] at h
              subst h
              rfl
        · simp only [hi, Bool.not_true, Bool.false_eq_true, if_false, hlay, not_false_eq_true,
            if_true] at hs'
          cases hs'
      · have hi' : env.IsInitialized = false := by simpa using hi
        simp only [hi', Bool.not_false, if_true] at hs'
        cases hs'
        refine ⟨by simp [Locals.done, hops], ?_⟩
        intro ev hev
        rw [newCalls_append s l.done ((if s.VK then [] else [Event.VRManagerInit]) ++
          layerInitCalls (initVRManager s) r commandBuffer image)
          (by simp [Locals.done, hcalls, initVRManager_calls])] at hev
        exact hpre ev hev
  · intro hinit hflat hlayers himg
    obtain ⟨l, hl, h3, h2, -⟩ :=
      initLayers_ok env ⟨initVRManager s, r, false, false⟩ (captureIdx pColor) commandBuffer
        image hk (by simpa using hlayers)
    obtain ⟨hf0, hf1, hcalls, himgs, hcol, -, hops, -, -⟩ :=
      initLayers_inv env _ l _ commandBuffer image hk hl
    simp only [initVRManager_color, initVRManager_ops,
      initVRManager_imageResolutions] at hf0 hf1 hcalls himgs hcol hops
    have hdup := clearColor3D_duplicate env l .LEFT (frameIdx pColor) commandBuffer image
      imageLayout rangeCount pRanges hflat
      (by
        rcases himg with h | ⟨h, ext, hx⟩
        · exact Or.inl (by rw [hcol]; exact h)
        · refine Or.inr ⟨by rw [hcol]; exact h, ext, ?_⟩
          simpa [State.findImage, himgs] using hx)
      (by rw [GetFrame_congr r l.renderer hf0 hf1]; exact hflag)
    rw [hrun, hl] at *
    simp only [hinit, h3, h2, and_self, not_true_eq_false, Bool.not_true, Bool.false_eq_true,
      if_false]
    rw [hdup]
    refine ⟨_, l.renderer, rfl, by simp [hops], rfl, hf0, hf1, ?_⟩
    simp [hcalls, initVRManager_calls, layerInitCalls]

/-- C3 at the captured state: image `7` is the cached 3D colour image, the left colour of
slot 0 has been captured, and the same left-eye clear arrives again on image `7`. -/
theorem C3_duplicate_left_clear_witness :
    (∀ s', CmdClearColorImage demoEnv capturedState 11 7 1 leftPayload 1 [0] = .ok s' →
      s'.s_activeCopyOperations = capturedState.s_activeCopyOperations ∧
      ∀ ev ∈ newCalls capturedState s', ev.isLayerCopy = false) ∧
    (demoEnv.IsInitialized = true → demoEnv.UseBlackBarsDuringEvents = false →
      ((capturedRenderer.m_layer3D.isSome ∧ capturedRenderer.m_layer2D.isSome) ∨
        (capturedRenderer.m_layer2D = none ∧ (capturedState.findImage 7).isSome)) →
      (capturedState.s_curr3DColorImage = 7 ∨
        (capturedState.s_curr3DColorImage = VK_NULL_HANDLE ∧
          ∃ ext, capturedState.findImage 7 = some (ext, VK_FORMAT_B10G11R11_UFLOAT_PACK32))) →
      ∃ s' r', CmdClearColorImage demoEnv capturedState 11 7 1 leftPayload 1 [0] = .ok s' ∧
        s'.s_activeCopyOperations = capturedState.s_activeCopyOperations ∧
        s'.renderer = some r' ∧ r'.frame0 = capturedRenderer.frame0 ∧
        r'.frame1 = capturedRenderer.frame1 ∧
        s'.calls = capturedState.calls ++
          (if capturedState.VK then [] else [Event.VRManagerInit]) ++
          layerInitCalls capturedState capturedRenderer 11 7 ++
          [.DriverCmdClearColorImage 11 7 1 transparentClear 1 [0]]) :=
  C3_duplicate_left_clear demoEnv capturedState capturedRenderer 0 11 7 1 leftPayload 1 [0]
    rfl rfl (by norm_num [colorSide, leftPayload])
    (by norm_num [captureIdx, lroundf, leftPayload]) (by norm_num [frameIdx, leftPayload])

/-- C3 as stated fails: it is not the case that every left-eye, capture-index-0 clear in a
slot whose `copiedColor[slot][LEFT]` is true sends a transparent clear to the driver. In the
captured state, the clear on image `9`, which is not the cached 3D colour image `7`, while
`IsRendering3D(0)` is false, is answered by an opaque black clear only. -/
theorem C3_counterexample :
    ¬ ∀ (env : Collaborators) (s : State) (r : RND_Renderer) (slot : Nat)
        (commandBuffer : VkCommandBuffer) (image : VkImage) (imageLayout : VkImageLayout)
        (pColor : VkClearColorValue) (rangeCount : Nat)
        (pRanges : List VkImageSubresourceRange),
        s.renderer = some r → (r.GetFrame slot).copiedColor .LEFT = true →
        colorSide pColor = some .LEFT → captureIdx pColor = 0 → frameIdx pColor = slot →
        ∃ s', CmdClearColorImage env s commandBuffer image imageLayout pColor rangeCount
            pRanges = .ok s' ∧
          s'.s_activeCopyOperations = s.s_activeCopyOperations ∧
          (∀ ev ∈ newCalls s s', ev.isLayerCopy = false) ∧
          Event.DriverCmdClearColorImage commandBuffer image imageLayout transparentClear
            rangeCount pRanges ∈ newCalls s s' := by
  intro h
  obtain ⟨s', hs', -, -, hmem⟩ := h demoEnv capturedState capturedRenderer 0 11 9 1 leftPayload
    1 [0] rfl rfl (by norm_num [colorSide, leftPayload])
    (by norm_num [captureIdx, lroundf, leftPayload]) (by norm_num [frameIdx, leftPayload])
  rw [captured_clear_eval] at hs'
  cases hs'
  rw [newCalls_append capturedState _ [.DriverCmdClearColorImage 11 9 1 blackClear 1 [0]] rfl]
    at hmem
  simp [blackClear, transparentClear] at hmem

/-- C5: in a `QueueSubmit` call made while the hand-off queue is non-empty (every existing
timeline structure having at most as many values as its sub-batch has semaphores), the
sub-batch `b` that follows the sub-batches `earlier` is passed to the driver with: wait
semaphores `W` followed by the wait semaphores of the `k` textures `texs` drained for it
(the pending copies, still queued when `b` is reached, whose command buffer is in `b`), the
stage masks `D` followed by `k` ALL_COMMANDS masks, signal semaphores `S` followed by the
textures' signal semaphores, unchanged command buffers, and a chain that is the rebuilt
timeline structure followed by the caller's chain. The timeline wait values have length
`n + k`, end with the textures' wait values in the order of their semaphores, and start with
the `n` values of the existing timeline structure, 0 where it gave none; likewise the signal
values with `m`. -/
theorem C5_rewritten_sub_batch (env : Collaborators) (s : State) (queue : VkQueue)
    (pSubmits : List VkSubmitInfo) (fence : VkFence)
    (earlier : List VkSubmitInfo) (b : VkSubmitInfo) (later : List VkSubmitInfo)
    (hne : s.s_activeCopyOperations ≠ [])
    (hsplit : pSubmits = earlier ++ b :: later)
    (hfit : ∀ b' ∈ pSubmits, TimelineValuesFit b') :
    ∃ (s' : State) (shadowSubmits : List VkSubmitInfo) (out : VkSubmitInfo)
      (texs : List SharedTexture) (waitValues signalValues : List Nat),
      QueueSubmit env s queue pSubmits fence = .ok (s', env.driverQueueSubmitResult) ∧
      s'.calls = s.calls ++ [.DriverQueueSubmit queue (.shadow shadowSubmits) fence] ∧
      shadowSubmits.length = pSubmits.length ∧
      shadowSubmits[earlier.length]? = some out ∧
      texs.Perm (((queueAfter earlier s.s_activeCopyOperations).filter
        (fun it => decide (it.1 ∈ b.pCommandBuffers))).map Prod.snd) ∧
      out.pWaitSemaphores = b.pWaitSemaphores ++ texs.map (waitSemaphoreOf env) ∧
      out.pWaitDstStageMask = b.pWaitDstStageMask ++
        List.replicate texs.length VK_PIPELINE_STAGE_ALL_COMMANDS_BIT ∧
      out.pSignalSemaphores = b.pSignalSemaphores ++ texs.map (signalSemaphoreOf env) ∧
      out.pCommandBuffers = b.pCommandBuffers ∧
      out.pNext = .timelineSemaphoreSubmitInfo waitValues signalValues :: b.pNext ∧
      waitValues.length = b.pWaitSemaphores.length + texs.length ∧
      waitValues.drop b.pWaitSemaphores.length = texs.map env.GetVulkanWaitValue ∧
      (∀ j < b.pWaitSemaphores.length,
        waitValues.getD j 0 = (existingWaitValues b).getD j 0) ∧
      signalValues.length = b.pSignalSemaphores.length + texs.length ∧
      signalValues.drop b.pSignalSemaphores.length = texs.map env.GetVulkanSignalValue ∧
      (∀ j < b.pSignalSemaphores.length,
        signalValues.getD j 0 = (existingSignalValues b).getD j 0) := by
  have hb : TimelineValuesFit b := hfit b (by rw [hsplit]; simp)
  obtain ⟨waitValues, signalValues, hnext, hv⟩ := expectedShadow_values env b
    (drainedTextures b.pCommandBuffers (queueAfter earlier s.s_activeCopyOperations)) hb
  refine ⟨_, _, expectedShadow env b
      (drainedTextures b.pCommandBuffers (queueAfter earlier s.s_activeCopyOperations)),
    drainedTextures b.pCommandBuffers (queueAfter earlier s.s_activeCopyOperations),
    waitValues, signalValues,
    QueueSubmit_rewrite env s queue pSubmits fence hne hfit, rfl,
    expectedShadows_length env pSubmits _, ?_, drainedTextures_perm _ _, rfl, rfl, rfl, rfl,
    hnext, hv⟩
  rw [hsplit]
  exact expectedShadows_getElem env earlier b later _

/-- C5 at a queue of three pending copies and the sub-batches `plainSubmit`,
`timelineSubmit`: the second sub-batch, of command buffers `11` and `13`, drains the two
pending copies of command buffer `11`. -/
theorem C5_rewritten_sub_batch_witness :
    ∃ (s' : State) (shadowSubmits : List VkSubmitInfo) (out : VkSubmitInfo)
      (texs : List SharedTexture) (waitValues signalValues : List Nat),
      QueueSubmit demoEnv pendingState 3 [plainSubmit, timelineSubmit] 4
        = .ok (s', demoEnv.driverQueueSubmitResult) ∧
      s'.calls = pendingState.calls ++ [.DriverQueueSubmit 3 (.shadow shadowSubmits) 4] ∧
      shadowSubmits.length = [plainSubmit, timelineSubmit].length ∧
      shadowSubmits[[plainSubmit].length]? = some out ∧
      texs.Perm (((queueAfter [plainSubmit] pendingState.s_activeCopyOperations).filter
        (fun it => decide (it.1 ∈ timelineSubmit.pCommandBuffers))).map Prod.snd) ∧
      out.pWaitSemaphores = timelineSubmit.pWaitSemaphores ++
        texs.map (waitSemaphoreOf demoEnv) ∧
      out.pWaitDstStageMask = timelineSubmit.pWaitDstStageMask ++
        List.replicate texs.length VK_PIPELINE_STAGE_ALL_COMMANDS_BIT ∧
      out.pSignalSemaphores = timelineSubmit.pSignalSemaphores ++
        texs.map (signalSemaphoreOf demoEnv) ∧
      out.pCommandBuffers = timelineSubmit.pCommandBuffers ∧
      out.pNext = .timelineSemaphoreSubmitInfo waitValues signalValues ::
        timelineSubmit.pNext ∧
      waitValues.length = timelineSubmit.pWaitSemaphores.length + texs.length ∧
      waitValues.drop timelineSubmit.pWaitSemaphores.length =
        texs.map demoEnv.GetVulkanWaitValue ∧
      (∀ j < timelineSubmit.pWaitSemaphores.length,
        waitValues.getD j 0 = (existingWaitValues timelineSubmit).getD j 0) ∧
      signalValues.length = timelineSubmit.pSignalSemaphores.length + texs.length ∧
      signalValues.drop timelineSubmit.pSignalSemaphores.length =
        texs.map demoEnv.GetVulkanSignalValue ∧
      (∀ j < timelineSubmit.pSignalSemaphores.length,
        signalValues.getD j 0 = (existingSignalValues timelineSubmit).getD j 0) :=
  C5_rewritten_sub_batch demoEnv pendingState 3 [plainSubmit, timelineSubmit] 4
    [plainSubmit] timelineSubmit [] (by decide) rfl (by decide)

/-- C6: in a `QueueSubmit` call made while the hand-off queue `Q` is non-empty (every
existing timeline structure having at most as many values as its sub-batch has semaphores),
the queue afterwards is exactly the sub-list of `Q`, in its original order, of the entries
whose command buffer occurs in no sub-batch of the call; and for every sub-batch `b`, the
textures whose wait/signal pairs are appended to `b` are, one pair each, exactly those of the
entries of `Q` whose command buffer is in `b` and in no earlier sub-batch. -/
theorem C6_pending_copy_consumed_once (env : Collaborators) (s : State) (queue : VkQueue)
    (pSubmits : List VkSubmitInfo) (fence : VkFence)
    (hne : s.s_activeCopyOperations ≠ [])
    (hfit : ∀ b ∈ pSubmits, TimelineValuesFit b) :
    ∃ s' shadowSubmits,
      QueueSubmit env s queue pSubmits fence = .ok (s', env.driverQueueSubmitResult) ∧
      s'.calls = s.calls ++ [.DriverQueueSubmit queue (.shadow shadowSubmits) fence] ∧
      s'.s_activeCopyOperations = s.s_activeCopyOperations.filter
        (fun it => decide (∀ b ∈ pSubmits, it.1 ∉ b.pCommandBuffers)) ∧
      shadowSubmits.length = pSubmits.length ∧
      ∀ earlier b later, pSubmits = earlier ++ b :: later →
        ∃ (out : VkSubmitInfo) (texs : List SharedTexture), shadowSubmits[earlier.length]? = some out ∧
          texs.Perm ((s.s_activeCopyOperations.filter (fun it =>
            decide (it.1 ∈ b.pCommandBuffers ∧
              ∀ b' ∈ earlier, it.1 ∉ b'.pCommandBuffers))).map Prod.snd) ∧
          out.pWaitSemaphores = b.pWaitSemaphores ++ texs.map (waitSemaphoreOf env) ∧
          out.pSignalSemaphores = b.pSignalSemaphores ++ texs.map (signalSemaphoreOf env) := by
  refine ⟨_, _, QueueSubmit_rewrite env s queue pSubmits fence hne hfit, rfl, rfl,
    expectedShadows_length env pSubmits _, ?_⟩
  intro earlier b later hsplit
  refine ⟨expectedShadow env b
      (drainedTextures b.pCommandBuffers (queueAfter earlier s.s_activeCopyOperations)),
    drainedTextures b.pCommandBuffers (queueAfter earlier s.s_activeCopyOperations),
    by rw [hsplit]; exact expectedShadows_getElem env earlier b later _, ?_, rfl, rfl⟩
  refine (drainedTextures_perm _ _).trans (List.Perm.of_eq ?_)
  congr 1
  simp only [queueAfter, List.filter_filter]
  apply List.filter_congr
  intro it _
  simp [Bool.decide_and]

/-- C6 at the queue `[(11, 100), (12, 300), (11, 200)]` and the sub-batches `plainSubmit`,
`timelineSubmit`: the two entries of command buffer `11` are removed, the entry of command
buffer `12` stays. -/
theorem C6_pending_copy_consumed_once_witness :
    ∃ s' shadowSubmits,
      QueueSubmit demoEnv pendingState 3 [plainSubmit, timelineSubmit] 4
        = .ok (s', demoEnv.driverQueueSubmitResult) ∧
      s'.calls = pendingState.calls ++ [.DriverQueueSubmit 3 (.shadow shadowSubmits) 4] ∧
      s'.s_activeCopyOperations = pendingState.s_activeCopyOperations.filter
        (fun it => decide (∀ b ∈ [plainSubmit, timelineSubmit], it.1 ∉ b.pCommandBuffers)) ∧
      shadowSubmits.length = [plainSubmit, timelineSubmit].length ∧
      ∀ earlier b later, [plainSubmit, timelineSubmit] = earlier ++ b :: later →
        ∃ (out : VkSubmitInfo) (texs : List SharedTexture), shadowSubmits[earlier.length]? = some out ∧
          texs.Perm ((pendingState.s_activeCopyOperations.filter (fun it =>
            decide (it.1 ∈ b.pCommandBuffers ∧
              ∀ b' ∈ earlier, it.1 ∉ b'.pCommandBuffers))).map Prod.snd) ∧
          out.pWaitSemaphores = b.pWaitSemaphores ++ texs.map (waitSemaphoreOf demoEnv) ∧
          out.pSignalSemaphores = b.pSignalSemaphores ++
            texs.map (signalSemaphoreOf demoEnv) :=
  C6_pending_copy_consumed_once demoEnv pendingState 3 [plainSubmit, timelineSubmit] 4
    (by decide) (by decide)

/-- C7 (as amended): in a `QueueSubmit` call with two sub-batches `b1`, `b2`, where the
hand-off queue holds exactly one pending copy and its command buffer occurs in `b2` only
(every existing timeline structure having at most as many values as its sub-batch has
semaphores), the first sub-batch passed to the driver keeps the wait semaphores, stage masks,
signal semaphores and command buffers of `b1`, and its chain is the caller's chain behind a
rebuilt timeline structure that holds one value per semaphore of `b1` (the existing value,
or 0); the second gains exactly one wait semaphore/value pair, one ALL_COMMANDS stage mask
and one signal semaphore/value pair; and the queue is empty afterwards. -/
theorem C7_two_sub_batches (env : Collaborators) (s : State) (queue : VkQueue)
    (b1 b2 : VkSubmitInfo) (fence : VkFence) (commandBuffer : VkCommandBuffer)
    (texture : SharedTexture)
    (hq : s.s_activeCopyOperations = [(commandBuffer, texture)])
    (h2 : commandBuffer ∈ b2.pCommandBuffers)
    (h1 : commandBuffer ∉ b1.pCommandBuffers)
    (hfit1 : TimelineValuesFit b1) (hfit2 : TimelineValuesFit b2) :
    ∃ (s' : State) (out1 out2 : VkSubmitInfo),
      QueueSubmit env s queue [b1, b2] fence = .ok (s', env.driverQueueSubmitResult) ∧
      s'.calls = s.calls ++ [.DriverQueueSubmit queue (.shadow [out1, out2]) fence] ∧
      s'.s_activeCopyOperations = [] ∧
      out1.pWaitSemaphores = b1.pWaitSemaphores ∧
      out1.pWaitDstStageMask = b1.pWaitDstStageMask ∧
      out1.pSignalSemaphores = b1.pSignalSemaphores ∧
      out1.pCommandBuffers = b1.pCommandBuffers ∧
      out1.pNext = .timelineSemaphoreSubmitInfo
        (existingWaitValues b1 ++ List.replicate
          (b1.pWaitSemaphores.length - (existingWaitValues b1).length) 0)
        (existingSignalValues b1 ++ List.replicate
          (b1.pSignalSemaphores.length - (existingSignalValues b1).length) 0) :: b1.pNext ∧
      out2.pWaitSemaphores = b2.pWaitSemaphores ++ [waitSemaphoreOf env texture] ∧
      out2.pWaitDstStageMask = b2.pWaitDstStageMask ++ [VK_PIPELINE_STAGE_ALL_COMMANDS_BIT] ∧
      out2.pSignalSemaphores = b2.pSignalSemaphores ++ [signalSemaphoreOf env texture] ∧
      out2.pCommandBuffers = b2.pCommandBuffers ∧
      out2.pNext = .timelineSemaphoreSubmitInfo
        (existingWaitValues b2 ++ List.replicate
          (b2.pWaitSemaphores.length - (existingWaitValues b2).length) 0 ++
          [env.GetVulkanWaitValue texture])
        (existingSignalValues b2 ++ List.replicate
          (b2.pSignalSemaphores.length - (existingSignalValues b2).length) 0 ++
          [env.GetVulkanSignalValue texture]) :: b2.pNext := by
  have hrun := QueueSubmit_rewrite env s queue [b1, b2] fence (by rw [hq]; simp)
    (by
      intro b hb
      simp only [List.mem_cons, List.mem_singleton, List.not_mem_nil, or_false] at hb
      rcases hb with rfl | rfl
      · exact hfit1
      · exact hfit2)
  have hd1 : drainedTextures b1.pCommandBuffers [(commandBuffer, texture)] = [] := by
    rw [drainedTextures_single, if_neg h1]
  have hd2 : drainedTextures b2.pCommandBuffers [(commandBuffer, texture)] = [texture] := by
    rw [drainedTextures_single, if_pos h2]
  have hq1 : queueAfter [b1] [(commandBuffer, texture)] = [(commandBuffer, texture)] := by
    simp [queueAfter, h1]
  have hq2 : queueAfter [b1, b2] [(commandBuffer, texture)] = [] := by
    simp [queueAfter, h2]
  rw [hq] at hrun
  simp only [expectedShadows, hd1, hq1, hd2, hq2] at hrun
  refine ⟨_, _, _, hrun, rfl, rfl, ?_, ?_, ?_, rfl, ?_, rfl, rfl, rfl, rfl, rfl⟩ <;>
    simp [expectedShadow]

/-- C7 at the queue `[(11, 100)]` and the sub-batches `plainSubmit` (command buffer `21`),
`timelineSubmit` (command buffers `11`, `13`). -/
theorem C7_two_sub_batches_witness :
    ∃ (s' : State) (out1 out2 : VkSubmitInfo),
      QueueSubmit demoEnv singlePendingState 3 [plainSubmit, timelineSubmit] 4
        = .ok (s', demoEnv.driverQueueSubmitResult) ∧
      s'.calls = singlePendingState.calls ++
        [.DriverQueueSubmit 3 (.shadow [out1, out2]) 4] ∧
      s'.s_activeCopyOperations = [] ∧
      out1.pWaitSemaphores = plainSubmit.pWaitSemaphores ∧
      out1.pWaitDstStageMask = plainSubmit.pWaitDstStageMask ∧
      out1.pSignalSemaphores = plainSubmit.pSignalSemaphores ∧
      out1.pCommandBuffers = plainSubmit.pCommandBuffers ∧
      out1.pNext = .timelineSemaphoreSubmitInfo
        (existingWaitValues plainSubmit ++ List.replicate
          (plainSubmit.pWaitSemaphores.length - (existingWaitValues plainSubmit).length) 0)
        (existingSignalValues plainSubmit ++ List.replicate
          (plainSubmit.pSignalSemaphores.length - (existingSignalValues plainSubmit).length) 0)
        :: plainSubmit.pNext ∧
      out2.pWaitSemaphores = timelineSubmit.pWaitSemaphores ++ [waitSemaphoreOf demoEnv 100] ∧
      out2.pWaitDstStageMask = timelineSubmit.pWaitDstStageMask ++
        [VK_PIPELINE_STAGE_ALL_COMMANDS_BIT] ∧
      out2.pSignalSemaphores = timelineSubmit.pSignalSemaphores ++
        [signalSemaphoreOf demoEnv 100] ∧
      out2.pCommandBuffers = timelineSubmit.pCommandBuffers ∧
      out2.pNext = .timelineSemaphoreSubmitInfo
        (existingWaitValues timelineSubmit ++ List.replicate
          (timelineSubmit.pWaitSemaphores.length - (existingWaitValues timelineSubmit).length) 0
          ++ [demoEnv.GetVulkanWaitValue 100])
        (existingSignalValues timelineSubmit ++ List.replicate
          (timelineSubmit.pSignalSemaphores.length -
            (existingSignalValues timelineSubmit).length) 0 ++
          [demoEnv.GetVulkanSignalValue 100]) :: timelineSubmit.pNext :=
  C7_two_sub_batches demoEnv singlePendingState 3 plainSubmit timelineSubmit 4 11 100 rfl
    (by decide) (by decide) (by decide) (by decide)

/-- C7 as stated fails: it is not the case that the first sub-batch reaches the driver
unchanged. With the queue `[(11, 100)]`, `plainSubmit` (command buffer `21`, empty chain)
first and `timelineSubmit` (command buffers `11`, `13`) second, the first sub-batch passed to
the driver carries a timeline structure in front of its chain. -/
theorem C7_counterexample :
    ¬ ∀ (env : Collaborators) (s : State) (queue : VkQueue) (b1 b2 : VkSubmitInfo)
        (fence : VkFence) (commandBuffer : VkCommandBuffer) (texture : SharedTexture),
        s.s_activeCopyOperations = [(commandBuffer, texture)] →
        commandBuffer ∈ b2.pCommandBuffers → commandBuffer ∉ b1.pCommandBuffers →
        TimelineValuesFit b1 → TimelineValuesFit b2 →
        ∃ (s' : State) (res : VkResult) (out2 : VkSubmitInfo),
          QueueSubmit env s queue [b1, b2] fence = .ok (s', res) ∧
          newCalls s s' = [.DriverQueueSubmit queue (.shadow [b1, out2]) fence] := by
  intro h
  obtain ⟨s', res, out2, hs', hcalls⟩ := h demoEnv singlePendingState 3 plainSubmit
    timelineSubmit 4 11 100 rfl (by decide) (by decide) (by decide) (by decide)
  rw [single_pending_submit_eval] at hs'
  cases hs'
  rw [newCalls_append _ _ _ rfl] at hcalls
  simp [plainSubmit] at hcalls

/-- C8: a `QueueSubmit` call made while the hand-off queue is empty calls the driver exactly
once, with the caller's queue, the caller's own `pSubmits` array and fence; it changes nothing
else, so the queue stays empty; and it returns the driver's result. -/
theorem C8_empty_queue_fast_path (env : Collaborators) (s : State) (queue : VkQueue)
    (pSubmits : List VkSubmitInfo) (fence : VkFence)
    (hempty : s.s_activeCopyOperations = []) :
    QueueSubmit env s queue pSubmits fence =
      .ok ({ s with calls := s.calls ++ [.DriverQueueSubmit queue (.caller pSubmits) fence] },
        env.driverQueueSubmitResult) ∧
    ∀ s' res, QueueSubmit env s queue pSubmits fence = .ok (s', res) →
      s'.s_activeCopyOperations = [] ∧ res = env.driverQueueSubmitResult ∧
      newCalls s s' = [.DriverQueueSubmit queue (.caller pSubmits) fence] := by
  have h : QueueSubmit env s queue pSubmits fence =
      .ok ({ s with calls := s.calls ++ [.DriverQueueSubmit queue (.caller pSubmits) fence] },
        env.driverQueueSubmitResult) := by
    simp [QueueSubmit, hempty, State.call]
  refine ⟨h, ?_⟩
  intro s' res hs'
  rw [h] at hs'
  cases hs'
  exact ⟨hempty, rfl, by simp [newCalls]⟩

/-- C8 at the state `demoState`, whose hand-off queue is empty. -/
theorem C8_empty_queue_fast_path_witness :
    QueueSubmit demoEnv demoState 3 [plainSubmit, timelineSubmit] 4 =
      .ok ({ demoState with calls := demoState.calls ++
          [.DriverQueueSubmit 3 (.caller [plainSubmit, timelineSubmit]) 4] },
        demoEnv.driverQueueSubmitResult) ∧
    ∀ s' res, QueueSubmit demoEnv demoState 3 [plainSubmit, timelineSubmit] 4 = .ok (s', res) →
      s'.s_activeCopyOperations = [] ∧ res = demoEnv.driverQueueSubmitResult ∧
      newCalls demoState s' = [.DriverQueueSubmit 3 (.caller [plainSubmit, timelineSubmit]) 4] :=
  C8_empty_queue_fast_path demoEnv demoState 3 [plainSubmit, timelineSubmit] 4 rfl

/-- C9: a colour clear whose payload matches neither eye window, whatever `float32[0]` and
`float32[3]` are, is forwarded to the driver exactly once with the unmodified command buffer,
image, layout, colour and ranges (after the `VRManager` initialisation when that is still
due), and the image registry, the two current-3D-target caches, the hand-off queue and the
renderer with its frame-slot flags are unchanged. -/
theorem C9_unrecognised_color_forwarded (env : Collaborators) (s : State)
    (commandBuffer : VkCommandBuffer) (image : VkImage) (imageLayout : VkImageLayout)
    (pColor : VkClearColorValue) (rangeCount : Nat) (pRanges : List VkImageSubresourceRange)
    (hleft : ¬ (0.12 ≤ pColor.float32_1 ∧ pColor.float32_1 ≤ 0.13 ∧
      0.97 ≤ pColor.float32_2 ∧ pColor.float32_2 ≤ 0.99))
    (hright : ¬ (0.12 ≤ pColor.float32_2 ∧ pColor.float32_2 ≤ 0.13 ∧
      0.97 ≤ pColor.float32_1 ∧ pColor.float32_1 ≤ 0.99)) :
    ∃ s', CmdClearColorImage env s commandBuffer image imageLayout pColor rangeCount pRanges
        = .ok s' ∧
      s'.calls = s.calls ++ (if s.VK then [] else [Event.VRManagerInit]) ++
        [.DriverCmdClearColorImage commandBuffer image imageLayout pColor rangeCount pRanges] ∧
      s'.imageResolutions = s.imageResolutions ∧
      s'.s_curr3DColorImage = s.s_curr3DColorImage ∧
      s'.s_curr3DDepthImage = s.s_curr3DDepthImage ∧
      s'.s_activeCopyOperations = s.s_activeCopyOperations ∧
      s'.renderer = s.renderer := by
  have hside : colorSide pColor = none := by
    unfold colorSide
    rw [if_neg hleft, if_neg hright]
  have hrun : CmdClearColorImage env s commandBuffer image imageLayout pColor rangeCount
      pRanges = .ok ((initVRManager s).call
        (.DriverCmdClearColorImage commandBuffer image imageLayout pColor rangeCount pRanges)) := by
    simp only [CmdClearColorImage, hside]
  refine ⟨_, hrun, ?_, ?_, ?_, ?_, ?_, ?_⟩ <;> simp [State.call, initVRManager_calls]

/-- C9 at the payload `(0.3, 0.125, 0.5, 0.9)`, whose second component is in the first
window and whose third is in neither. -/
theorem C9_unrecognised_color_forwarded_witness :
    ∃ s', CmdClearColorImage demoEnv demoState 11 7 1 ⟨0.3, 0.125, 0.5, 0.9⟩ 1 [0] = .ok s' ∧
      s'.calls = demoState.calls ++ (if demoState.VK then [] else [Event.VRManagerInit]) ++
        [.DriverCmdClearColorImage 11 7 1 ⟨0.3, 0.125, 0.5, 0.9⟩ 1 [0]] ∧
      s'.imageResolutions = demoState.imageResolutions ∧
      s'.s_curr3DColorImage = demoState.s_curr3DColorImage ∧
      s'.s_curr3DDepthImage = demoState.s_curr3DDepthImage ∧
      s'.s_activeCopyOperations = demoState.s_activeCopyOperations ∧
      s'.renderer = demoState.renderer :=
  C9_unrecognised_color_forwarded demoEnv demoState 11 7 1 ⟨0.3, 0.125, 0.5, 0.9⟩ 1 [0]
    (by norm_num) (by norm_num)

/-- C10: `CmdClearDepthStencilImage` forwards the clear to the driver if and only if the
clear is not recognised, that is `rangeCount` is not 1 or the depth lies in neither
`[0.011456789, 0.013456789]` nor `[0.153987654, 0.173987654]`; a forwarded clear is the one
recorded call, with the unmodified arguments, and nothing else of the state changes; a
recognised clear never sends a depth clear to the driver; and a recognised clear whose
target is not, and is not resolved to be, the cached 3D depth image changes nothing whenever
it returns, and does return the state unchanged when the stencil is 0 or 1 and a renderer is
at hand. -/
theorem C10_depth_forward_iff_unrecognised (env : Collaborators) (s : State)
    (commandBuffer : VkCommandBuffer) (image : VkImage) (imageLayout : VkImageLayout)
    (pDepthStencil : VkClearDepthStencilValue) (rangeCount : Nat)
    (pRanges : List VkImageSubresourceRange) :
    ((∃ s', CmdClearDepthStencilImage env s commandBuffer image imageLayout pDepthStencil
          rangeCount pRanges = .ok s' ∧
        Event.DriverCmdClearDepthStencilImage commandBuffer image imageLayout pDepthStencil
          rangeCount pRanges ∈ newCalls s s') ↔
      (rangeCount ≠ 1 ∨
        (¬ (0.011456789 ≤ pDepthStencil.depth ∧ pDepthStencil.depth ≤ 0.013456789) ∧
         ¬ (0.153987654 ≤ pDepthStencil.depth ∧ pDepthStencil.depth ≤ 0.173987654)))) ∧
    ((rangeCount ≠ 1 ∨
        (¬ (0.011456789 ≤ pDepthStencil.depth ∧ pDepthStencil.depth ≤ 0.013456789) ∧
         ¬ (0.153987654 ≤ pDepthStencil.depth ∧ pDepthStencil.depth ≤ 0.173987654))) →
      CmdClearDepthStencilImage env s commandBuffer image imageLayout pDepthStencil
          rangeCount pRanges =
        .ok { s with calls := s.calls ++
          [.DriverCmdClearDepthStencilImage commandBuffer image imageLayout pDepthStencil
            rangeCount pRanges] }) ∧
    (¬ (rangeCount ≠ 1 ∨
        (¬ (0.011456789 ≤ pDepthStencil.depth ∧ pDepthStencil.depth ≤ 0.013456789) ∧
         ¬ (0.153987654 ≤ pDepthStencil.depth ∧ pDepthStencil.depth ≤ 0.173987654))) →
      (∀ s', CmdClearDepthStencilImage env s commandBuffer image imageLayout pDepthStencil
          rangeCount pRanges = .ok s' → ∀ ev ∈ newCalls s s', ev.isDepthClear = false) ∧
      (s.s_curr3DDepthImage ≠ image →
        ¬ (s.s_curr3DDepthImage = VK_NULL_HANDLE ∧
          ∃ ext, s.findImage image = some (ext, VK_FORMAT_D32_SFLOAT)) →
        (∀ s', CmdClearDepthStencilImage env s commandBuffer image imageLayout pDepthStencil
          rangeCount pRanges = .ok s' → s' = s) ∧
        ((pDepthStencil.stencil = 0 ∨ pDepthStencil.stencil = 1) → s.renderer.isSome →
          CmdClearDepthStencilImage env s commandBuffer image imageLayout pDepthStencil
            rangeCount pRanges = .ok s))) := by
  have hfwd : (rangeCount ≠ 1 ∨
        (¬ (0.011456789 ≤ pDepthStencil.depth ∧ pDepthStencil.depth ≤ 0.013456789) ∧
         ¬ (0.153987654 ≤ pDepthStencil.depth ∧ pDepthStencil.depth ≤ 0.173987654))) →
      CmdClearDepthStencilImage env s commandBuffer image imageLayout pDepthStencil
          rangeCount pRanges =
        .ok { s with calls := s.calls ++
          [.DriverCmdClearDepthStencilImage commandBuffer image imageLayout pDepthStencil
            rangeCount pRanges] } := by
    intro h
    rw [← depthSide_eq_none] at h
    exact CmdClearDepthStencilImage_forward env s _ _ _ _ _ _ h
  have hrec : ¬ (rangeCount ≠ 1 ∨
        (¬ (0.011456789 ≤ pDepthStencil.depth ∧ pDepthStencil.depth ≤ 0.013456789) ∧
         ¬ (0.153987654 ≤ pDepthStencil.depth ∧ pDepthStencil.depth ≤ 0.173987654))) →
      ∃ e, CmdClearDepthStencilImage env s commandBuffer image imageLayout pDepthStencil
        rangeCount pRanges = clearDepth3D env s e commandBuffer image imageLayout
          pDepthStencil := by
    intro h
    rw [← depthSide_eq_none] at h
    push_neg at h
    obtain ⟨e, he⟩ := Option.ne_none_iff_exists'.mp h.2
    exact ⟨e, CmdClearDepthStencilImage_recognised env s _ _ _ _ _ _ e h.1 he⟩
  have hnever : ¬ (rangeCount ≠ 1 ∨
        (¬ (0.011456789 ≤ pDepthStencil.depth ∧ pDepthStencil.depth ≤ 0.013456789) ∧
         ¬ (0.153987654 ≤ pDepthStencil.depth ∧ pDepthStencil.depth ≤ 0.173987654))) →
      ∀ s', CmdClearDepthStencilImage env s commandBuffer image imageLayout pDepthStencil
          rangeCount pRanges = .ok s' → ∀ ev ∈ newCalls s s', ev.isDepthClear = false := by
    intro h s' hs'
    obtain ⟨e, he⟩ := hrec h
    rw [he] at hs'
    exact clearDepth3D_calls env s s' e _ _ _ _ hs'
  refine ⟨⟨?_, ?_⟩, hfwd, fun h => ⟨hnever h, ?_⟩⟩
  · rintro ⟨s', hs', hmem⟩
    by_contra h
    have := hnever h s' hs' _ hmem
    simp [Event.isDepthClear] at this
  · intro h
    exact ⟨_, hfwd h, by simp [newCalls]⟩
  · intro hne hres
    obtain ⟨e, he⟩ := hrec h
    have hne' : image ≠ s.s_curr3DDepthImage := fun h => hne h.symm
    rw [he]
    unfold clearDepth3D
    rw [resolve3DDepthImage_miss s image hres]
    constructor
    · intro s' hs'
      simp only [] at hs'
      split at hs'
      · cases hs'
      · split at hs'
        · cases hs'
        · split at hs'
          · cases hs'; rfl
          · cases hs'; rfl
    · intro hst hren
      obtain ⟨r, hr⟩ := Option.isSome_iff_exists.mp hren
      cases hi : env.IsInitialized <;> simp [hst, hr, hne', hi]

/-- C11: `CmdClearColorImage` ends in the fatal assertion `Invalid capture index!` if and
only if an eye is recognised and `lroundf(32 * float32[0])` is neither 0 nor 2; over exact
arithmetic that is `float32[0]` outside `(-1/64, 1/64)` and outside `[3/64, 5/64)`. When the
hook ends so, the state in which it ends (the hook is `CmdClearColorImageTraced` without that
state) has the hand-off queue, the renderer with its frame flags, the registry and both
caches of the entry state, and the only call made until then is the `VRManager`
initialisation, when that was still due: no command was recorded. The frame slot decoded at
line 98 is 0 when `float32[3] < 0.5` and 1 when `float32[3] >= 0.5`. -/
theorem C11_invalid_capture_index (env : Collaborators) (s : State)
    (commandBuffer : VkCommandBuffer) (image : VkImage) (imageLayout : VkImageLayout)
    (pColor : VkClearColorValue) (rangeCount : Nat) (pRanges : List VkImageSubresourceRange) :
    (CmdClearColorImage env s commandBuffer image imageLayout pColor rangeCount pRanges
        = .error "Invalid capture index!" ↔
      (((0.12 ≤ pColor.float32_1 ∧ pColor.float32_1 ≤ 0.13 ∧
          0.97 ≤ pColor.float32_2 ∧ pColor.float32_2 ≤ 0.99) ∨
        (0.12 ≤ pColor.float32_2 ∧ pColor.float32_2 ≤ 0.13 ∧
          0.97 ≤ pColor.float32_1 ∧ pColor.float32_1 ≤ 0.99)) ∧
       lroundf (pColor.float32_0 * 32) ≠ 0 ∧ lroundf (pColor.float32_0 * 32) ≠ 2)) ∧
    ((lroundf (pColor.float32_0 * 32) ≠ 0 ∧ lroundf (pColor.float32_0 * 32) ≠ 2) ↔
      (¬ (-(1 / 64) < pColor.float32_0 ∧ pColor.float32_0 < 1 / 64) ∧
       ¬ (3 / 64 ≤ pColor.float32_0 ∧ pColor.float32_0 < 5 / 64))) ∧
    (CmdClearColorImage env s commandBuffer image imageLayout pColor rangeCount pRanges =
        (CmdClearColorImageTraced env s commandBuffer image imageLayout pColor rangeCount
          pRanges).toExcept ∧
      (CmdClearColorImage env s commandBuffer image imageLayout pColor rangeCount pRanges
          = .error "Invalid capture index!" →
        (CmdClearColorImageTraced env s commandBuffer image imageLayout pColor rangeCount
          pRanges).fatal = some "Invalid capture index!" ∧
        (CmdClearColorImageTraced env s commandBuffer image imageLayout pColor rangeCount
          pRanges).st.s_activeCopyOperations = s.s_activeCopyOperations ∧
        (CmdClearColorImageTraced env s commandBuffer image imageLayout pColor rangeCount
          pRanges).st.renderer = s.renderer ∧
        (CmdClearColorImageTraced env s commandBuffer image imageLayout pColor rangeCount
          pRanges).st.imageResolutions = s.imageResolutions ∧
        (CmdClearColorImageTraced env s commandBuffer image imageLayout pColor rangeCount
          pRanges).st.s_curr3DColorImage = s.s_curr3DColorImage ∧
        (CmdClearColorImageTraced env s commandBuffer image imageLayout pColor rangeCount
          pRanges).st.s_curr3DDepthImage = s.s_curr3DDepthImage ∧
        (CmdClearColorImageTraced env s commandBuffer image imageLayout pColor rangeCount
          pRanges).st.calls = s.calls ++ (if s.VK then [] else [Event.VRManagerInit]))) ∧
    ((pColor.float32_3 < 0.5 → frameIdx pColor = 0) ∧
      (0.5 ≤ pColor.float32_3 → frameIdx pColor = 1)) := by
  refine ⟨?_, ?_, ?_, ?_⟩
  · rw [CmdClearColorImage_error_iff, colorSide_ne_none_iff]
    simp only [captureIdx, not_or, ne_eq]
  · rw [ne_eq, ne_eq, lroundf_eq_zero_iff, lroundf_eq_two_iff]
    constructor
    · rintro ⟨h0, h2⟩
      constructor
      · rintro ⟨a, b⟩
        exact h0 ⟨by linarith, by linarith⟩
      · rintro ⟨a, b⟩
        exact h2 ⟨by linarith, by linarith⟩
    · rintro ⟨h0, h2⟩
      constructor
      · rintro ⟨a, b⟩
        exact h0 ⟨by linarith, by linarith⟩
      · rintro ⟨a, b⟩
        exact h2 ⟨by linarith, by linarith⟩
  · refine ⟨CmdClearColorImage_traced env s commandBuffer image imageLayout pColor rangeCount
      pRanges, fun h => ?_⟩
    rw [CmdClearColorImageTraced_invalid env s commandBuffer image imageLayout pColor
      rangeCount pRanges h]
    exact ⟨rfl, initVRManager_ops s, initVRManager_renderer s,
      initVRManager_imageResolutions s, initVRManager_color s, initVRManager_depth s,
      initVRManager_calls s⟩
  · constructor
    · intro h
      simp only [frameIdx]
      rw [if_pos h]
    · intro h
      simp only [frameIdx]
      rw [if_neg (not_lt.mpr h)]

/-- C11 at the left-eye payload `(0.5, 0.125, 0.98, 0.2)`, capture index 16, on the
registered image `7`: the hook ends in the assertion, having made no call. -/
theorem C11_invalid_capture_index_witness :
    CmdClearColorImage demoEnv demoState 11 7 1 badCapturePayload 1 [0]
      = .error "Invalid capture index!" ∧
    (CmdClearColorImageTraced demoEnv demoState 11 7 1 badCapturePayload 1 [0]).st.calls =
      demoState.calls ∧
    (CmdClearColorImageTraced demoEnv demoState 11 7 1 badCapturePayload 1 [0]
      ).st.s_activeCopyOperations = demoState.s_activeCopyOperations :=
  have h := C11_invalid_capture_index demoEnv demoState 11 7 1 badCapturePayload 1 [0]
  have herr : CmdClearColorImage demoEnv demoState 11 7 1 badCapturePayload 1 [0]
      = .error "Invalid capture index!" :=
    h.1.mpr ⟨Or.inl (by norm_num [badCapturePayload]),
      by rw [Ne, lroundf_eq_zero_iff]; norm_num [badCapturePayload],
      by rw [Ne, lroundf_eq_two_iff]; norm_num [badCapturePayload]⟩
  ⟨herr, (h.2.2.1.2 herr).2.2.2.2.2.2.trans (by simp [demoState]),
    (h.2.2.1.2 herr).2.1⟩

/-- C12: a recognised colour clear with capture index 0 whose target image is not, and is
not resolved to be, the cached 3D colour image, while the renderer is initialised
(`IsInitialized()` holds and its layers exist or are constructed by this call) and flat-2D
mode is off: the call returns, leaves the hand-off queue and the frame flags as they were,
and the one call it records after the lazy initialisations is a clear of the same image,
layout and ranges, with colour `(0,0,0,0)` when `IsRendering3D(slot)` and `(0,0,0,1)`
otherwise; no copy is recorded. -/
theorem C12_substitute_clear (env : Collaborators) (s : State) (r : RND_Renderer)
    (e : EyeSide) (slot : Nat) (commandBuffer : VkCommandBuffer) (image : VkImage)
    (imageLayout : VkImageLayout) (pColor : VkClearColorValue) (rangeCount : Nat)
    (pRanges : List VkImageSubresourceRange)
    (hside : colorSide pColor = some e)
    (hcap : captureIdx pColor = 0)
    (hslot : frameIdx pColor = slot)
    (hr : s.renderer = some r)
    (hlayers : (r.m_layer3D.isSome ∧ r.m_layer2D.isSome) ∨
      (r.m_layer2D = none ∧ (s.findImage image).isSome))
    (hinit : env.IsInitialized = true)
    (hflat : env.UseBlackBarsDuringEvents = false)
    (hne : s.s_curr3DColorImage ≠ image)
    (hres : ¬ (s.s_curr3DColorImage = VK_NULL_HANDLE ∧
      ∃ ext, s.findImage image = some (ext, VK_FORMAT_B10G11R11_UFLOAT_PACK32))) :
    ∃ s' r', CmdClearColorImage env s commandBuffer image imageLayout pColor rangeCount pRanges
        = .ok s' ∧
      s'.s_activeCopyOperations = s.s_activeCopyOperations ∧
      s'.renderer = some r' ∧ r'.frame0 = r.frame0 ∧ r'.frame1 = r.frame1 ∧
      s'.calls = s.calls ++ (if s.VK then [] else [Event.VRManagerInit]) ++
        layerInitCalls s r commandBuffer image ++
        [.DriverCmdClearColorImage commandBuffer image imageLayout
          (if env.IsRendering3D slot then transparentClear else blackClear)
          rangeCount pRanges] ∧
      ∀ ev ∈ newCalls s s', ev.isLayerCopy = false := by
  subst hslot
  have hk : captureIdx pColor = 0 ∨ captureIdx pColor = 2 := Or.inl hcap
  obtain ⟨l, hl, h3, h2, -⟩ :=
    initLayers_ok env ⟨initVRManager s, r, false, false⟩ (captureIdx pColor) commandBuffer
      image hk (by simpa using hlayers)
  obtain ⟨hf0, hf1, hcalls, himgs, hcol, -, hops, -, -⟩ :=
    initLayers_inv env _ l _ commandBuffer image hk hl
  simp only [initVRManager_color, initVRManager_ops,
    initVRManager_imageResolutions] at hf0 hf1 hcalls himgs hcol hops
  have hmiss : resolve3DColorImage l image = l := by
    apply resolve3DColorImage_miss
    rintro ⟨h0, ext, hx⟩
    exact hres ⟨by rw [← hcol]; exact h0, ext, by
      simpa [State.findImage, himgs] using hx⟩
  have hne' : image ≠ l.st.s_curr3DColorImage := by
    rw [hcol]
    exact fun h => hne h.symm
  have h3D : clearColor3D env l e (frameIdx pColor) commandBuffer image imageLayout rangeCount
      pRanges = .ok (l.call (.DriverCmdClearColorImage commandBuffer image imageLayout
        (if env.IsRendering3D (frameIdx pColor) then transparentClear else blackClear)
        rangeCount pRanges)).done := by
    unfold clearColor3D
    simp only []
    rw [hmiss, if_neg (by simp [hflat]), if_pos hne']
  have hmain : CmdClearColorImage env s commandBuffer image imageLayout pColor rangeCount
      pRanges = clearColor3D env l e (frameIdx pColor) commandBuffer image imageLayout
        rangeCount pRanges := by
    rw [hcap] at hl
    simp only [CmdClearColorImage, hside, hcap, initVRManager_renderer, hr, hl, hinit]
    have h2' : l.renderer.m_layer2D ≠ none := by
      intro h; rw [h] at h2; exact absurd h2 (by simp)
    simp [h3, h2']
  rw [h3D] at hmain
  have hc : (l.call (.DriverCmdClearColorImage commandBuffer image imageLayout
        (if env.IsRendering3D (frameIdx pColor) then transparentClear else blackClear)
        rangeCount pRanges)).done.calls = s.calls ++
        ((if s.VK then [] else [Event.VRManagerInit]) ++
        layerInitCalls s r commandBuffer image ++
        [.DriverCmdClearColorImage commandBuffer image imageLayout
          (if env.IsRendering3D (frameIdx pColor) then transparentClear else blackClear)
          rangeCount pRanges]) := by
    simp [Locals.done, Locals.call, State.call, hcalls, initVRManager_calls, layerInitCalls]
  refine ⟨_, l.renderer, hmain, by simp [Locals.done, Locals.call, State.call, hops], rfl,
    hf0, hf1, by rw [hc]; simp, ?_⟩
  intro ev hev
  rw [newCalls_append _ _ _ hc] at hev
  rcases List.mem_append.mp hev with h | h
  · rcases List.mem_append.mp h with h | h
    · split_ifs at h
      · simp at h
      · simp only [List.mem_singleton] at h
        subst h
        rfl
    · obtain ⟨w, h', f, rfl⟩ := layerInitCalls_mem _ _ _ _ _ h
      rfl
  · simp only [List.mem_singleton] at h
    subst h
    rfl

/-- C12 at the captured state: the left-eye clear arrives on image `9` while the cached 3D
colour image is `7`, and `IsRendering3D(0)` is false. -/
theorem C12_substitute_clear_witness :
    ∃ s' r', CmdClearColorImage demoEnv capturedState 11 9 1 leftPayload 1 [0] = .ok s' ∧
      s'.s_activeCopyOperations = capturedState.s_activeCopyOperations ∧
      s'.renderer = some r' ∧ r'.frame0 = capturedRenderer.frame0 ∧
      r'.frame1 = capturedRenderer.frame1 ∧
      s'.calls = capturedState.calls ++
        (if capturedState.VK then [] else [Event.VRManagerInit]) ++
        layerInitCalls capturedState capturedRenderer 11 9 ++
        [.DriverCmdClearColorImage 11 9 1
          (if demoEnv.IsRendering3D 0 then transparentClear else blackClear) 1 [0]] ∧
      ∀ ev ∈ newCalls capturedState s', ev.isLayerCopy = false :=
  C12_substitute_clear demoEnv capturedState capturedRenderer .LEFT 0 11 9 1 leftPayload 1 [0]
    (by norm_num [colorSide, leftPayload]) (by norm_num [captureIdx, lroundf, leftPayload])
    (by norm_num [frameIdx, leftPayload]) rfl (Or.inl ⟨rfl, rfl⟩) rfl rfl (by decide)
    (fun h => absurd h.1 (by decide))

/-- C13 fails on the code: `CreateImage` registers the handle found in `*pImage` without
looking at the result of the driver. A creation request of 1920x1080 that the driver answers
with `VK_ERROR_OUT_OF_DEVICE_MEMORY`, leaving `VK_NULL_HANDLE` in `*pImage`, returns that
error and leaves a record for the handle although no image is alive; a second such request
ends in the fatal assertion of line 24. -/
theorem C13_failed_creation_registered :
    aliveImages [] [.create colorRequest VK_ERROR_OUT_OF_DEVICE_MEMORY VK_NULL_HANDLE] = [] ∧
    (∃ s', CreateImage initialState colorRequest VK_ERROR_OUT_OF_DEVICE_MEMORY VK_NULL_HANDLE
        = .ok (s', VK_ERROR_OUT_OF_DEVICE_MEMORY) ∧
      s'.findImage VK_NULL_HANDLE =
        some (⟨1920, 1080⟩, VK_FORMAT_B10G11R11_UFLOAT_PACK32) ∧
      CreateImage s' colorRequest VK_ERROR_OUT_OF_DEVICE_MEMORY VK_NULL_HANDLE =
        .error "Could not insert image resolution into map!") := by
  exact ⟨by decide, _, rfl, by decide, rfl⟩

/-- C14: in every state reachable by the intercepted operations, a non-null
`s_curr3DColorImage` is a registered image of format `B10G11R11_UFLOAT_PACK32` and a non-null
`s_curr3DDepthImage` a registered image of format `D32_SFLOAT`; hence after
`DestroyImage(h)` for a non-null handle `h` the registry has no record for `h` and neither
cache equals `h`. -/
theorem C14_destroyed_image_forgotten (s : State) (h : VkImage) (hs : Reachable s)
    (hh : h ≠ VK_NULL_HANDLE) :
    CachesRegistered s ∧
    (DestroyImage s h).findImage h = none ∧
    (DestroyImage s h).s_curr3DColorImage ≠ h ∧
    (DestroyImage s h).s_curr3DDepthImage ≠ h := by
  have hinv := reachable_cachesRegistered s hs
  refine ⟨hinv, ?_, ?_, ?_⟩
  · rw [DestroyImage_findImage, if_pos rfl]
  · rw [DestroyImage_color]
    split_ifs with hc
    · exact fun he => hh he.symm
    · exact hc
  · rw [DestroyImage_depth]
    by_cases hc : s.s_curr3DColorImage = h
    · rw [if_pos hc, ← hc]
      exact caches_differ s hinv (by rw [hc]; exact hh)
    · rw [if_neg hc]
      split_ifs with hd
      · exact fun he => hh he.symm
      · exact hd

/-- C14 at a reachable state whose colour cache is the registered image `7`: destroying the
image leaves no record for it and resets the cache. -/
theorem C14_destroyed_image_forgotten_witness :
    ∃ s, (Reachable s ∧ s.s_curr3DColorImage = 7 ∧ s.findImage 7 ≠ none) ∧
      (7 : VkImage) ≠ VK_NULL_HANDLE ∧
      (DestroyImage s 7).findImage 7 = none ∧
      (DestroyImage s 7).s_curr3DColorImage ≠ 7 ∧
      (DestroyImage s 7).s_curr3DDepthImage ≠ 7 :=
  reachable_cached_color.elim fun s hs =>
    ⟨s, hs, by decide, (C14_destroyed_image_forgotten s 7 hs.1 (by decide)).2⟩

/-- C15 (as amended): a recognised colour clear (eye LEFT or RIGHT, capture index 0 or 2)
that arrives while `GetRenderer()` is non-null and `IsInitialized()` is false records no
clear, layout transition or copy, enqueues no pending copy and changes no frame-slot flag
(it returns whenever the layers exist or can be constructed from the registered image); one
that arrives while `GetRenderer()` is null forwards the original clear to the driver,
unmodified, as its one recorded command, and enqueues nothing. -/
theorem C15_before_initialisation (env : Collaborators) (s : State)
    (commandBuffer : VkCommandBuffer) (image : VkImage) (imageLayout : VkImageLayout)
    (pColor : VkClearColorValue) (rangeCount : Nat) (pRanges : List VkImageSubresourceRange)
    (hside : colorSide pColor ≠ none)
    (hcap : captureIdx pColor = 0 ∨ captureIdx pColor = 2) :
    (∀ r, s.renderer = some r → env.IsInitialized = false →
      (∀ s', CmdClearColorImage env s commandBuffer image imageLayout pColor rangeCount pRanges
          = .ok s' →
        (∀ ev ∈ newCalls s s', ev.isClearTransitionOrCopy = false) ∧
        s'.s_activeCopyOperations = s.s_activeCopyOperations ∧
        ∃ r', s'.renderer = some r' ∧ r'.frame0 = r.frame0 ∧ r'.frame1 = r.frame1) ∧
      (r.m_layer2D.isSome ∨ (s.findImage image).isSome →
        ∃ s', CmdClearColorImage env s commandBuffer image imageLayout pColor rangeCount
          pRanges = .ok s')) ∧
    (s.renderer = none →
      ∃ s', CmdClearColorImage env s commandBuffer image imageLayout pColor rangeCount pRanges
          = .ok s' ∧
        s'.calls = s.calls ++ (if s.VK then [] else [Event.VRManagerInit]) ++
          [.DriverCmdClearColorImage commandBuffer image imageLayout pColor rangeCount
            pRanges] ∧
        s'.s_activeCopyOperations = s.s_activeCopyOperations ∧
        s'.renderer = none) := by
  obtain ⟨side, hside⟩ := Option.ne_none_iff_exists'.mp hside
  constructor
  · intro r hr hinit
    have hok : ∀ l, initLayers env ⟨initVRManager s, r, false, false⟩ (captureIdx pColor)
        commandBuffer image = .ok l →
        CmdClearColorImage env s commandBuffer image imageLayout pColor rangeCount pRanges
          = .ok l.done := by
      intro l hl
      simp only [CmdClearColorImage, hside, initVRManager_renderer, hr, hl]
      simp [hcap, hinit]
    have herr : ∀ e, initLayers env ⟨initVRManager s, r, false, false⟩ (captureIdx pColor)
        commandBuffer image = .error e →
        CmdClearColorImage env s commandBuffer image imageLayout pColor rangeCount pRanges
          = .error e := by
      intro e hl
      simp only [CmdClearColorImage, hside, initVRManager_renderer, hr, hl]
      simp [hcap]
    constructor
    · intro s' hs'
      cases hl : initLayers env ⟨initVRManager s, r, false, false⟩ (captureIdx pColor)
          commandBuffer image with
      | error e => rw [herr e hl] at hs'; cases hs'
      | ok l =>
        rw [hok l hl] at hs'
        cases hs'
        obtain ⟨hf0, hf1, hcalls, -, -, -, hops, -, -⟩ :=
          initLayers_inv env _ l _ commandBuffer image hcap hl
        simp only [initVRManager_ops] at hf0 hf1 hcalls hops
        refine ⟨?_, by simp [Locals.done, hops], l.renderer, rfl, hf0, hf1⟩
        intro ev hev
        rw [newCalls_append s l.done ((if s.VK then [] else [Event.VRManagerInit]) ++
          layerInitCalls (initVRManager s) r commandBuffer image)
          (by simp [Locals.done, hcalls, initVRManager_calls])] at hev
        rcases List.mem_append.mp hev with h | h
        · split_ifs at h
          · simp at h
          · simp only [List.mem_singleton] at h
            subst h
            rfl
        · obtain ⟨w, h', f, rfl⟩ := layerInitCalls_mem _ _ _ _ _ h
          rfl
    · intro hcan
      have hl : ∃ l, initLayers env ⟨initVRManager s, r, false, false⟩ (captureIdx pColor)
          commandBuffer image = .ok l := by
        cases h2 : r.m_layer2D with
        | some x =>
          simp only [initLayers, hcap, if_true, h2]
          exact ⟨_, rfl⟩
        | none =>
          have hf : (s.findImage image).isSome := by
            rcases hcan with h | h
            · rw [h2] at h; cases h
            · exact h
          obtain ⟨it, hit⟩ := Option.isSome_iff_exists.mp hf
          simp only [initLayers, hcap, if_true, h2, initVRManager_findImage, hit]
          exact ⟨_, rfl⟩
      obtain ⟨l, hl⟩ := hl
      exact ⟨_, hok l hl⟩
  · intro hr
    have hrun : CmdClearColorImage env s commandBuffer image imageLayout pColor rangeCount
        pRanges = .ok ((initVRManager s).call (.DriverCmdClearColorImage commandBuffer image
          imageLayout pColor rangeCount pRanges)) := by
      simp only [CmdClearColorImage, hside, initVRManager_renderer, hr]
      simp [hcap]
    exact ⟨_, hrun, by simp [State.call, initVRManager_calls], by simp [State.call],
      by simp [State.call, hr]⟩

/-- C15 at the left-eye clear of the registered image `7` while the renderer exists, its
layers are not constructed yet and `IsInitialized()` is still false. -/
theorem C15_before_initialisation_witness :
    (∀ r, demoState.renderer = some r → earlyEnv.IsInitialized = false →
      (∀ s', CmdClearColorImage earlyEnv demoState 11 7 1 leftPayload 1 [0] = .ok s' →
        (∀ ev ∈ newCalls demoState s', ev.isClearTransitionOrCopy = false) ∧
        s'.s_activeCopyOperations = demoState.s_activeCopyOperations ∧
        ∃ r', s'.renderer = some r' ∧ r'.frame0 = r.frame0 ∧ r'.frame1 = r.frame1) ∧
      (r.m_layer2D.isSome ∨ (demoState.findImage 7).isSome →
        ∃ s', CmdClearColorImage earlyEnv demoState 11 7 1 leftPayload 1 [0] = .ok s')) ∧
    (demoState.renderer = none →
      ∃ s', CmdClearColorImage earlyEnv demoState 11 7 1 leftPayload 1 [0] = .ok s' ∧
        s'.calls = demoState.calls ++ (if demoState.VK then [] else [Event.VRManagerInit]) ++
          [.DriverCmdClearColorImage 11 7 1 leftPayload 1 [0]] ∧
        s'.s_activeCopyOperations = demoState.s_activeCopyOperations ∧
        s'.renderer = none) :=
  C15_before_initialisation earlyEnv demoState 11 7 1 leftPayload 1 [0]
    (by rw [show colorSide leftPayload = some .LEFT by norm_num [colorSide, leftPayload]]
        exact Option.some_ne_none _)
    (Or.inl (by norm_num [captureIdx, lroundf, leftPayload]))

/-- C15 as stated fails: it is not the case that every recognised colour clear arriving
before the pipeline is initialised records no clear. While `GetRenderer()` is null, the
left-eye clear on image `7` is forwarded to the driver with its original colour. -/
theorem C15_counterexample :
    ¬ ∀ (env : Collaborators) (s : State) (commandBuffer : VkCommandBuffer)
        (image : VkImage) (imageLayout : VkImageLayout) (pColor : VkClearColorValue)
        (rangeCount : Nat) (pRanges : List VkImageSubresourceRange),
        colorSide pColor ≠ none → (captureIdx pColor = 0 ∨ captureIdx pColor = 2) →
        (s.renderer = none ∨ env.IsInitialized = false) →
        ∀ s', CmdClearColorImage env s commandBuffer image imageLayout pColor rangeCount
            pRanges = .ok s' →
          ∀ ev ∈ newCalls s s', ev.isClearTransitionOrCopy = false := by
  intro h
  have := h demoEnv noRendererState 11 7 1 leftPayload 1 [0]
    (by rw [show colorSide leftPayload = some .LEFT by norm_num [colorSide, leftPayload]]
        exact Option.some_ne_none _)
    (Or.inl (by norm_num [captureIdx, lroundf, leftPayload])) (Or.inl rfl) _
    no_renderer_clear_eval (.DriverCmdClearColorImage 11 7 1 leftPayload 1 [0])
    (by rw [newCalls_append noRendererState _ [.DriverCmdClearColorImage 11 7 1 leftPayload 1
      [0]] rfl]; simp)
  simp [Event.isClearTransitionOrCopy] at this

/-- C16: the LEFT and RIGHT colour detection conditions are disjoint, no payload satisfies
both, so the eye that `CmdClearColorImage` decodes is the same when the RIGHT condition is
tested before the LEFT one. -/
theorem C16_color_windows_disjoint (pColor : VkClearColorValue) :
    ¬ ((0.12 ≤ pColor.float32_1 ∧ pColor.float32_1 ≤ 0.13 ∧
        0.97 ≤ pColor.float32_2 ∧ pColor.float32_2 ≤ 0.99) ∧
       (0.12 ≤ pColor.float32_2 ∧ pColor.float32_2 ≤ 0.13 ∧
        0.97 ≤ pColor.float32_1 ∧ pColor.float32_1 ≤ 0.99)) ∧
    colorSide pColor =
      (if 0.12 ≤ pColor.float32_2 ∧ pColor.float32_2 ≤ 0.13 ∧
          0.97 ≤ pColor.float32_1 ∧ pColor.float32_1 ≤ 0.99 then some .RIGHT
       else if 0.12 ≤ pColor.float32_1 ∧ pColor.float32_1 ≤ 0.13 ∧
          0.97 ≤ pColor.float32_2 ∧ pColor.float32_2 ≤ 0.99 then some .LEFT
       else none) := by
  have hdis : ¬ ((0.12 ≤ pColor.float32_1 ∧ pColor.float32_1 ≤ 0.13 ∧
        0.97 ≤ pColor.float32_2 ∧ pColor.float32_2 ≤ 0.99) ∧
       (0.12 ≤ pColor.float32_2 ∧ pColor.float32_2 ≤ 0.13 ∧
        0.97 ≤ pColor.float32_1 ∧ pColor.float32_1 ≤ 0.99)) := by
    rintro ⟨⟨-, h1, -, -⟩, ⟨-, -, h2, -⟩⟩
    norm_num at h1 h2
    linarith
  refine ⟨hdis, ?_⟩
  unfold colorSide
  by_cases hl : 0.12 ≤ pColor.float32_1 ∧ pColor.float32_1 ≤ 0.13 ∧
      0.97 ≤ pColor.float32_2 ∧ pColor.float32_2 ≤ 0.99
  · have hr : ¬ (0.12 ≤ pColor.float32_2 ∧ pColor.float32_2 ≤ 0.13 ∧
        0.97 ≤ pColor.float32_1 ∧ pColor.float32_1 ≤ 0.99) := fun hr => hdis ⟨hl, hr⟩
    rw [if_pos hl, if_neg hr, if_pos hl]
  · rw [if_neg hl]
    by_cases hr : 0.12 ≤ pColor.float32_2 ∧ pColor.float32_2 ≤ 0.13 ∧
        0.97 ≤ pColor.float32_1 ∧ pColor.float32_1 ≤ 0.99
    · rw [if_pos hr, if_pos hr]
    · rw [if_neg hr, if_neg hr, if_neg hl]

/-- C17: for every execution of `CmdClearColorImage` that returns, on whichever branch, the
layout transitions it records on the image form an empty or well-formed chain (the first
starts from the original layout of the caller, each later one starts from the layout the
previous one ended in, the last one ends in the original layout), and every colour clear of
the image that it sends to the driver is sent while the image is in the original layout:
following the recorded calls from the original layout never fails and ends in the original
layout. -/
theorem C17_layout_chain (env : Collaborators) (s s' : State)
    (commandBuffer : VkCommandBuffer) (image : VkImage) (imageLayout : VkImageLayout)
    (pColor : VkClearColorValue) (rangeCount : Nat) (pRanges : List VkImageSubresourceRange)
    (h : CmdClearColorImage env s commandBuffer image imageLayout pColor rangeCount pRanges
      = .ok s') :
    layoutAfter image imageLayout imageLayout (newCalls s s') = some imageLayout := by
  have hinitEv : ∀ e ∈ (if s.VK then [] else [Event.VRManagerInit]), e.keepsLayout = true := by
    intro e he
    split_ifs at he
    · simp at he
    · simp only [List.mem_singleton] at he
      subst he
      rfl
  have hfin : ∀ evs, s'.calls = s.calls ++ (if s.VK then [] else [Event.VRManagerInit]) ++ evs →
      layoutAfter image imageLayout imageLayout evs = some imageLayout →
      layoutAfter image imageLayout imageLayout (newCalls s s') = some imageLayout := by
    intro evs hcalls hevs
    rw [newCalls_append s s' _ (by rw [hcalls, List.append_assoc]), layoutAfter_append,
      layoutAfter_keeps _ _ _ hinitEv]
    exact hevs
  have hclear : ∀ c, layoutAfter image imageLayout imageLayout
      [.DriverCmdClearColorImage commandBuffer image imageLayout c rangeCount pRanges] =
        some imageLayout := by
    intro c
    simp [layoutAfter]
  unfold CmdClearColorImage at h
  simp only at h
  cases hside : colorSide pColor with
  | none =>
    simp only [hside] at h
    cases h
    exact hfin [.DriverCmdClearColorImage commandBuffer image imageLayout pColor rangeCount
          pRanges] (by simp [State.call, initVRManager_calls]) (hclear _)
  | some side =>
    simp only [hside] at h
    by_cases hk : captureIdx pColor = 0 ∨ captureIdx pColor = 2
    · rw [if_neg (not_not.mpr hk)] at h
      cases hr : s.renderer with
      | none =>
        simp only [initVRManager_renderer, hr] at h
        cases h
        exact hfin [.DriverCmdClearColorImage commandBuffer image imageLayout pColor rangeCount
          pRanges] (by simp [State.call, initVRManager_calls]) (hclear _)
      | some r =>
        simp only [initVRManager_renderer, hr] at h
        cases hl : initLayers env ⟨initVRManager s, r, false, false⟩ (captureIdx pColor)
            commandBuffer image with
        | error e => rw [hl] at h; cases h
        | ok l =>
          rw [hl] at h
          simp only at h
          obtain ⟨-, -, hcalls, -, -, -, -, hsrc, hdst⟩ :=
            initLayers_inv env _ l _ commandBuffer image hk hl
          simp only [initVRManager_calls] at hcalls hsrc hdst
          have hlayer : ∀ e ∈ layerInitCalls (initVRManager s) r commandBuffer image,
              e.keepsLayout = true := by
            intro e he
            obtain ⟨w, h', f, rfl⟩ := layerInitCalls_mem _ _ _ _ _ he
            rfl
          have hfin2 : ∀ evs, s'.calls = l.st.calls ++ evs →
              layoutAfter image imageLayout imageLayout evs = some imageLayout →
              layoutAfter image imageLayout imageLayout (newCalls s s') = some imageLayout := by
            intro evs hc hevs
            refine hfin (layerInitCalls (initVRManager s) r commandBuffer image ++ evs)
              (by rw [hc, hcalls]; simp) ?_
            rw [layoutAfter_append, layoutAfter_keeps _ _ _ hlayer]
            exact hevs
          cases hi : env.IsInitialized with
          | false =>
            simp only [hi, Bool.not_false, if_true] at h
            cases h
            exact hfin2 [] (by simp [Locals.done]) rfl
          | true =>
            simp only [hi, Bool.not_true, Bool.false_eq_true, if_false] at h
            by_cases h2 : ¬ (l.renderer.m_layer3D.isSome ∧ l.renderer.m_layer2D.isSome)
            · rw [if_pos h2] at h
              cases h
            rw [if_neg h2] at h
            by_cases h3 : captureIdx pColor = 0
            · rw [if_pos h3] at h
              obtain ⟨evs, hc, hevs⟩ := clearColor3D_layout env l side _ commandBuffer image
                imageLayout rangeCount pRanges s' hsrc hdst h
              exact hfin2 evs hc hevs
            rw [if_neg h3] at h
            by_cases h4 : captureIdx pColor = 2
            · rw [if_pos h4] at h
              cases h
              obtain ⟨evs, hc, hevs⟩ := clearColor2D_layout env l side (frameIdx pColor)
                commandBuffer image imageLayout rangeCount pRanges hsrc hdst
              exact hfin2 evs hc hevs
            · rw [if_neg h4] at h
              cases h
              exact hfin2 [] (by simp [Locals.done]) rfl
    · rw [if_pos hk] at h
      cases h

/-- C17 at the first left-eye clear of a frame on the registered image `7`, which records the
chain from layout `1` to `TRANSFER_SRC_OPTIMAL` and back. -/
theorem C17_layout_chain_witness :
    ∃ s', CmdClearColorImage demoEnv demoState 11 7 1 leftPayload 1 [0] = .ok s' ∧
      layoutAfter 7 1 1 (newCalls demoState s') = some 1 :=
  demo_left_clear_ok.elim fun s' h =>
    ⟨s', h, C17_layout_chain demoEnv demoState s' 11 7 1 leftPayload 1 [0] h⟩

/-- C18: in the rewriting path of `QueueSubmit`, for a sub-batch whose already-present
timeline structure has `waitSemaphoreValueCount <= waitSemaphoreCount` and
`signalSemaphoreValueCount <= signalSemaphoreCount`, both copy loops of lines 459-464 run
to their end with every write `timelineWaitValues[j]` / `timelineSignalValues[j]` inside the
vector sized to the semaphore count: the vectors keep their sizes and hold the existing
values followed by zeros, and the iteration yields its shadow sub-batch, never the
out-of-range outcome. -/
theorem C18_timeline_writes_in_bounds (b : VkSubmitInfo) (hfit : TimelineValuesFit b) :
    copyTimelineValues (List.replicate b.pWaitSemaphores.length 0) 0 (existingWaitValues b) =
      some (existingWaitValues b ++
        List.replicate (b.pWaitSemaphores.length - (existingWaitValues b).length) 0) ∧
    copyTimelineValues (List.replicate b.pSignalSemaphores.length 0) 0
        (existingSignalValues b) =
      some (existingSignalValues b ++
        List.replicate (b.pSignalSemaphores.length - (existingSignalValues b).length) 0) ∧
    (∃ m, initialVectors b = some m ∧
      m.timelineWaitValues.length = b.pWaitSemaphores.length ∧
      m.timelineSignalValues.length = b.pSignalSemaphores.length) ∧
    ∀ (env : Collaborators) (ops : List (VkCommandBuffer × SharedTexture)),
      ∃ r, rewriteSubmit env ops b = .ok r := by
  obtain ⟨hw, hg⟩ := hfit
  refine ⟨copyTimelineValues_replicate _ _ hw, copyTimelineValues_replicate _ _ hg,
    ⟨_, initialVectors_eq b hw hg, ?_, ?_⟩, ?_⟩
  · simp only [List.length_append, List.length_replicate]
    omega
  · simp only [List.length_append, List.length_replicate]
    omega
  · intro env ops
    exact ⟨_, rewriteSubmit_eq env ops b ⟨hw, hg⟩⟩

/-- C18 at the sub-batch whose chain holds a timeline structure of one wait and one signal
value for one wait and one signal semaphore. -/
theorem C18_timeline_writes_in_bounds_witness :
    TimelineValuesFit timelineSubmit ∧
    (∃ m, initialVectors timelineSubmit = some m ∧
      m.timelineWaitValues.length = timelineSubmit.pWaitSemaphores.length ∧
      m.timelineSignalValues.length = timelineSubmit.pSignalSemaphores.length) :=
  ⟨by decide, (C18_timeline_writes_in_bounds timelineSubmit (by decide)).2.2.1⟩

end BetterVR
